import Mathlib

/-!
# ncbar: frame presentation engine

A shallow embedding of `src/src/renderer.cpp` and of `Window::Render` in
`src/src/window.cpp`.

* Vulkan handles are natural numbers, `0` being the null handle.
* `uint32_t` values are natural numbers; where the source wraps, converts or
  complements them the operation is written out modulo `2 ^ 32`.
* The driver is an oracle: every call of the source into Vulkan takes its
  answer (result code, written handle, written count) from an environment
  record, and is appended to the `trace` of the renderer.
* Reads that C++ leaves undefined (an index past the end of a vector, a
  division by zero) make the embedded function return `none`.
-/

namespace NcBar

/-! ## Constants of the Vulkan headers used by the source -/

def VK_SUCCESS : Int := 0
def VK_SUBOPTIMAL_KHR : Int := 1000001003
def VK_ERROR_OUT_OF_DATE_KHR : Int := -1000001004
def VK_NULL_HANDLE : Nat := 0
def VK_FORMAT_B8G8R8A8_UNORM : Nat := 44
def VK_PRESENT_MODE_MAILBOX_KHR : Nat := 1
def VK_COMPOSITE_ALPHA_PRE_MULTIPLIED_BIT_KHR : Nat := 2
def VK_IMAGE_USAGE_COLOR_ATTACHMENT_BIT : Nat := 16
def VK_SHARING_MODE_EXCLUSIVE : Nat := 0

/-! ## Machine integers -/

/-- Number of values of a `uint32_t`. -/
def UINT32_SIZE : Nat := 4294967296

/-- Conversion `uint32_t -> int32_t` (two's complement). -/
def toInt32 (u : Nat) : Int :=
  if u % UINT32_SIZE < 2147483648 then ((u % UINT32_SIZE : Nat) : Int)
  else ((u % UINT32_SIZE : Nat) : Int) - (UINT32_SIZE : Int)

/-- Conversion `static_cast<uint32_t>(int32_t)`. -/
def toUint32 (i : Int) : Nat := (i % (UINT32_SIZE : Int)).toNat

/-- Bitwise complement `~u` of a `uint32_t`. -/
def complement32 (u : Nat) : Nat := UINT32_SIZE - 1 - u % UINT32_SIZE

/-! ## Data model -/

structure VkExtent2D where
  width : Nat
  height : Nat
  deriving DecidableEq, Repr

structure VkSurfaceFormatKHR where
  format : Nat
  colorSpace : Nat
  deriving DecidableEq, Repr

structure VkSurfaceCapabilitiesKHR where
  minImageCount : Nat
  maxImageCount : Nat
  currentExtent : VkExtent2D
  maxImageExtent : VkExtent2D
  currentTransform : Nat
  deriving DecidableEq, Repr

/-- The fields of `VkSwapchainCreateInfoKHR` that `InitSwapchain` fills in. -/
structure VkSwapchainCreateInfoKHR where
  minImageCount : Nat
  imageFormat : Nat
  imageColorSpace : Nat
  imageExtent : VkExtent2D
  imageArrayLayers : Nat
  imageUsage : Nat
  imageSharingMode : Nat
  preTransform : Nat
  compositeAlpha : Nat
  presentMode : Nat
  clipped : Bool
  oldSwapchain : Nat
  deriving DecidableEq, Repr

/-- One entry of `Renderer::swapchainResources` (renderer.hpp). -/
structure SwapchainResources where
  commandBuffer : Nat := 0
  image : Nat := 0
  imageView : Nat := 0
  framebuffer : Nat := 0
  startSemaphore : Nat := 0
  endSemaphore : Nat := 0
  fence : Nat := 0
  lastFence : Nat := 0
  deriving DecidableEq, Repr

/-- The calls the renderer issues, with the arguments the claims speak about.
Creation calls carry the handle the driver wrote. -/
inductive Call where
  | vkWaitForFences (fence : Nat)
  | vkAcquireNextImageKHR (swapchain : Nat) (semaphore : Nat)
  | vkDeviceWaitIdle
  | vkResetFences (fence : Nat)
  | vkBeginCommandBuffer (commandBuffer : Nat)
  | callbackOnPresent (frameIndex : Nat)
  | vkEndCommandBuffer (commandBuffer : Nat)
  | vkQueueSubmit (waitSemaphore : Nat) (commandBuffer : Nat) (signalSemaphore : Nat) (fence : Nat)
  | vkQueuePresentKHR (waitSemaphore : Nat) (swapchain : Nat) (imageIndex : Nat)
  | vkGetPhysicalDeviceSurfaceCapabilitiesKHR
  | vkGetPhysicalDeviceSurfaceFormatsKHR
  | vkCreateSwapchainKHR (createInfo : VkSwapchainCreateInfoKHR) (handle : Nat)
  | vkCreateRenderPass (format : Nat) (handle : Nat)
  | vkGetSwapchainImagesKHR
  | vkAllocateCommandBuffers (handle : Nat)
  | vkCreateImageView (image : Nat) (format : Nat) (handle : Nat)
  | vkCreateFramebuffer (renderPass : Nat) (imageView : Nat) (width : Nat) (height : Nat) (handle : Nat)
  | vkCreateSemaphore (handle : Nat)
  | vkCreateFence (signaled : Bool) (handle : Nat)
  | vkDestroyFence (handle : Nat)
  | vkDestroySemaphore (handle : Nat)
  | vkDestroyFramebuffer (handle : Nat)
  | vkDestroyImageView (handle : Nat)
  | vkFreeCommandBuffers (handle : Nat)
  | vkDestroyRenderPass (handle : Nat)
  | vkDestroySwapchainKHR (handle : Nat)
  | wl_surface_commit
  | vkCreateWaylandSurfaceKHR (handle : Nat)
  | vkGetDeviceQueue
  | vkCreateCommandPool (handle : Nat)
  | vkDestroyCommandPool (handle : Nat)
  | vkDestroySurfaceKHR (handle : Nat)
  deriving DecidableEq, Repr

/-- A line written to `std::cerr`. -/
inductive Stderr where
  | vkFailure (command : String) (result : Int)
  | message (text : String)
  deriving DecidableEq, Repr

/-- The members of `Renderer` the embedded functions read or write, with the
ghost fields `trace` (calls issued so far) and `log` (lines on stderr).
`callbackOnPresent` is the registered callback reduced to its Boolean result
as a function of the frame index (`none`: no callback registered); the
commands it records are outside the model. -/
structure Renderer where
  graphicsQueue : Nat := 0
  surface : Nat := 0
  commandPool : Nat := 0
  swapchain : Nat := 0
  renderPass : Nat := 0
  swapchainResources : List SwapchainResources := []
  framesCount : Nat := 0
  currentFrame : Nat := 0
  nextFrame : Nat := 0
  callbackOnPresent : Option (Nat → Bool) := none
  trace : List Call := []
  log : List Stderr := []

/-- What the renderer reads of its owning window through `GetWindow()`: the
`uint32_t` members `width` and `height`. -/
structure WindowSize where
  width : Nat
  height : Nat
  deriving DecidableEq, Repr

/-- The members of `Window` used by `Window::Render` (window.hpp). -/
structure Window where
  width : Nat := 1280
  height : Nat := 720
  newWidth : Nat := 0
  newHeight : Nat := 0
  renderer : Renderer := {}
  resize : Bool := false
  readyToResize : Bool := false
  isGoingToClose : Bool := false

/-- Getter `Window::GetWidth`, which returns `int32_t`. -/
def WindowSize.GetWidth (w : WindowSize) : Int := toInt32 w.width

/-- Getter `Window::GetHeight`, which returns `int32_t`. -/
def WindowSize.GetHeight (w : WindowSize) : Int := toInt32 w.height

/-! ## Driver oracle -/

/-- Answers of the driver to the six creation calls of one loop iteration of
`InitSwapchain`: result code and the handle found in the output variable. -/
structure BundleReply where
  allocateResult : Int := 0
  commandBuffer : Nat := 0
  imageViewResult : Int := 0
  imageView : Nat := 0
  framebufferResult : Int := 0
  framebuffer : Nat := 0
  startSemaphoreResult : Int := 0
  startSemaphore : Nat := 0
  endSemaphoreResult : Int := 0
  endSemaphore : Nat := 0
  fenceResult : Int := 0
  fence : Nat := 0
  deriving DecidableEq, Repr

/-- Answers of the driver during one run of `InitSwapchain`. `formats` is the
vector after the second format query (its length is the reported count);
`imagesCount` is the count written by the first `vkGetSwapchainImagesKHR`,
`imagesWritten` the count written by the second, `image i` the handle at
index `i` of the image vector. -/
structure BuildEnv where
  capabilitiesResult : Int := 0
  capabilities : VkSurfaceCapabilitiesKHR
  formatsCountResult : Int := 0
  formatsResult : Int := 0
  formats : List VkSurfaceFormatKHR
  createSwapchainResult : Int := 0
  swapchain : Nat
  createRenderPassResult : Int := 0
  renderPass : Nat
  imagesCountResult : Int := 0
  imagesCount : Nat
  imagesResult : Int := 0
  imagesWritten : Nat
  image : Nat → Nat
  bundle : Nat → BundleReply

/-- Answers of the driver during one run of `Renderer::Render`; `acquired` is
the index `vkAcquireNextImageKHR` writes to `nextFrame` (`none`: it writes
nothing), `build` answers the rebuild if one happens. -/
structure RenderEnv where
  waitFenceResult : Int := 0
  acquireResult : Int := 0
  acquired : Option Nat
  idleResult : Int := 0
  waitLastFenceResult : Int := 0
  resetFencesResult : Int := 0
  beginResult : Int := 0
  endResult : Int := 0
  submitResult : Int := 0
  presentResult : Int := 0
  build : BuildEnv

/-- Answers of the driver during one run of `Renderer::Init`. -/
structure InitEnv where
  surfaceResult : Int := 0
  surface : Nat
  graphicsQueue : Nat
  commandPoolResult : Int := 0
  commandPool : Nat
  build : BuildEnv

/-- Answers of the driver during one run of `Window::Render`. -/
structure WindowEnv where
  idleResult : Int := 0
  build : BuildEnv
  render : RenderEnv

/-! ## vulkanHelper.hpp -/

/-- Model of `print_vk_result`: a line on stderr unless the result is `VK_SUCCESS`. -/
def print_vk_result (name : String) (result : Int) (r : Renderer) : Renderer :=
  if result ≠ VK_SUCCESS then { r with log := r.log ++ [Stderr.vkFailure name result] } else r

/-- Model of the `CHECK_VK_RESULT` macro: it only prints. -/
def CHECK_VK_RESULT (name : String) (result : Int) (r : Renderer) : Renderer :=
  print_vk_result name result r

/-- Record a call in the trace. -/
def Renderer.call (r : Renderer) (c : Call) : Renderer :=
  { r with trace := r.trace ++ [c] }

/-! ## renderer.cpp: building and destroying the chain -/

/-- Lines 91-97 of `InitSwapchain`, the loop: the first entry whose format is
`VK_FORMAT_B8G8R8A8_UNORM` replaces the initial choice and ends the loop. -/
def chooseFormatLoop (chosenFormat : VkSurfaceFormatKHR) :
    List VkSurfaceFormatKHR → VkSurfaceFormatKHR
  | [] => chosenFormat
  | currentFormat :: rest =>
    if currentFormat.format = VK_FORMAT_B8G8R8A8_UNORM then currentFormat
    else chooseFormatLoop chosenFormat rest

/-- Lines 91-97 of `InitSwapchain`: `formats[0]`, then the loop. Reading
`formats[0]` of an empty vector is undefined: `none`. -/
def chooseFormat (formats : List VkSurfaceFormatKHR) : Option VkSurfaceFormatKHR :=
  match formats[0]? with
  | none => none
  | some first => some (chooseFormatLoop first formats)

/-- Line 101 of `InitSwapchain`: the value stored in `framesCount` and passed as
`minImageCount` of the creation request. The sum is a `uint32_t` sum. -/
def imageCount (capabilities : VkSurfaceCapabilitiesKHR) : Nat :=
  if (capabilities.minImageCount + 1) % UINT32_SIZE < capabilities.maxImageCount
  then (capabilities.minImageCount + 1) % UINT32_SIZE
  else capabilities.maxImageCount

/-- Lines 103-108 of `InitSwapchain`: the `int32_t` locals `width` and `height`. -/
def resolveExtent (window : Option WindowSize) (capabilities : VkSurfaceCapabilitiesKHR) :
    Int × Int :=
  let width := toInt32 (if complement32 capabilities.currentExtent.width ≠ 0
    then capabilities.currentExtent.width else capabilities.maxImageExtent.width)
  let height := toInt32 (if complement32 capabilities.currentExtent.height ≠ 0
    then capabilities.currentExtent.height else capabilities.maxImageExtent.height)
  match window with
  | some w =>
    if w.GetWidth ≠ 0 ∧ w.GetHeight ≠ 0 then (w.GetWidth, w.GetHeight) else (width, height)
  | none => (width, height)

/-- Lines 110-129 of `InitSwapchain`: the creation request. -/
def swapchainCreateInfo (framesCount : Nat) (chosenFormat : VkSurfaceFormatKHR)
    (width height : Int) (capabilities : VkSurfaceCapabilitiesKHR) : VkSwapchainCreateInfoKHR :=
  { minImageCount := framesCount
    imageFormat := chosenFormat.format
    imageColorSpace := chosenFormat.colorSpace
    imageExtent := { width := toUint32 width, height := toUint32 height }
    imageArrayLayers := 1
    imageUsage := VK_IMAGE_USAGE_COLOR_ATTACHMENT_BIT
    imageSharingMode := VK_SHARING_MODE_EXCLUSIVE
    preTransform := capabilities.currentTransform
    compositeAlpha := VK_COMPOSITE_ALPHA_PRE_MULTIPLIED_BIT_KHR
    presentMode := VK_PRESENT_MODE_MAILBOX_KHR
    clipped := true
    oldSwapchain := VK_NULL_HANDLE }

/-- Semantics of `std::vector::resize(n)` on the bundle vector. -/
def resizeVector (xs : List SwapchainResources) (n : Nat) : List SwapchainResources :=
  xs.take n ++ List.replicate (n - xs.length) ({} : SwapchainResources)

/-- Lines 181-251 of `InitSwapchain`: one iteration of the loop over the
images. `swapchainResources[i]` past the end of the vector is undefined: `none`. -/
def initBundle (env : BuildEnv) (format : Nat) (width height : Int) (i : Nat) (r : Renderer) :
    Option Renderer :=
  match r.swapchainResources[i]? with
  | none => none
  | some current =>
    let reply := env.bundle i
    let r := CHECK_VK_RESULT "vkAllocateCommandBuffers" reply.allocateResult
      (r.call (Call.vkAllocateCommandBuffers reply.commandBuffer))
    let current := { current with commandBuffer := reply.commandBuffer }
    let current := { current with image := env.image i }
    let r := CHECK_VK_RESULT "vkCreateImageView" reply.imageViewResult
      (r.call (Call.vkCreateImageView current.image format reply.imageView))
    let current := { current with imageView := reply.imageView }
    let r := CHECK_VK_RESULT "vkCreateFramebuffer" reply.framebufferResult
      (r.call (Call.vkCreateFramebuffer r.renderPass current.imageView
        (toUint32 width) (toUint32 height) reply.framebuffer))
    let current := { current with framebuffer := reply.framebuffer }
    let r := CHECK_VK_RESULT "vkCreateSemaphore" reply.startSemaphoreResult
      (r.call (Call.vkCreateSemaphore reply.startSemaphore))
    let current := { current with startSemaphore := reply.startSemaphore }
    let r := CHECK_VK_RESULT "vkCreateSemaphore" reply.endSemaphoreResult
      (r.call (Call.vkCreateSemaphore reply.endSemaphore))
    let current := { current with endSemaphore := reply.endSemaphore }
    let r := CHECK_VK_RESULT "vkCreateFence" reply.fenceResult
      (r.call (Call.vkCreateFence true reply.fence))
    let current := { current with fence := reply.fence }
    let current := { current with lastFence := VK_NULL_HANDLE }
    some { r with swapchainResources := r.swapchainResources.set i current }

/-- Line 180 of `InitSwapchain`: the loop `for (i = 0; i < images.size(); i++)`,
started at index `i` with `remaining` iterations to go. -/
def initBundles (env : BuildEnv) (format : Nat) (width height : Int) :
    Nat → Nat → Renderer → Option Renderer
  | _, 0, r => some r
  | i, remaining + 1, r =>
    match initBundle env format width height i r with
    | none => none
    | some r => initBundles env format width height (i + 1) remaining r

/-- Lines 86-90 of `InitSwapchain`: the capability query and the two format
queries. -/
def querySurface (env : BuildEnv) (r : Renderer) : Renderer :=
  let r := CHECK_VK_RESULT "vkGetPhysicalDeviceSurfaceCapabilitiesKHR" env.capabilitiesResult
    (r.call Call.vkGetPhysicalDeviceSurfaceCapabilitiesKHR)
  let r := CHECK_VK_RESULT "vkGetPhysicalDeviceSurfaceFormatsKHR" env.formatsCountResult
    (r.call Call.vkGetPhysicalDeviceSurfaceFormatsKHR)
  CHECK_VK_RESULT "vkGetPhysicalDeviceSurfaceFormatsKHR" env.formatsResult
    (r.call Call.vkGetPhysicalDeviceSurfaceFormatsKHR)

/-- Lines 99-178 of `InitSwapchain`, once the format is chosen: image count,
extent, creation of the chain and of the render pass, the two image queries
and the resize of the bundle vector. After it `framesCount` holds the count
written by the second image query. -/
def createChain (window : Option WindowSize) (env : BuildEnv)
    (chosenFormat : VkSurfaceFormatKHR) (r : Renderer) : Renderer :=
  let capabilities := env.capabilities
  let format := chosenFormat.format
  let r := { r with framesCount := imageCount capabilities }
  let extent := resolveExtent window capabilities
  let createInfo := swapchainCreateInfo r.framesCount chosenFormat extent.1 extent.2 capabilities
  let r := CHECK_VK_RESULT "vkCreateSwapchainKHR" env.createSwapchainResult
    (r.call (Call.vkCreateSwapchainKHR createInfo env.swapchain))
  let r := { r with swapchain := env.swapchain }
  let r := CHECK_VK_RESULT "vkCreateRenderPass" env.createRenderPassResult
    (r.call (Call.vkCreateRenderPass format env.renderPass))
  let r := { r with renderPass := env.renderPass }
  let r := CHECK_VK_RESULT "vkGetSwapchainImagesKHR" env.imagesCountResult
    (r.call Call.vkGetSwapchainImagesKHR)
  let r := { r with framesCount := env.imagesCount }
  let r := CHECK_VK_RESULT "vkGetSwapchainImagesKHR" env.imagesResult
    (r.call Call.vkGetSwapchainImagesKHR)
  let r := { r with framesCount := env.imagesWritten }
  { r with swapchainResources := resizeVector r.swapchainResources r.framesCount }

/-- Model of `Renderer::InitSwapchain` (renderer.cpp 78-255). The image vector
has `env.imagesCount` entries (the count of the first image query), which is
the bound of the loop. The only `return` of the function is `return true`.
The initial values of the locals `format`, `width` and `height` are
overwritten before they are read and do not appear. -/
def InitSwapchain (window : Option WindowSize) (env : BuildEnv) (r : Renderer) :
    Option (Bool × Renderer) :=
  let r := querySurface env r
  match chooseFormat env.formats with
  | none => none
  | some chosenFormat =>
    let extent := resolveExtent window env.capabilities
    let r := createChain window env chosenFormat r
    match initBundles env chosenFormat.format extent.1 extent.2 0 env.imagesCount r with
    | none => none
    | some r => some (true, r)

/-- Lines 259-282 of `DestroySwapchain`: the releases of one bundle, each
guarded by a null test of its handle. -/
def destroyBundle (s : SwapchainResources) : List Call :=
  (if s.fence ≠ 0 then [Call.vkDestroyFence s.fence] else []) ++
  (if s.startSemaphore ≠ 0 then [Call.vkDestroySemaphore s.startSemaphore] else []) ++
  (if s.endSemaphore ≠ 0 then [Call.vkDestroySemaphore s.endSemaphore] else []) ++
  (if s.framebuffer ≠ 0 then [Call.vkDestroyFramebuffer s.framebuffer] else []) ++
  (if s.imageView ≠ 0 then [Call.vkDestroyImageView s.imageView] else []) ++
  (if s.commandBuffer ≠ 0 then [Call.vkFreeCommandBuffers s.commandBuffer] else [])

/-- The loop of `DestroySwapchain` over the bundles. -/
def destroyBundles : List SwapchainResources → List Call
  | [] => []
  | s :: rest => destroyBundle s ++ destroyBundles rest

/-- Lines 285-288 of `DestroySwapchain`: release of the render pass. -/
def destroyRenderPass (r : Renderer) : Renderer :=
  if r.renderPass ≠ 0
  then { r.call (Call.vkDestroyRenderPass r.renderPass) with renderPass := 0 }
  else r

/-- Lines 289-292 of `DestroySwapchain`: release of the chain object. -/
def destroyChain (r : Renderer) : Renderer :=
  if r.swapchain ≠ 0
  then { r.call (Call.vkDestroySwapchainKHR r.swapchain) with swapchain := 0 }
  else r

/-- Model of `Renderer::DestroySwapchain` (renderer.cpp 256-293): the loop
over the bundles, `swapchainResources.clear()`, the render pass, the chain. -/
def DestroySwapchain (r : Renderer) : Renderer :=
  let r : Renderer := { r with trace := r.trace ++ destroyBundles r.swapchainResources }
  let r : Renderer := { r with swapchainResources := [] }
  destroyChain (destroyRenderPass r)

/-- The body of `Renderer::OnResize` (renderer.cpp 370-379) over an arbitrary
chain builder. -/
def OnResizeWith (build : Renderer → Option (Bool × Renderer)) (r : Renderer) :
    Option (Bool × Renderer) :=
  let r := DestroySwapchain r
  match build r with
  | none => none
  | some (false, r) => some (false, r)
  | some (true, r) => some (true, { r with currentFrame := 0 })

/-- Model of `Renderer::OnResize`: the builder is `InitSwapchain`. -/
def OnResize (window : Option WindowSize) (env : BuildEnv) (r : Renderer) :
    Option (Bool × Renderer) :=
  OnResizeWith (InitSwapchain window env) r

/-- Model of `Renderer::InitSurface` (renderer.cpp 52-64). -/
def InitSurface (env : InitEnv) (r : Renderer) : Bool × Renderer :=
  let r := CHECK_VK_RESULT "vkCreateWaylandSurfaceKHR" env.surfaceResult
    (r.call (Call.vkCreateWaylandSurfaceKHR env.surface))
  let r := { r with surface := env.surface }
  (decide (r.surface ≠ 0), r)

/-- Model of `Renderer::InitGraphicsQueue` (renderer.cpp 47-51). -/
def InitGraphicsQueue (env : InitEnv) (r : Renderer) : Renderer :=
  { r.call Call.vkGetDeviceQueue with graphicsQueue := env.graphicsQueue }

/-- Model of `Renderer::InitCommandPool` (renderer.cpp 65-76). -/
def InitCommandPool (env : InitEnv) (r : Renderer) : Bool × Renderer :=
  let r := CHECK_VK_RESULT "vkCreateCommandPool" env.commandPoolResult
    (r.call (Call.vkCreateCommandPool env.commandPool))
  let r := { r with commandPool := env.commandPool }
  (decide (r.commandPool ≠ 0), r)

/-- Write a line to `std::cerr`. -/
def Renderer.cerr (r : Renderer) (text : String) : Renderer :=
  { r with log := r.log ++ [Stderr.message text] }

/-- Model of `Renderer::Init` (renderer.cpp 24-45). -/
def Init (window : Option WindowSize) (env : InitEnv) (r : Renderer) :
    Option (Bool × Renderer) :=
  match InitSurface env r with
  | (false, r) => some (false, r.cerr "Vulkan: Failed to get create wayland surface")
  | (true, r) =>
    let r := InitGraphicsQueue env r
    match InitCommandPool env r with
    | (false, r) => some (false, r.cerr "Vulkan: Failed to create command pool")
    | (true, r) =>
      match InitSwapchain window env.build r with
      | none => none
      | some (false, r) => some (false, r.cerr "Vulkan: Failed to create swapchain")
      | some (true, r) => some (true, r)

/-- Lines 14-17 of the destructor: release of the command pool. -/
def destroyCommandPool (r : Renderer) : Renderer :=
  if r.commandPool ≠ 0
  then { r.call (Call.vkDestroyCommandPool r.commandPool) with commandPool := 0 }
  else r

/-- Lines 18-21 of the destructor: release of the surface. -/
def destroySurface (r : Renderer) : Renderer :=
  if r.surface ≠ 0
  then { r.call (Call.vkDestroySurfaceKHR r.surface) with surface := 0 }
  else r

/-- Model of `Renderer::~Renderer` (renderer.cpp 10-22); `idleResult` is the
result of `vkDeviceWaitIdle`. -/
def Destructor (idleResult : Int) (r : Renderer) : Renderer :=
  let r := CHECK_VK_RESULT "vkDeviceWaitIdle" idleResult (r.call Call.vkDeviceWaitIdle)
  let r := DestroySwapchain r
  destroySurface (destroyCommandPool r)

/-! ## renderer.cpp: the present cycle -/

/-- Lines 306-308 and 361-363 of `Render`: `else if (result < VK_SUCCESS)` the
result is printed. -/
def checkError (result : Int) (r : Renderer) : Renderer :=
  if result < VK_SUCCESS then CHECK_VK_RESULT "result" result r else r

/-- Lines 311-313 of `Render`: wait on `lastFence` of the acquired bundle when
it is not null. -/
def waitLastFence (env : RenderEnv) (next : SwapchainResources) (r : Renderer) : Renderer :=
  if next.lastFence ≠ 0
  then CHECK_VK_RESULT "vkWaitForFences" env.waitLastFenceResult
    (r.call (Call.vkWaitForFences next.lastFence))
  else r

/-- Line 365 of `Render`: `currentFrame = (currentFrame + 1) % framesCount`
on `uint32_t`. A zero divisor is undefined: `none`. -/
def advanceFrame (r : Renderer) : Option (Bool × Renderer) :=
  if r.framesCount = 0 then none
  else some (true, { r with
    currentFrame := ((r.currentFrame + 1) % UINT32_SIZE) % r.framesCount })

/-- Lines 300-301 of `Render`: wait on the fence of the bundle at
`currentFrame`, then acquire; the driver writes `nextFrame`. -/
def acquireImage (env : RenderEnv) (current : SwapchainResources) (r : Renderer) : Renderer :=
  let r := CHECK_VK_RESULT "vkWaitForFences" env.waitFenceResult
    (r.call (Call.vkWaitForFences current.fence))
  let r := r.call (Call.vkAcquireNextImageKHR r.swapchain current.startSemaphore)
  { r with nextFrame := env.acquired.getD r.nextFrame }

/-- Lines 311-323 of `Render`: wait for the previous user of the acquired
image, store the guarding fence in `lastFence` of the bundle at `nextFrame`,
reset that fence, begin recording. -/
def beginRecording (env : RenderEnv) (current next : SwapchainResources) (r : Renderer) :
    Renderer :=
  let r := waitLastFence env next r
  let r := { r with swapchainResources :=
    r.swapchainResources.set r.nextFrame { next with lastFence := current.fence } }
  let r := CHECK_VK_RESULT "vkResetFences" env.resetFencesResult
    (r.call (Call.vkResetFences current.fence))
  CHECK_VK_RESULT "vkBeginCommandBuffer" env.beginResult
    (r.call (Call.vkBeginCommandBuffer next.commandBuffer))

/-- Lines 332-356 of `Render`: end recording, submit, request presentation. -/
def submitFrame (env : RenderEnv) (current next : SwapchainResources) (r : Renderer) :
    Renderer :=
  let r := CHECK_VK_RESULT "vkEndCommandBuffer" env.endResult
    (r.call (Call.vkEndCommandBuffer next.commandBuffer))
  let r := CHECK_VK_RESULT "vkQueueSubmit" env.submitResult
    (r.call (Call.vkQueueSubmit current.startSemaphore next.commandBuffer
      current.endSemaphore current.fence))
  r.call (Call.vkQueuePresentKHR current.endSemaphore r.swapchain r.nextFrame)

/-- Lines 331-367 of `Render`: submission, presentation, the reaction to its
result and the advance. `current` and `next` are the bundles at `currentFrame`
and `nextFrame`. -/
def submitAndPresent (window : Option WindowSize) (env : RenderEnv)
    (current next : SwapchainResources) (r : Renderer) : Option (Bool × Renderer) :=
  let r := submitFrame env current next r
  let result := env.presentResult
  if result = VK_ERROR_OUT_OF_DATE_KHR ∨ result = VK_SUBOPTIMAL_KHR then
    match OnResize window env.build r with
    | none => none
    | some (false, r) => some (false, r)
    | some (true, r) => advanceFrame r
  else
    advanceFrame (checkError result r)

/-- Lines 310-329 of `Render`: look up the acquired bundle, begin recording,
call the callback. `swapchainResources[nextFrame]` past the end is undefined:
`none`. -/
def recordFrame (window : Option WindowSize) (env : RenderEnv)
    (current : SwapchainResources) (r : Renderer) : Option (Bool × Renderer) :=
  match r.swapchainResources[r.nextFrame]? with
  | none => none
  | some next =>
    let r := beginRecording env current next r
    match r.callbackOnPresent with
    | some callback =>
      let r := r.call (Call.callbackOnPresent r.nextFrame)
      if callback r.nextFrame = false then some (false, r)
      else submitAndPresent window env current next r
    | none => submitAndPresent window env current next r

/-- Model of `Renderer::Render` (renderer.cpp 295-368).
`swapchainResources[currentFrame]` past the end is undefined: `none`. -/
def Render (window : Option WindowSize) (env : RenderEnv) (r : Renderer) :
    Option (Bool × Renderer) :=
  match r.swapchainResources[r.currentFrame]? with
  | none => none
  | some current =>
    let r := acquireImage env current r
    let result := env.acquireResult
    if result = VK_ERROR_OUT_OF_DATE_KHR ∨ result = VK_SUBOPTIMAL_KHR then
      let r := CHECK_VK_RESULT "vkDeviceWaitIdle" env.idleResult (r.call Call.vkDeviceWaitIdle)
      OnResize window env.build r
    else
      recordFrame window env current (checkError result r)

/-! ## window.cpp -/

/-- What `Renderer::GetWindow()` yields while the window is alive. -/
def Window.size (w : Window) : WindowSize := { width := w.width, height := w.height }

/-- Model of `Window::Render` (window.cpp 227-250). -/
def Window.Render (env : WindowEnv) (w : Window) : Option (Bool × Window) :=
  let afterResize : Option (Bool × Window) :=
    if w.readyToResize = true ∧ w.resize = true then
      let w := { w with width := w.newWidth, height := w.newHeight }
      let r := CHECK_VK_RESULT "vkDeviceWaitIdle" env.idleResult
        (w.renderer.call Call.vkDeviceWaitIdle)
      match OnResize (some w.size) env.build r with
      | none => none
      | some (false, r) =>
        some (false, { w with renderer :=
          { r with log := r.log ++ [Stderr.message "Failed to resize renderer"] } })
      | some (true, r) =>
        some (true, { w with
          renderer := r.call Call.wl_surface_commit, readyToResize := false, resize := false })
    else some (true, w)
  match afterResize with
  | none => none
  | some (false, w) => some (false, w)
  | some (true, w) =>
    match NcBar.Render (some w.size) env.render w.renderer with
    | none => none
    | some (result, r) => some (result, { w with renderer := r })

/-! ## Classification of the calls in a trace -/

/-- Calls by which the chain is queried, built or destroyed (the calls of
`InitSwapchain` and `DestroySwapchain`). -/
def Call.isChainCall : Call → Bool
  | Call.vkGetPhysicalDeviceSurfaceCapabilitiesKHR => true
  | Call.vkGetPhysicalDeviceSurfaceFormatsKHR => true
  | Call.vkCreateSwapchainKHR _ _ => true
  | Call.vkCreateRenderPass _ _ => true
  | Call.vkGetSwapchainImagesKHR => true
  | Call.vkAllocateCommandBuffers _ => true
  | Call.vkCreateImageView _ _ _ => true
  | Call.vkCreateFramebuffer _ _ _ _ _ => true
  | Call.vkCreateSemaphore _ => true
  | Call.vkCreateFence _ _ => true
  | Call.vkDestroyFence _ => true
  | Call.vkDestroySemaphore _ => true
  | Call.vkDestroyFramebuffer _ => true
  | Call.vkDestroyImageView _ => true
  | Call.vkFreeCommandBuffers _ => true
  | Call.vkDestroyRenderPass _ => true
  | Call.vkDestroySwapchainKHR _ => true
  | _ => false

def Call.isFenceWait : Call → Bool
  | Call.vkWaitForFences _ => true
  | _ => false

def Call.isFenceReset : Call → Bool
  | Call.vkResetFences _ => true
  | _ => false

def Call.isRecording : Call → Bool
  | Call.vkBeginCommandBuffer _ => true
  | Call.vkEndCommandBuffer _ => true
  | _ => false

def Call.isCallback : Call → Bool
  | Call.callbackOnPresent _ => true
  | _ => false

def Call.isSubmit : Call → Bool
  | Call.vkQueueSubmit _ _ _ _ => true
  | _ => false

def Call.isPresent : Call → Bool
  | Call.vkQueuePresentKHR _ _ _ => true
  | _ => false

/-- Calls that belong to rendering a frame: fence waits and resets, recording,
the callback, submission and presentation. -/
def Call.isFrameCall (c : Call) : Bool :=
  c.isFenceWait || c.isFenceReset || c.isRecording || c.isCallback || c.isSubmit || c.isPresent

/-! ## Expected traces -/

/-- The calls of the loop of `InitSwapchain` from index `i` on. -/
def initBundlesCalls (env : BuildEnv) (format : Nat) (width height : Int) (renderPass : Nat) :
    Nat → Nat → List Call
  | _, 0 => []
  | i, remaining + 1 =>
    [Call.vkAllocateCommandBuffers (env.bundle i).commandBuffer,
     Call.vkCreateImageView (env.image i) format (env.bundle i).imageView,
     Call.vkCreateFramebuffer renderPass (env.bundle i).imageView
       (toUint32 width) (toUint32 height) (env.bundle i).framebuffer,
     Call.vkCreateSemaphore (env.bundle i).startSemaphore,
     Call.vkCreateSemaphore (env.bundle i).endSemaphore,
     Call.vkCreateFence true (env.bundle i).fence] ++
    initBundlesCalls env format width height renderPass (i + 1) remaining

/-- The calls of one run of `InitSwapchain` that chooses `chosenFormat`. -/
def InitSwapchainCalls (window : Option WindowSize) (env : BuildEnv)
    (chosenFormat : VkSurfaceFormatKHR) : List Call :=
  [Call.vkGetPhysicalDeviceSurfaceCapabilitiesKHR,
   Call.vkGetPhysicalDeviceSurfaceFormatsKHR,
   Call.vkGetPhysicalDeviceSurfaceFormatsKHR,
   Call.vkCreateSwapchainKHR
     (swapchainCreateInfo (imageCount env.capabilities) chosenFormat
       (resolveExtent window env.capabilities).1 (resolveExtent window env.capabilities).2
       env.capabilities) env.swapchain,
   Call.vkCreateRenderPass chosenFormat.format env.renderPass,
   Call.vkGetSwapchainImagesKHR,
   Call.vkGetSwapchainImagesKHR] ++
  initBundlesCalls env chosenFormat.format (resolveExtent window env.capabilities).1
    (resolveExtent window env.capabilities).2 env.renderPass 0 env.imagesCount

/-- The calls of one run of `DestroySwapchain` from state `r`. -/
def DestroySwapchainCalls (r : Renderer) : List Call :=
  destroyBundles r.swapchainResources ++
  (if r.renderPass ≠ 0 then [Call.vkDestroyRenderPass r.renderPass] else []) ++
  (if r.swapchain ≠ 0 then [Call.vkDestroySwapchainKHR r.swapchain] else [])

/-! ## Reading creation requests off a trace -/

/-- The `minImageCount` of every chain creation request in a trace. -/
def requestedImageCounts : List Call → List Nat
  | [] => []
  | Call.vkCreateSwapchainKHR createInfo _ :: rest =>
    createInfo.minImageCount :: requestedImageCounts rest
  | _ :: rest => requestedImageCounts rest

/-- The `imageExtent` of every chain creation request in a trace. -/
def requestedExtents : List Call → List VkExtent2D
  | [] => []
  | Call.vkCreateSwapchainKHR createInfo _ :: rest =>
    createInfo.imageExtent :: requestedExtents rest
  | _ :: rest => requestedExtents rest

/-- Extent resolution stated on the unsigned values, each dimension on its
own: the current value of the surface unless it is `0xFFFFFFFF`, in which case
the maximum value. -/
def capabilityExtent (capabilities : VkSurfaceCapabilitiesKHR) : VkExtent2D :=
  { width := if capabilities.currentExtent.width ≠ 4294967295
      then capabilities.currentExtent.width else capabilities.maxImageExtent.width
    height := if capabilities.currentExtent.height ≠ 4294967295
      then capabilities.currentExtent.height else capabilities.maxImageExtent.height }

/-- Extent resolution stated on the unsigned values: the size of the window
when both its dimensions are nonzero, else `capabilityExtent`. -/
def expectedExtent (window : Option WindowSize) (capabilities : VkSurfaceCapabilitiesKHR) :
    VkExtent2D :=
  match window with
  | some w =>
    if w.width ≠ 0 ∧ w.height ≠ 0 then { width := w.width, height := w.height }
    else capabilityExtent capabilities
  | none => capabilityExtent capabilities

/-! ## The caller's loop -/

/-- The loop of `main`: one `Render` per answer of the driver, stopping at the
first failure. Each cycle is reported as its result and the slot
(`currentFrame`) it started with. -/
def renderCycles (window : Option WindowSize) :
    List RenderEnv → Renderer → Option (List (Bool × Nat) × Renderer)
  | [], r => some ([], r)
  | env :: envs, r =>
    match Render window env r with
    | none => none
    | some (false, r1) => some ([(false, r.currentFrame)], r1)
    | some (true, r1) =>
      match renderCycles window envs r1 with
      | none => none
      | some (reports, r2) => some ((true, r.currentFrame) :: reports, r2)

/-! ## Concrete states and driver answers -/

def exampleCapabilities : VkSurfaceCapabilitiesKHR :=
  { minImageCount := 2, maxImageCount := 8,
    currentExtent := { width := 1280, height := 720 },
    maxImageExtent := { width := 4096, height := 4096 },
    currentTransform := 1 }

def exampleBundle (i : Nat) : BundleReply :=
  { commandBuffer := 10 * i + 11, imageView := 10 * i + 12, framebuffer := 10 * i + 13,
    startSemaphore := 10 * i + 14, endSemaphore := 10 * i + 15, fence := 10 * i + 16 }

/-- A driver that offers two formats and hands out three images. -/
def exampleBuild : BuildEnv :=
  { capabilities := exampleCapabilities
    formats := [{ format := 37, colorSpace := 0 }, { format := 44, colorSpace := 0 }]
    swapchain := 1
    renderPass := 2
    imagesCount := 3
    imagesWritten := 3
    image := fun i => 100 + i
    bundle := exampleBundle }

def alwaysTrue (_ : Nat) : Bool := true

def alwaysFalse (_ : Nat) : Bool := false

/-- The renderer after `Init` against `exampleBuild`: three bundles, slot 0. -/
def exampleRenderer : Renderer :=
  { swapchain := 1
    renderPass := 2
    swapchainResources :=
      [{ commandBuffer := 11, image := 100, imageView := 12, framebuffer := 13,
         startSemaphore := 14, endSemaphore := 15, fence := 16 },
       { commandBuffer := 21, image := 101, imageView := 22, framebuffer := 23,
         startSemaphore := 24, endSemaphore := 25, fence := 26 },
       { commandBuffer := 31, image := 102, imageView := 32, framebuffer := 33,
         startSemaphore := 34, endSemaphore := 35, fence := 36 }]
    framesCount := 3
    callbackOnPresent := some alwaysTrue }

/-- A cycle in which every call succeeds and image `i` is acquired. -/
def successEnv (i : Nat) : RenderEnv := { acquired := some i, build := exampleBuild }

/-- The example chain with a callback that rejects every frame. -/
def rejectingRenderer : Renderer := { exampleRenderer with callbackOnPresent := some alwaysFalse }

/-- A cycle whose acquisition reports that the chain is out of date. -/
def staleAcquireEnv : RenderEnv :=
  { acquireResult := VK_ERROR_OUT_OF_DATE_KHR, acquired := none, build := exampleBuild }

/-- A cycle whose presentation reports a suboptimal chain. -/
def stalePresentEnv : RenderEnv :=
  { acquired := some 1, presentResult := VK_SUBOPTIMAL_KHR, build := exampleBuild }

/-- A window with a pending resize to 640 x 480 over the example chain. -/
def pendingWindow : Window :=
  { width := 1280, height := 720, newWidth := 640, newHeight := 480,
    renderer := exampleRenderer, resize := true, readyToResize := true }

/-- Driver answers for one `Window::Render`: every call succeeds, the rebuild
hands out three images, the cycle acquires image 0. -/
def exampleWindowEnv : WindowEnv := { build := exampleBuild, render := successEnv 0 }

/-- Capabilities with `maxImageCount = 0`, which Vulkan defines as no upper
limit. -/
def unboundedCapabilities : VkSurfaceCapabilitiesKHR :=
  { exampleCapabilities with maxImageCount := 0 }

def unboundedBuild : BuildEnv := { exampleBuild with capabilities := unboundedCapabilities }

/-- Capabilities whose current extent has the sentinel in the width only. -/
def mixedCapabilities : VkSurfaceCapabilitiesKHR :=
  { exampleCapabilities with currentExtent := { width := 4294967295, height := 600 } }

def mixedBuild : BuildEnv := { exampleBuild with capabilities := mixedCapabilities }

/-- A surface that reports zero formats. -/
def noFormatsBuild : BuildEnv := { exampleBuild with formats := [] }

/-- A driver reply in which every creation call of the loop reports
`VK_ERROR_OUT_OF_DEVICE_MEMORY` and writes no handle. -/
def failedBundle (_ : Nat) : BundleReply :=
  { allocateResult := -2, imageViewResult := -2, framebufferResult := -2,
    startSemaphoreResult := -2, endSemaphoreResult := -2, fenceResult := -2 }

/-- A driver that rejects the chain creation with
`VK_ERROR_INITIALIZATION_FAILED` and every creation call of the loop. -/
def rejectingBuild : BuildEnv :=
  { exampleBuild with
    createSwapchainResult := -3, swapchain := 0, bundle := failedBundle }

/-- Driver answers for `Renderer::Init` over `rejectingBuild`: surface, queue
and command pool are created. -/
def rejectingInit : InitEnv :=
  { surface := 7, graphicsQueue := 8, commandPool := 9, build := rejectingBuild }

/-! ## Objects created and released in a trace -/

/-- The kinds of object that make up a chain. -/
inductive ObjectKind where
  | chain
  | renderPass
  | commandBuffer
  | imageView
  | framebuffer
  | semaphore
  | fence
  deriving DecidableEq, Repr

/-- The chain object a creation call of `InitSwapchain` creates: kind and handle. -/
def Call.created : Call → Option (ObjectKind × Nat)
  | Call.vkCreateSwapchainKHR _ handle => some (ObjectKind.chain, handle)
  | Call.vkCreateRenderPass _ handle => some (ObjectKind.renderPass, handle)
  | Call.vkAllocateCommandBuffers handle => some (ObjectKind.commandBuffer, handle)
  | Call.vkCreateImageView _ _ handle => some (ObjectKind.imageView, handle)
  | Call.vkCreateFramebuffer _ _ _ _ handle => some (ObjectKind.framebuffer, handle)
  | Call.vkCreateSemaphore handle => some (ObjectKind.semaphore, handle)
  | Call.vkCreateFence _ handle => some (ObjectKind.fence, handle)
  | _ => none

/-- The chain object a release call of `DestroySwapchain` releases: kind and handle. -/
def Call.released : Call → Option (ObjectKind × Nat)
  | Call.vkDestroySwapchainKHR handle => some (ObjectKind.chain, handle)
  | Call.vkDestroyRenderPass handle => some (ObjectKind.renderPass, handle)
  | Call.vkFreeCommandBuffers handle => some (ObjectKind.commandBuffer, handle)
  | Call.vkDestroyImageView handle => some (ObjectKind.imageView, handle)
  | Call.vkDestroyFramebuffer handle => some (ObjectKind.framebuffer, handle)
  | Call.vkDestroySemaphore handle => some (ObjectKind.semaphore, handle)
  | Call.vkDestroyFence handle => some (ObjectKind.fence, handle)
  | _ => none

/-- The objects created by the calls of a trace, in order. -/
def createdObjects (t : List Call) : List (ObjectKind × Nat) := t.filterMap Call.created

/-- The objects released by the calls of a trace, in order. -/
def releasedObjects (t : List Call) : List (ObjectKind × Nat) := t.filterMap Call.released

/-- The bundle that iteration `i` of the loop of `InitSwapchain` writes. -/
def builtBundle (env : BuildEnv) (i : Nat) : SwapchainResources :=
  { commandBuffer := (env.bundle i).commandBuffer
    image := env.image i
    imageView := (env.bundle i).imageView
    framebuffer := (env.bundle i).framebuffer
    startSemaphore := (env.bundle i).startSemaphore
    endSemaphore := (env.bundle i).endSemaphore
    fence := (env.bundle i).fence
    lastFence := 0 }

/-- The objects of one bundle in the order in which the loop of
`InitSwapchain` creates them. -/
def bundleObjects (s : SwapchainResources) : List (ObjectKind × Nat) :=
  [(ObjectKind.commandBuffer, s.commandBuffer), (ObjectKind.imageView, s.imageView),
   (ObjectKind.framebuffer, s.framebuffer), (ObjectKind.semaphore, s.startSemaphore),
   (ObjectKind.semaphore, s.endSemaphore), (ObjectKind.fence, s.fence)]

/-- The release calls of one bundle all of whose handles are set. -/
def bundleReleaseCalls (s : SwapchainResources) : List Call :=
  [Call.vkDestroyFence s.fence, Call.vkDestroySemaphore s.startSemaphore,
   Call.vkDestroySemaphore s.endSemaphore, Call.vkDestroyFramebuffer s.framebuffer,
   Call.vkDestroyImageView s.imageView, Call.vkFreeCommandBuffers s.commandBuffer]

/-- Every engine-owned handle of the bundle is set. -/
def SwapchainResources.complete (s : SwapchainResources) : Prop :=
  s.commandBuffer ≠ 0 ∧ s.imageView ≠ 0 ∧ s.framebuffer ≠ 0 ∧ s.startSemaphore ≠ 0 ∧
    s.endSemaphore ≠ 0 ∧ s.fence ≠ 0

/-- Every creation call of the build is answered with a handle. -/
def BuildEnv.complete (env : BuildEnv) : Prop :=
  env.swapchain ≠ 0 ∧ env.renderPass ≠ 0 ∧ ∀ i, (builtBundle env i).complete

/-- The objects of one bundle in the order in which `DestroySwapchain`
releases them. -/
def bundleReleasedObjects (s : SwapchainResources) : List (ObjectKind × Nat) :=
  [(ObjectKind.fence, s.fence), (ObjectKind.semaphore, s.startSemaphore),
   (ObjectKind.semaphore, s.endSemaphore), (ObjectKind.framebuffer, s.framebuffer),
   (ObjectKind.imageView, s.imageView), (ObjectKind.commandBuffer, s.commandBuffer)]

/-! ## Live chains and the life of a renderer -/

/-- The engine-owned objects a renderer holds, in the order in which
`DestroySwapchain` visits them; null handles hold nothing. -/
def heldObjects (r : Renderer) : List (ObjectKind × Nat) :=
  (r.swapchainResources.flatMap bundleReleasedObjects ++
    [(ObjectKind.renderPass, r.renderPass), (ObjectKind.chain, r.swapchain)]).filter
    (fun o => decide (o.2 ≠ 0))

/-- Effect of one call on the list of live chain objects: a creation that
wrote a handle adds it, a destruction removes it. -/
def chainStep (live : List Nat) : Call → List Nat
  | Call.vkCreateSwapchainKHR _ handle => if handle ≠ 0 then live ++ [handle] else live
  | Call.vkDestroySwapchainKHR handle => live.erase handle
  | _ => live

/-- The chain objects live after a trace, starting from `live`. -/
def liveChainsAfter (live : List Nat) : List Call → List Nat
  | [] => live
  | c :: t => liveChainsAfter (chainStep live c) t

/-- The largest number of chain objects live at any moment of a trace,
starting from `live`. -/
def peakLiveChains (live : List Nat) : List Call → Nat
  | [] => live.length
  | c :: t => max live.length (peakLiveChains (chainStep live c) t)

/-- A call of the public interface of the renderer. -/
inductive Op where
  | render (window : Option WindowSize) (env : RenderEnv)
  | resize (window : Option WindowSize) (env : BuildEnv)

/-- Run one call of the public interface (`Render` or `OnResize`). -/
def Op.run : Op → Renderer → Option (Bool × Renderer)
  | Op.render window env, r => Render window env r
  | Op.resize window env, r => OnResize window env r

/-- Run a sequence of calls, whatever each of them returns. -/
def runOps : List Op → Renderer → Option Renderer
  | [], r => some r
  | op :: ops, r =>
    match op.run r with
    | none => none
    | some (_, r1) => runOps ops r1

/-- The life of a renderer: `Init` on the fresh object, a sequence of calls,
the destructor. -/
def lifetime (window : Option WindowSize) (env : InitEnv) (ops : List Op) (idleResult : Int) :
    Option Renderer :=
  match Init window env {} with
  | none => none
  | some (_, r) =>
    match runOps ops r with
    | none => none
    | some r1 => some (Destructor idleResult r1)

/-- The chain bookkeeping of a renderer agrees with its trace: the live chain
objects are exactly the handle in `swapchain`, and there was never more than
one. -/
def ChainInv (r : Renderer) : Prop :=
  liveChainsAfter [] r.trace = (if r.swapchain ≠ 0 then [r.swapchain] else []) ∧
    peakLiveChains [] r.trace ≤ 1

/-- Calls that create or destroy a chain object. -/
def Call.touchesChain : Call → Bool
  | Call.vkCreateSwapchainKHR _ _ => true
  | Call.vkDestroySwapchainKHR _ => true
  | _ => false

/-- Driver answers for `Renderer::Init` over the example driver. -/
def exampleInit : InitEnv :=
  { surface := 7, graphicsQueue := 8, commandPool := 9, build := exampleBuild }

/-- A life with a normal cycle, a resize, a cycle with a stale presentation
and a cycle with a stale acquisition. -/
def exampleOps : List Op :=
  [Op.render none (successEnv 1), Op.resize none exampleBuild,
   Op.render none stalePresentEnv, Op.render none staleAcquireEnv]

/-! ## A model of fences and submissions -/

/-- What is known of a fence on the CPU side. `guarding s`: the fence was
given to submission `s` and is signalled when `s` has finished;
`unsignalled`: the fence was reset (or created unsignalled) and no queued
submission will signal it. -/
inductive FenceState where
  | signalled
  | unsignalled
  | guarding (submission : Nat)
  deriving DecidableEq, Repr

/-- A queue submission: its number, the command buffer it executes and the
fence that guards it. -/
structure Submission where
  id : Nat
  commandBuffer : Nat
  fence : Nat
  deriving DecidableEq, Repr

/-- The synchronisation state seen from the CPU. A fence is signalled only
when the submission it guards has finished, and a submission counts as in
flight until a wait on its fence (or a device-idle wait) has returned.
`pendingWaits` counts the waits that had to wait for a submission,
`deadWaits` the waits on a fence that nothing will signal. -/
structure Gpu where
  fences : Nat → FenceState := fun _ => FenceState.unsignalled
  inFlight : List Submission := []
  submitted : Nat := 0
  pendingWaits : Nat := 0
  deadWaits : Nat := 0

/-- Set the state of one fence. -/
def Gpu.setFence (g : Gpu) (fence : Nat) (s : FenceState) : Gpu :=
  { g with fences := fun x => if x = fence then s else g.fences x }

/-- A wait on a fence returns: the submission it guards, if any, has finished. -/
def Gpu.wait (g : Gpu) (fence : Nat) : Gpu :=
  match g.fences fence with
  | FenceState.signalled => g
  | FenceState.unsignalled => { g with deadWaits := g.deadWaits + 1 }
  | FenceState.guarding s =>
    { g.setFence fence FenceState.signalled with
      inFlight := g.inFlight.filter (fun x => decide (x.id ≠ s))
      pendingWaits := g.pendingWaits + 1 }

/-- A submission is queued under a fence. -/
def Gpu.submit (g : Gpu) (commandBuffer fence : Nat) : Gpu :=
  { g.setFence fence (FenceState.guarding g.submitted) with
    inFlight := g.inFlight ++
      [{ id := g.submitted, commandBuffer := commandBuffer, fence := fence }]
    submitted := g.submitted + 1 }

/-- The device has gone idle: every submission has finished. -/
def Gpu.idle (g : Gpu) : Gpu :=
  { g with
    fences := fun x =>
      match g.fences x with
      | FenceState.guarding _ => FenceState.signalled
      | s => s
    inFlight := [] }

/-- Effect of one call on the synchronisation state. -/
def gpuStep (g : Gpu) : Call → Gpu
  | Call.vkCreateFence signaled handle =>
    g.setFence handle (if signaled then FenceState.signalled else FenceState.unsignalled)
  | Call.vkResetFences fence => g.setFence fence FenceState.unsignalled
  | Call.vkQueueSubmit _ commandBuffer _ fence => g.submit commandBuffer fence
  | Call.vkWaitForFences fence => g.wait fence
  | Call.vkDeviceWaitIdle => g.idle
  | _ => g

/-- The synchronisation state after a trace. -/
def gpuRun (g : Gpu) : List Call → Gpu
  | [] => g
  | c :: t => gpuRun (gpuStep g c) t

/-- A property of the synchronisation state and the next call holds before
every call of a trace. -/
def AlwaysGpu (P : Gpu → Call → Prop) : Gpu → List Call → Prop
  | _, [] => True
  | g, c :: t => P g c ∧ AlwaysGpu P (gpuStep g c) t

/-- The largest number of submissions in flight at any moment of a trace. -/
def peakInFlight (g : Gpu) : List Call → Nat
  | [] => g.inFlight.length
  | c :: t => max g.inFlight.length (peakInFlight (gpuStep g c) t)

/-- For every `vkBeginCommandBuffer` of a trace: the command buffer and the
state, at that moment, of the fence of the bundle the command buffer belongs
to. -/
def ownFenceAtRecording (bundles : List SwapchainResources) :
    Gpu → List Call → List (Nat × FenceState)
  | _, [] => []
  | g, Call.vkBeginCommandBuffer commandBuffer :: t =>
    ((bundles.filter (fun s => decide (s.commandBuffer = commandBuffer))).map
      (fun s => (commandBuffer, g.fences s.fence))) ++
    ownFenceAtRecording bundles (gpuStep g (Call.vkBeginCommandBuffer commandBuffer)) t
  | g, c :: t => ownFenceAtRecording bundles (gpuStep g c) t

/-- Model of `Renderer::SetOnPresent` (renderer.cpp 381-384). -/
def SetOnPresent (onPresent : Nat → Bool) (r : Renderer) : Renderer :=
  { r with callbackOnPresent := some onPresent }

/-- The synchronisation state right after the example build: the three
fences 16, 26 and 36 are signalled, nothing is in flight. -/
def exampleGpu : Gpu :=
  gpuRun {} (InitSwapchainCalls none exampleBuild { format := 44, colorSpace := 0 })

/-- A chain of two bundles, as the example driver would build it for two
images. -/
def twoBundleRenderer : Renderer :=
  { exampleRenderer with
    swapchainResources := exampleRenderer.swapchainResources.take 2, framesCount := 2 }

/-- The calls of one `Render` cycle with no stale result: `current` and
`next` are the bundles at `currentFrame` and at the acquired index `i`;
`completed` tells whether the cycle went on past the callback. -/
def cycleCalls (r : Renderer) (current next : SwapchainResources) (i : Nat)
    (completed : Bool) : List Call :=
  [Call.vkWaitForFences current.fence,
   Call.vkAcquireNextImageKHR r.swapchain current.startSemaphore] ++
  (if next.lastFence ≠ 0 then [Call.vkWaitForFences next.lastFence] else []) ++
  [Call.vkResetFences current.fence, Call.vkBeginCommandBuffer next.commandBuffer] ++
  (if r.callbackOnPresent.isSome then [Call.callbackOnPresent i] else []) ++
  (if completed then
    [Call.vkEndCommandBuffer next.commandBuffer,
     Call.vkQueueSubmit current.startSemaphore next.commandBuffer
       current.endSemaphore current.fence,
     Call.vkQueuePresentKHR current.endSemaphore r.swapchain i]
   else [])

/-- Neither acquisition nor presentation reports a stale chain. -/
def RenderEnv.notStale (env : RenderEnv) : Prop :=
  ¬ (env.acquireResult = VK_ERROR_OUT_OF_DATE_KHR ∨ env.acquireResult = VK_SUBOPTIMAL_KHR) ∧
  ¬ (env.presentResult = VK_ERROR_OUT_OF_DATE_KHR ∨ env.presentResult = VK_SUBOPTIMAL_KHR)

/-- A `Render` call with no stale result: a cycle on the chain as it is. -/
def Op.isCycle : Op → Prop
  | Op.render _ env => env.notStale
  | Op.resize _ _ => False

/-- The driver handed out non-null, pairwise distinct fences and pairwise
distinct command buffers. -/
def DistinctHandles (bundles : List SwapchainResources) : Prop :=
  (bundles.map (fun s => s.fence)).Nodup ∧ (∀ s ∈ bundles, s.fence ≠ 0) ∧
    (bundles.map (fun s => s.commandBuffer)).Nodup

/-- The bookkeeping of the bundles agrees with the synchronisation state:
every submission in flight is guarded by its fence, which is the fence of one
of the bundles; `lastFence` of a bundle is the fence of any submission in
flight that executes the command buffer of the bundle; no two submissions in
flight share a fence. -/
def Sync (bundles : List SwapchainResources) (g : Gpu) : Prop :=
  (∀ x ∈ g.inFlight, g.fences x.fence = FenceState.guarding x.id) ∧
  (∀ x ∈ g.inFlight, x.fence ∈ bundles.map (fun s => s.fence)) ∧
  (∀ b ∈ bundles, ∀ x ∈ g.inFlight, x.commandBuffer = b.commandBuffer →
    b.lastFence = x.fence) ∧
  (g.inFlight.map (fun x => x.fence)).Nodup

/-- What must hold before a call on a chain of `N` bundles: recording and
submission of a command buffer start only when no submission of that command
buffer is in flight, a submission is queued with at most `N - 1` others in
flight, and after the call at most `N` are in flight. -/
def SafeCall (N : Nat) (g : Gpu) (c : Call) : Prop :=
  (∀ commandBuffer, c = Call.vkBeginCommandBuffer commandBuffer →
    ∀ x ∈ g.inFlight, x.commandBuffer ≠ commandBuffer) ∧
  (∀ waitSemaphore commandBuffer signalSemaphore fence,
    c = Call.vkQueueSubmit waitSemaphore commandBuffer signalSemaphore fence →
    (∀ x ∈ g.inFlight, x.commandBuffer ≠ commandBuffer) ∧ g.inFlight.length + 1 ≤ N) ∧
  (gpuStep g c).inFlight.length ≤ N

/-- A cycle with no stale result in which the driver hands out an image other
than image `i`. -/
def Op.acquiresOther (i : Nat) : Op → Prop
  | Op.render _ env => env.notStale ∧ ∃ j, env.acquired = some j ∧ j ≠ i
  | Op.resize _ _ => False

/-- Two cycles on the example chain: slot 0 draws into image 1, slot 1 into
image 0. -/
def crossedOps : List Op := [Op.render none (successEnv 1), Op.render none (successEnv 0)]

/-- Two cycles on the chain of two bundles, each slot drawing into its own
image. -/
def straightOps : List Op := [Op.render none (successEnv 0), Op.render none (successEnv 1)]

/-- Three cycles on the chain of two bundles: slot 0 draws into image 1,
slot 1 into image 0, slot 0 into image 1 again. -/
def zigzagOps : List Op :=
  [Op.render none (successEnv 1), Op.render none (successEnv 0), Op.render none (successEnv 1)]

/-- No submission in flight executes the command buffer whose recording the
call begins. -/
def RecordsIdleBuffer (g : Gpu) (c : Call) : Prop :=
  ∀ commandBuffer, c = Call.vkBeginCommandBuffer commandBuffer →
    ∀ x ∈ g.inFlight, x.commandBuffer ≠ commandBuffer

/-- No submission in flight executes the command buffer the call submits. -/
def SubmitsIdleBuffer (g : Gpu) (c : Call) : Prop :=
  ∀ waitSemaphore commandBuffer signalSemaphore fence,
    c = Call.vkQueueSubmit waitSemaphore commandBuffer signalSemaphore fence →
    ∀ x ∈ g.inFlight, x.commandBuffer ≠ commandBuffer

/-- A submission is queued with fewer than `N` others in flight. -/
def SubmitsBelow (N : Nat) (g : Gpu) (c : Call) : Prop :=
  ∀ waitSemaphore commandBuffer signalSemaphore fence,
    c = Call.vkQueueSubmit waitSemaphore commandBuffer signalSemaphore fence →
    g.inFlight.length + 1 ≤ N

/-- Two calls of `Render` with a callback that rejects the frame, each time
with image 0 acquired. -/
def retryOps : List Op := [Op.render none (successEnv 0), Op.render none (successEnv 0)]

/-! ## The slot index stays in bounds -/

/-- The slot index is below `framesCount`, which is the length of the bundle
list. -/
def FrameInv (r : Renderer) : Prop :=
  r.currentFrame < r.framesCount ∧ r.framesCount = r.swapchainResources.length

/-- Whatever chain the call builds has at least one image. -/
def Op.buildsImages : Op → Prop
  | Op.render _ env => 1 ≤ env.build.imagesWritten
  | Op.resize _ env => 1 ≤ env.imagesWritten

/-! ## core.cpp: the physical device and the queue family -/

/-- Values of `VkPhysicalDeviceType`. -/
def VK_PHYSICAL_DEVICE_TYPE_OTHER : Int := 0

def VK_PHYSICAL_DEVICE_TYPE_INTEGRATED_GPU : Int := 1

def VK_PHYSICAL_DEVICE_TYPE_DISCRETE_GPU : Int := 2

def VK_PHYSICAL_DEVICE_TYPE_VIRTUAL_GPU : Int := 3

def VK_PHYSICAL_DEVICE_TYPE_CPU : Int := 4

/-- The graphics bit of `VkQueueFlags`. -/
def VK_QUEUE_GRAPHICS_BIT : Nat := 1

/-- The member of `VkQueueFamilyProperties` that `InitVkDevice` reads. -/
structure VkQueueFamilyProperties where
  queueFlags : Nat
  deriving DecidableEq, Repr

/-- The driver calls of `Core::InitVkDevice`, with the arguments that matter. -/
inductive CoreCall where
  | vkEnumeratePhysicalDevices
  | vkGetPhysicalDeviceProperties (physicalDevice : Nat)
  | vkGetPhysicalDeviceQueueFamilyProperties (physicalDevice : Nat)
  | vkGetPhysicalDeviceWaylandPresentationSupportKHR (physicalDevice queueFamilyIndex : Nat)
  | vkEnumerateDeviceLayerProperties (physicalDevice : Nat)
  | vkCreateDevice (physicalDevice queueFamilyIndex enabledLayerCount device : Nat)
  deriving DecidableEq, Repr

/-- The members of `Core` that `InitVkDevice` reads or writes (core.hpp 71-76),
with the ghost fields `trace` and `log`. -/
structure Core where
  physicalDevice : Nat := 0
  device : Nat := 0
  queueFamilyIndex : Nat := 0
  trace : List CoreCall := []
  log : List Stderr := []

/-- Answers of the driver during one run of `Core::InitVkDevice`.
`physicalDevices` is the vector after the two `vkEnumeratePhysicalDevices`
calls and `queueFamilies` the vector after the two
`vkGetPhysicalDeviceQueueFamilyProperties` calls for a device; `deviceType`,
`presentationSupport` (a `VkBool32`) and `layers` (the layer names) are what
the driver reports for a device handle; `device` is the handle
`vkCreateDevice` writes, null on failure. -/
structure DeviceEnv where
  enumerateCountResult : Int := 0
  enumerateResult : Int := 0
  physicalDevices : List Nat
  deviceType : Nat → Int
  queueFamilies : Nat → List VkQueueFamilyProperties
  presentationSupport : Nat → Nat → Nat
  layersCountResult : Int := 0
  layersResult : Int := 0
  layers : Nat → List String := fun _ => []
  createDeviceResult : Int := 0
  device : Nat

/-- Record a call in the trace. -/
def Core.call (c : Core) (x : CoreCall) : Core :=
  { c with trace := c.trace ++ [x] }

/-- The `CHECK_VK_RESULT` macro inside `Core`: it only prints. -/
def Core.CHECK_VK_RESULT (name : String) (result : Int) (c : Core) : Core :=
  if result ≠ VK_SUCCESS then { c with log := c.log ++ [Stderr.vkFailure name result] } else c

/-- Write a line to `std::cerr`. -/
def Core.cerr (c : Core) (text : String) : Core :=
  { c with log := c.log ++ [Stderr.message text] }

/-- The layer names of core.cpp 42-45. -/
def layerNames : List String := ["VK_LAYER_KHRONOS_validation"]

def layerCount : Nat := layerNames.length

/-- The `switch` of core.cpp 267-276: the score of a device type; `none` is
the `default: continue`. -/
def deviceScore (deviceType : Int) : Option Nat :=
  if deviceType = VK_PHYSICAL_DEVICE_TYPE_OTHER then some 1
  else if deviceType = VK_PHYSICAL_DEVICE_TYPE_INTEGRATED_GPU then some 4
  else if deviceType = VK_PHYSICAL_DEVICE_TYPE_DISCRETE_GPU then some 5
  else if deviceType = VK_PHYSICAL_DEVICE_TYPE_VIRTUAL_GPU then some 3
  else if deviceType = VK_PHYSICAL_DEVICE_TYPE_CPU then some 2
  else none

/-- Lines 261-283 of `InitVkDevice`: the loop over the enumerated devices,
started with `bestScore`; it yields the final `bestScore`. -/
def selectPhysicalDevice (env : DeviceEnv) : List Nat → Nat → Core → Nat × Core
  | [], bestScore, c => (bestScore, c)
  | currentPhysicalDevice :: rest, bestScore, c =>
    let c := c.call (CoreCall.vkGetPhysicalDeviceProperties currentPhysicalDevice)
    match deviceScore (env.deviceType currentPhysicalDevice) with
    | none => selectPhysicalDevice env rest bestScore c
    | some score =>
      if score > bestScore
      then selectPhysicalDevice env rest score { c with physicalDevice := currentPhysicalDevice }
      else selectPhysicalDevice env rest bestScore c

/-- Lines 298-308 of `InitVkDevice`: the loop over the queue families with the
counter `i`; the first family that supports presentation and has the graphics
bit sets `queueFamilyIndex` and ends the loop. The counter is a `uint32_t`
that never wraps, as the vector was sized by a `uint32_t`. -/
def findQueueFamily (env : DeviceEnv) : List VkQueueFamilyProperties → Nat → Core → Core
  | [], _, c => c
  | currentQueueFamily :: rest, i, c =>
    let c := c.call
      (CoreCall.vkGetPhysicalDeviceWaylandPresentationSupportKHR c.physicalDevice i)
    let present := env.presentationSupport c.physicalDevice i
    if present ≠ 0 ∧ (currentQueueFamily.queueFlags &&& VK_QUEUE_GRAPHICS_BIT) ≠ 0
    then { c with queueFamilyIndex := i }
    else findQueueFamily env rest (i + 1) c

/-- Lines 336-346 of `InitVkDevice`: the number of pairs of a reported layer
and a wanted layer name that are equal. -/
def foundLayers (layerProperties : List String) : Nat :=
  (layerProperties.flatMap
    (fun currentLayerProperty =>
      layerNames.filter (fun layerName => decide (currentLayerProperty = layerName)))).length

/-- Lines 249-289 of `InitVkDevice`: enumeration and selection of the
physical device, with the two early `return false`. -/
def selectDevice (env : DeviceEnv) (c : Core) : Bool × Core :=
  let c := Core.CHECK_VK_RESULT "vkEnumeratePhysicalDevices" env.enumerateCountResult
    (c.call CoreCall.vkEnumeratePhysicalDevices)
  let c := Core.CHECK_VK_RESULT "vkEnumeratePhysicalDevices" env.enumerateResult
    (c.call CoreCall.vkEnumeratePhysicalDevices)
  if env.physicalDevices.isEmpty then
    (false, c.cerr "Vulkan: Failed to get physical devices")
  else
    match selectPhysicalDevice env env.physicalDevices 0 c with
    | (bestScore, c) =>
      if bestScore = 0 then (false, c.cerr "Vulkan: Failed to select physical device")
      else (true, c)

/-- Lines 292-357 of `InitVkDevice`: the queue family, the layers and the
logical device. -/
def createLogicalDevice (env : DeviceEnv) (c : Core) : Bool × Core :=
  let c := c.call (CoreCall.vkGetPhysicalDeviceQueueFamilyProperties c.physicalDevice)
  let c := c.call (CoreCall.vkGetPhysicalDeviceQueueFamilyProperties c.physicalDevice)
  let c := findQueueFamily env (env.queueFamilies c.physicalDevice) 0 c
  let c := Core.CHECK_VK_RESULT "vkEnumerateDeviceLayerProperties" env.layersCountResult
    (c.call (CoreCall.vkEnumerateDeviceLayerProperties c.physicalDevice))
  let c := Core.CHECK_VK_RESULT "vkEnumerateDeviceLayerProperties" env.layersResult
    (c.call (CoreCall.vkEnumerateDeviceLayerProperties c.physicalDevice))
  let enabledLayerCount :=
    if foundLayers (env.layers c.physicalDevice) ≥ layerCount then layerCount else 0
  let c := Core.CHECK_VK_RESULT "vkCreateDevice" env.createDeviceResult
    (c.call (CoreCall.vkCreateDevice c.physicalDevice c.queueFamilyIndex enabledLayerCount
      env.device))
  let c := { c with device := env.device }
  (decide (c.device ≠ 0), c)

/-- Model of `Core::InitVkDevice` (core.cpp 247-357). -/
def InitVkDevice (env : DeviceEnv) (c : Core) : Bool × Core :=
  match selectDevice env c with
  | (false, c) => (false, c)
  | (true, c) => createLogicalDevice env c

/-- Model of `Core::GetQueueFamilyIndex` (core.hpp 50). -/
def GetQueueFamilyIndex (c : Core) : Nat := c.queueFamilyIndex

/-- Model of `Core::GetPhysicalDevice` (core.hpp 48). -/
def GetPhysicalDevice (c : Core) : Nat := c.physicalDevice

/-- The score the selection loop gives a device: zero for a device it skips. -/
def scoreOf (env : DeviceEnv) (physicalDevice : Nat) : Nat :=
  (deviceScore (env.deviceType physicalDevice)).getD 0

/-- Family `i` of a device supports presentation and has the graphics bit. -/
def qualifies (env : DeviceEnv) (physicalDevice : Nat) (i : Nat)
    (family : VkQueueFamilyProperties) : Bool :=
  decide (env.presentationSupport physicalDevice i ≠ 0 ∧
    (family.queueFlags &&& VK_QUEUE_GRAPHICS_BIT) ≠ 0)

/-- The lowest index of a family of the device that supports presentation and
has the graphics bit, if there is one. -/
def lowestQualifying (env : DeviceEnv) (physicalDevice : Nat) : Option Nat :=
  ((env.queueFamilies physicalDevice).enum.find?
    (fun p => qualifies env physicalDevice p.1 p.2)).map (fun p => p.1)

/-- A machine with an integrated GPU 40, a device 41 of an unknown type, two
discrete GPUs 50 and 51 and a CPU device 60. Family 0 of every device is a
compute family, family 1 has graphics; presentation is supported by family 1
only. -/
def exampleDevices : DeviceEnv :=
  { physicalDevices := [40, 41, 50, 51, 60]
    deviceType := fun d =>
      if d = 40 then 1 else if d = 50 then 2 else if d = 51 then 2 else if d = 60 then 4 else 7
    queueFamilies := fun _ => [{ queueFlags := 2 }, { queueFlags := 3 }]
    presentationSupport := fun _ i => if i = 1 then 1 else 0
    layers := fun _ => ["VK_LAYER_KHRONOS_validation"]
    device := 70 }

/-- The same machine when no queue family supports presentation to the
display. -/
def noPresentDevices : DeviceEnv :=
  { exampleDevices with presentationSupport := fun _ _ => 0 }

/-- The same machine when only the compute family supports presentation. -/
def computePresentDevices : DeviceEnv :=
  { exampleDevices with presentationSupport := fun _ i => if i = 0 then 1 else 0 }

/-- A machine whose only devices are of unknown types. -/
def unknownDevices : DeviceEnv :=
  { exampleDevices with physicalDevices := [41, 42] }

/-- A machine with no device. -/
def noDevices : DeviceEnv := { exampleDevices with physicalDevices := [] }

/-! # Theorems -/

/-! ## Projection lemmas for the bookkeeping helpers -/

@[simp] theorem call_swapchain (r : Renderer) (c : Call) :
    (r.call c).swapchain = r.swapchain := rfl

@[simp] theorem call_renderPass (r : Renderer) (c : Call) :
    (r.call c).renderPass = r.renderPass := rfl

@[simp] theorem call_swapchainResources (r : Renderer) (c : Call) :
    (r.call c).swapchainResources = r.swapchainResources := rfl

@[simp] theorem call_framesCount (r : Renderer) (c : Call) :
    (r.call c).framesCount = r.framesCount := rfl

@[simp] theorem call_currentFrame (r : Renderer) (c : Call) :
    (r.call c).currentFrame = r.currentFrame := rfl

@[simp] theorem call_nextFrame (r : Renderer) (c : Call) :
    (r.call c).nextFrame = r.nextFrame := rfl

@[simp] theorem call_callbackOnPresent (r : Renderer) (c : Call) :
    (r.call c).callbackOnPresent = r.callbackOnPresent := rfl

@[simp] theorem call_trace (r : Renderer) (c : Call) :
    (r.call c).trace = r.trace ++ [c] := rfl

@[simp] theorem call_log (r : Renderer) (c : Call) :
    (r.call c).log = r.log := rfl

@[simp] theorem check_swapchain (name : String) (result : Int) (r : Renderer) :
    (CHECK_VK_RESULT name result r).swapchain = r.swapchain := by
  unfold CHECK_VK_RESULT print_vk_result; split <;> rfl

@[simp] theorem check_renderPass (name : String) (result : Int) (r : Renderer) :
    (CHECK_VK_RESULT name result r).renderPass = r.renderPass := by
  unfold CHECK_VK_RESULT print_vk_result; split <;> rfl

@[simp] theorem check_swapchainResources (name : String) (result : Int) (r : Renderer) :
    (CHECK_VK_RESULT name result r).swapchainResources = r.swapchainResources := by
  unfold CHECK_VK_RESULT print_vk_result; split <;> rfl

@[simp] theorem check_framesCount (name : String) (result : Int) (r : Renderer) :
    (CHECK_VK_RESULT name result r).framesCount = r.framesCount := by
  unfold CHECK_VK_RESULT print_vk_result; split <;> rfl

@[simp] theorem check_currentFrame (name : String) (result : Int) (r : Renderer) :
    (CHECK_VK_RESULT name result r).currentFrame = r.currentFrame := by
  unfold CHECK_VK_RESULT print_vk_result; split <;> rfl

@[simp] theorem check_nextFrame (name : String) (result : Int) (r : Renderer) :
    (CHECK_VK_RESULT name result r).nextFrame = r.nextFrame := by
  unfold CHECK_VK_RESULT print_vk_result; split <;> rfl

@[simp] theorem check_callbackOnPresent (name : String) (result : Int) (r : Renderer) :
    (CHECK_VK_RESULT name result r).callbackOnPresent = r.callbackOnPresent := by
  unfold CHECK_VK_RESULT print_vk_result; split <;> rfl

@[simp] theorem check_trace (name : String) (result : Int) (r : Renderer) :
    (CHECK_VK_RESULT name result r).trace = r.trace := by
  unfold CHECK_VK_RESULT print_vk_result; split <;> rfl

@[simp] theorem checkError_swapchain (result : Int) (r : Renderer) :
    (checkError result r).swapchain = r.swapchain := by
  unfold checkError; split <;> simp

@[simp] theorem checkError_renderPass (result : Int) (r : Renderer) :
    (checkError result r).renderPass = r.renderPass := by
  unfold checkError; split <;> simp

@[simp] theorem checkError_swapchainResources (result : Int) (r : Renderer) :
    (checkError result r).swapchainResources = r.swapchainResources := by
  unfold checkError; split <;> simp

@[simp] theorem checkError_framesCount (result : Int) (r : Renderer) :
    (checkError result r).framesCount = r.framesCount := by
  unfold checkError; split <;> simp

@[simp] theorem checkError_currentFrame (result : Int) (r : Renderer) :
    (checkError result r).currentFrame = r.currentFrame := by
  unfold checkError; split <;> simp

@[simp] theorem checkError_nextFrame (result : Int) (r : Renderer) :
    (checkError result r).nextFrame = r.nextFrame := by
  unfold checkError; split <;> simp

@[simp] theorem checkError_callbackOnPresent (result : Int) (r : Renderer) :
    (checkError result r).callbackOnPresent = r.callbackOnPresent := by
  unfold checkError; split <;> simp

@[simp] theorem checkError_trace (result : Int) (r : Renderer) :
    (checkError result r).trace = r.trace := by
  unfold checkError; split <;> simp

@[simp] theorem waitLastFence_swapchain (env : RenderEnv) (next : SwapchainResources) (r : Renderer) :
    (waitLastFence env next r).swapchain = r.swapchain := by
  unfold waitLastFence; split <;> simp

@[simp] theorem waitLastFence_renderPass (env : RenderEnv) (next : SwapchainResources) (r : Renderer) :
    (waitLastFence env next r).renderPass = r.renderPass := by
  unfold waitLastFence; split <;> simp

@[simp] theorem waitLastFence_swapchainResources (env : RenderEnv) (next : SwapchainResources) (r : Renderer) :
    (waitLastFence env next r).swapchainResources = r.swapchainResources := by
  unfold waitLastFence; split <;> simp

@[simp] theorem waitLastFence_framesCount (env : RenderEnv) (next : SwapchainResources) (r : Renderer) :
    (waitLastFence env next r).framesCount = r.framesCount := by
  unfold waitLastFence; split <;> simp

@[simp] theorem waitLastFence_currentFrame (env : RenderEnv) (next : SwapchainResources) (r : Renderer) :
    (waitLastFence env next r).currentFrame = r.currentFrame := by
  unfold waitLastFence; split <;> simp

@[simp] theorem waitLastFence_nextFrame (env : RenderEnv) (next : SwapchainResources) (r : Renderer) :
    (waitLastFence env next r).nextFrame = r.nextFrame := by
  unfold waitLastFence; split <;> simp

@[simp] theorem waitLastFence_callbackOnPresent (env : RenderEnv) (next : SwapchainResources) (r : Renderer) :
    (waitLastFence env next r).callbackOnPresent = r.callbackOnPresent := by
  unfold waitLastFence; split <;> simp

@[simp] theorem waitLastFence_trace (env : RenderEnv) (next : SwapchainResources) (r : Renderer) :
    (waitLastFence env next r).trace =
      r.trace ++ (if next.lastFence ≠ 0 then [Call.vkWaitForFences next.lastFence] else []) := by
  unfold waitLastFence; split <;> simp

@[simp] theorem acquireImage_swapchain (env : RenderEnv) (current : SwapchainResources)
    (r : Renderer) :
    (acquireImage env current r).swapchain =
      r.swapchain := by
  simp [acquireImage]

@[simp] theorem acquireImage_renderPass (env : RenderEnv) (current : SwapchainResources)
    (r : Renderer) :
    (acquireImage env current r).renderPass =
      r.renderPass := by
  simp [acquireImage]

@[simp] theorem acquireImage_swapchainResources (env : RenderEnv) (current : SwapchainResources)
    (r : Renderer) :
    (acquireImage env current r).swapchainResources =
      r.swapchainResources := by
  simp [acquireImage]

@[simp] theorem acquireImage_framesCount (env : RenderEnv) (current : SwapchainResources)
    (r : Renderer) :
    (acquireImage env current r).framesCount =
      r.framesCount := by
  simp [acquireImage]

@[simp] theorem acquireImage_currentFrame (env : RenderEnv) (current : SwapchainResources)
    (r : Renderer) :
    (acquireImage env current r).currentFrame =
      r.currentFrame := by
  simp [acquireImage]

@[simp] theorem acquireImage_nextFrame (env : RenderEnv) (current : SwapchainResources)
    (r : Renderer) :
    (acquireImage env current r).nextFrame =
      env.acquired.getD r.nextFrame := by
  simp [acquireImage]

@[simp] theorem acquireImage_callbackOnPresent (env : RenderEnv) (current : SwapchainResources)
    (r : Renderer) :
    (acquireImage env current r).callbackOnPresent =
      r.callbackOnPresent := by
  simp [acquireImage]

@[simp] theorem acquireImage_trace (env : RenderEnv) (current : SwapchainResources)
    (r : Renderer) :
    (acquireImage env current r).trace =
      r.trace ++ [Call.vkWaitForFences current.fence,
        Call.vkAcquireNextImageKHR r.swapchain current.startSemaphore] := by
  simp [acquireImage]

@[simp] theorem beginRecording_swapchain (env : RenderEnv) (current next : SwapchainResources)
    (r : Renderer) :
    (beginRecording env current next r).swapchain =
      r.swapchain := by
  simp [beginRecording]

@[simp] theorem beginRecording_renderPass (env : RenderEnv) (current next : SwapchainResources)
    (r : Renderer) :
    (beginRecording env current next r).renderPass =
      r.renderPass := by
  simp [beginRecording]

@[simp] theorem beginRecording_swapchainResources (env : RenderEnv) (current next : SwapchainResources)
    (r : Renderer) :
    (beginRecording env current next r).swapchainResources =
      r.swapchainResources.set r.nextFrame { next with lastFence := current.fence } := by
  simp [beginRecording]

@[simp] theorem beginRecording_framesCount (env : RenderEnv) (current next : SwapchainResources)
    (r : Renderer) :
    (beginRecording env current next r).framesCount =
      r.framesCount := by
  simp [beginRecording]

@[simp] theorem beginRecording_currentFrame (env : RenderEnv) (current next : SwapchainResources)
    (r : Renderer) :
    (beginRecording env current next r).currentFrame =
      r.currentFrame := by
  simp [beginRecording]

@[simp] theorem beginRecording_nextFrame (env : RenderEnv) (current next : SwapchainResources)
    (r : Renderer) :
    (beginRecording env current next r).nextFrame =
      r.nextFrame := by
  simp [beginRecording]

@[simp] theorem beginRecording_callbackOnPresent (env : RenderEnv) (current next : SwapchainResources)
    (r : Renderer) :
    (beginRecording env current next r).callbackOnPresent =
      r.callbackOnPresent := by
  simp [beginRecording]

@[simp] theorem beginRecording_trace (env : RenderEnv) (current next : SwapchainResources)
    (r : Renderer) :
    (beginRecording env current next r).trace =
      r.trace ++ (if next.lastFence ≠ 0 then [Call.vkWaitForFences next.lastFence] else []) ++
        [Call.vkResetFences current.fence, Call.vkBeginCommandBuffer next.commandBuffer] := by
  simp [beginRecording]

@[simp] theorem submitFrame_swapchain (env : RenderEnv) (current next : SwapchainResources)
    (r : Renderer) :
    (submitFrame env current next r).swapchain =
      r.swapchain := by
  simp [submitFrame]

@[simp] theorem submitFrame_renderPass (env : RenderEnv) (current next : SwapchainResources)
    (r : Renderer) :
    (submitFrame env current next r).renderPass =
      r.renderPass := by
  simp [submitFrame]

@[simp] theorem submitFrame_swapchainResources (env : RenderEnv) (current next : SwapchainResources)
    (r : Renderer) :
    (submitFrame env current next r).swapchainResources =
      r.swapchainResources := by
  simp [submitFrame]

@[simp] theorem submitFrame_framesCount (env : RenderEnv) (current next : SwapchainResources)
    (r : Renderer) :
    (submitFrame env current next r).framesCount =
      r.framesCount := by
  simp [submitFrame]

@[simp] theorem submitFrame_currentFrame (env : RenderEnv) (current next : SwapchainResources)
    (r : Renderer) :
    (submitFrame env current next r).currentFrame =
      r.currentFrame := by
  simp [submitFrame]

@[simp] theorem submitFrame_nextFrame (env : RenderEnv) (current next : SwapchainResources)
    (r : Renderer) :
    (submitFrame env current next r).nextFrame =
      r.nextFrame := by
  simp [submitFrame]

@[simp] theorem submitFrame_callbackOnPresent (env : RenderEnv) (current next : SwapchainResources)
    (r : Renderer) :
    (submitFrame env current next r).callbackOnPresent =
      r.callbackOnPresent := by
  simp [submitFrame]

@[simp] theorem submitFrame_trace (env : RenderEnv) (current next : SwapchainResources)
    (r : Renderer) :
    (submitFrame env current next r).trace =
      r.trace ++ [Call.vkEndCommandBuffer next.commandBuffer,
        Call.vkQueueSubmit current.startSemaphore next.commandBuffer
          current.endSemaphore current.fence,
        Call.vkQueuePresentKHR current.endSemaphore r.swapchain r.nextFrame] := by
  simp [submitFrame]

/-! ## The present cycle, stage by stage -/

theorem submitAndPresent_normal (window : Option WindowSize) (env : RenderEnv)
    (current next : SwapchainResources) (r : Renderer)
    (hpres : ¬ (env.presentResult = VK_ERROR_OUT_OF_DATE_KHR ∨
      env.presentResult = VK_SUBOPTIMAL_KHR))
    (hN : r.framesCount ≠ 0) :
    submitAndPresent window env current next r = some (true,
      { checkError env.presentResult (submitFrame env current next r) with
        currentFrame := ((r.currentFrame + 1) % UINT32_SIZE) % r.framesCount }) := by
  unfold submitAndPresent
  simp only [hpres, if_false]
  unfold advanceFrame
  simp [hN]

theorem recordFrame_normal (window : Option WindowSize) (env : RenderEnv)
    (current next : SwapchainResources) (r : Renderer) (callback : Nat → Bool)
    (hnext : r.swapchainResources[r.nextFrame]? = some next)
    (hcb : r.callbackOnPresent = some callback) (htrue : callback r.nextFrame = true)
    (hpres : ¬ (env.presentResult = VK_ERROR_OUT_OF_DATE_KHR ∨
      env.presentResult = VK_SUBOPTIMAL_KHR))
    (hN : r.framesCount ≠ 0) :
    ∃ r1, recordFrame window env current r = some (true, r1) ∧
      r1.currentFrame = ((r.currentFrame + 1) % UINT32_SIZE) % r.framesCount ∧
      r1.framesCount = r.framesCount ∧
      r1.swapchainResources =
        r.swapchainResources.set r.nextFrame { next with lastFence := current.fence } ∧
      r1.callbackOnPresent = r.callbackOnPresent ∧
      r1.trace = r.trace ++
        (if next.lastFence ≠ 0 then [Call.vkWaitForFences next.lastFence] else []) ++
        [Call.vkResetFences current.fence, Call.vkBeginCommandBuffer next.commandBuffer,
         Call.callbackOnPresent r.nextFrame,
         Call.vkEndCommandBuffer next.commandBuffer,
         Call.vkQueueSubmit current.startSemaphore next.commandBuffer
           current.endSemaphore current.fence,
         Call.vkQueuePresentKHR current.endSemaphore r.swapchain r.nextFrame] := by
  unfold recordFrame
  simp only [hnext, beginRecording_callbackOnPresent, hcb, call_nextFrame,
    beginRecording_nextFrame, htrue]
  rw [submitAndPresent_normal _ _ _ _ _ hpres (by simpa using hN)]
  simp [hcb]

/-- A cycle in which acquisition and presentation are not stale and the
callback accepts the acquired index. -/
theorem Render_normal (window : Option WindowSize) (env : RenderEnv) (r : Renderer)
    (i : Nat) (callback : Nat → Bool)
    (hcur : r.currentFrame < r.swapchainResources.length)
    (hacq : ¬ (env.acquireResult = VK_ERROR_OUT_OF_DATE_KHR ∨
      env.acquireResult = VK_SUBOPTIMAL_KHR))
    (hidx : env.acquired = some i) (hi : i < r.swapchainResources.length)
    (hcb : r.callbackOnPresent = some callback) (htrue : callback i = true)
    (hpres : ¬ (env.presentResult = VK_ERROR_OUT_OF_DATE_KHR ∨
      env.presentResult = VK_SUBOPTIMAL_KHR))
    (hN : r.framesCount ≠ 0) :
    ∃ r1, Render window env r = some (true, r1) ∧
      r1.currentFrame = ((r.currentFrame + 1) % UINT32_SIZE) % r.framesCount ∧
      r1.framesCount = r.framesCount ∧
      r1.swapchainResources.length = r.swapchainResources.length ∧
      r1.callbackOnPresent = r.callbackOnPresent ∧
      r1.trace = r.trace ++
        [Call.vkWaitForFences r.swapchainResources[r.currentFrame].fence,
         Call.vkAcquireNextImageKHR r.swapchain
           r.swapchainResources[r.currentFrame].startSemaphore] ++
        (if r.swapchainResources[i].lastFence ≠ 0
          then [Call.vkWaitForFences r.swapchainResources[i].lastFence] else []) ++
        [Call.vkResetFences r.swapchainResources[r.currentFrame].fence,
         Call.vkBeginCommandBuffer r.swapchainResources[i].commandBuffer,
         Call.callbackOnPresent i,
         Call.vkEndCommandBuffer r.swapchainResources[i].commandBuffer,
         Call.vkQueueSubmit r.swapchainResources[r.currentFrame].startSemaphore
           r.swapchainResources[i].commandBuffer
           r.swapchainResources[r.currentFrame].endSemaphore
           r.swapchainResources[r.currentFrame].fence,
         Call.vkQueuePresentKHR r.swapchainResources[r.currentFrame].endSemaphore
           r.swapchain i] := by
  unfold Render
  simp only [List.getElem?_eq_getElem hcur, hacq, if_false]
  obtain ⟨r1, h1, h2, h3, h4, h5, h6⟩ := recordFrame_normal window env
    r.swapchainResources[r.currentFrame] r.swapchainResources[i]
    (checkError env.acquireResult (acquireImage env r.swapchainResources[r.currentFrame] r))
    callback (by simp [hidx, List.getElem?_eq_getElem hi]) (by simp [hcb])
    (by simpa [hidx] using htrue) hpres (by simpa using hN)
  refine ⟨r1, h1, ?_, ?_, ?_, ?_, ?_⟩
  · simpa using h2
  · simpa using h3
  · rw [h4]; simp
  · simpa using h5
  · rw [h6]; simp [hidx]


/-- Iterating normal cycles: the slots used are `c, c+1, ...` modulo `N`. -/
theorem renderCycles_normal (window : Option WindowSize) (callback : Nat → Bool) (N : Nat)
    (hN : 1 ≤ N) (h32 : N < UINT32_SIZE) (htrue : ∀ i, callback i = true) :
    ∀ (envs : List RenderEnv) (r : Renderer),
      (∀ env ∈ envs, env.acquireResult = VK_SUCCESS ∧ env.presentResult = VK_SUCCESS ∧
        ∃ i, env.acquired = some i ∧ i < N) →
      r.framesCount = N → r.swapchainResources.length = N → r.currentFrame < N →
      r.callbackOnPresent = some callback →
      ∃ r1, renderCycles window envs r =
        some ((List.range envs.length).map (fun k => (true, (r.currentFrame + k) % N)), r1) := by
  intro envs
  induction envs with
  | nil => intro r _ _ _ _ _; exact ⟨r, by simp [renderCycles]⟩
  | cons env envs ih =>
    intro r henv hcount hlen hcur hcb
    obtain ⟨hacq, hpres, i, hidx, hi⟩ := henv env (List.mem_cons_self _ _)
    obtain ⟨r1, h1, h2, h3, h4, h5, -⟩ := Render_normal window env r i callback
      (by omega) (by simp [hacq, VK_SUCCESS, VK_ERROR_OUT_OF_DATE_KHR, VK_SUBOPTIMAL_KHR])
      hidx (by omega) hcb (htrue i)
      (by simp [hpres, VK_SUCCESS, VK_ERROR_OUT_OF_DATE_KHR, VK_SUBOPTIMAL_KHR]) (by omega)
    have hmod : (r.currentFrame + 1) % UINT32_SIZE = r.currentFrame + 1 :=
      Nat.mod_eq_of_lt (by omega)
    rw [hmod, hcount] at h2
    obtain ⟨r2, hr2⟩ := ih r1 (fun e he => henv e (List.mem_cons_of_mem _ he))
      (by omega) (by omega) (by rw [h2]; exact Nat.mod_lt _ (by omega)) (by rw [h5, hcb])
    refine ⟨r2, ?_⟩
    simp only [renderCycles, h1, hr2, List.length_cons, List.range_succ_eq_map, List.map_cons,
      List.map_map, Nat.add_zero, Nat.mod_eq_of_lt hcur]
    have hfun : (fun k => (true, (r1.currentFrame + k) % N)) =
        ((fun k => (true, (r.currentFrame + k) % N)) ∘ Nat.succ) := by
      funext k
      simp only [Function.comp, h2, Nat.mod_add_mod, Nat.succ_eq_add_one]
      congr 2
      omega
    rw [hfun]

/-- C1: a cycle on a chain of `N >= 1` bundles with `currentFrame < N`, in
which acquisition reports `VK_SUCCESS` with an image index below `N`,
presentation reports `VK_SUCCESS` and the callback returns true, returns true
and leaves `currentFrame = (currentFrame + 1) mod N`;
ten such cycles from slot 0 on a chain of three bundles all return true and
start on the slots 0,1,2,0,1,2,0,1,2,0. -/
theorem Render_success_advances_round_robin :
    (∀ (window : Option WindowSize) (env : RenderEnv) (r : Renderer) (N i : Nat)
        (callback : Nat → Bool),
      1 ≤ N → N < UINT32_SIZE → r.framesCount = N → r.swapchainResources.length = N →
      r.currentFrame < N → env.acquireResult = VK_SUCCESS → env.acquired = some i → i < N →
      env.presentResult = VK_SUCCESS → r.callbackOnPresent = some callback →
      callback i = true →
      ∃ r1, Render window env r = some (true, r1) ∧
        r1.currentFrame = (r.currentFrame + 1) % N) ∧
    (∀ (window : Option WindowSize) (envs : List RenderEnv) (r : Renderer)
        (callback : Nat → Bool),
      envs.length = 10 →
      (∀ env ∈ envs, env.acquireResult = VK_SUCCESS ∧ env.presentResult = VK_SUCCESS ∧
        ∃ i, env.acquired = some i ∧ i < 3) →
      r.framesCount = 3 → r.swapchainResources.length = 3 → r.currentFrame = 0 →
      r.callbackOnPresent = some callback → (∀ i, callback i = true) →
      ∃ r1, renderCycles window envs r =
        some ([(true, 0), (true, 1), (true, 2), (true, 0), (true, 1), (true, 2), (true, 0),
          (true, 1), (true, 2), (true, 0)], r1)) := by
  constructor
  · intro window env r N i callback hN h32 hcount hlen hcur hacq hidx hi hpres hcb htrue
    obtain ⟨r1, h1, h2, -⟩ := Render_normal window env r i callback
      (by omega) (by simp [hacq, VK_SUCCESS, VK_ERROR_OUT_OF_DATE_KHR, VK_SUBOPTIMAL_KHR])
      hidx (by omega) hcb htrue
      (by simp [hpres, VK_SUCCESS, VK_ERROR_OUT_OF_DATE_KHR, VK_SUBOPTIMAL_KHR]) (by omega)
    have hmod : (r.currentFrame + 1) % UINT32_SIZE = r.currentFrame + 1 :=
      Nat.mod_eq_of_lt (by omega)
    exact ⟨r1, h1, by rw [h2, hmod, hcount]⟩
  · intro window envs r callback hlen10 henv hcount hlen hcur hcb htrue
    obtain ⟨r1, h1⟩ := renderCycles_normal window callback 3 (by decide) (by decide) htrue
      envs r henv hcount hlen (by omega) hcb
    refine ⟨r1, ?_⟩
    rw [h1, hlen10, hcur]
    rfl

/-- Witness of C1 on the three-bundle example chain. -/
theorem Render_success_advances_round_robin_witness :
    (Render none (successEnv 1) exampleRenderer).map (fun p => (p.1, p.2.currentFrame))
        = some (true, 1) ∧
    (renderCycles none [successEnv 1, successEnv 0, successEnv 2, successEnv 2, successEnv 0,
        successEnv 1, successEnv 1, successEnv 0, successEnv 2, successEnv 0]
        exampleRenderer).map (fun p => p.1)
      = some [(true, 0), (true, 1), (true, 2), (true, 0), (true, 1), (true, 2), (true, 0),
          (true, 1), (true, 2), (true, 0)] := by
  constructor
  · obtain ⟨r1, h1, h2⟩ := Render_success_advances_round_robin.1 none (successEnv 1)
      exampleRenderer 3 1 alwaysTrue (by decide) (by decide) rfl rfl (by decide) rfl rfl
      (by decide) rfl rfl rfl
    rw [h1]
    simp [h2, exampleRenderer]
  · obtain ⟨r1, h1⟩ := Render_success_advances_round_robin.2 none
      [successEnv 1, successEnv 0, successEnv 2, successEnv 2, successEnv 0,
        successEnv 1, successEnv 1, successEnv 0, successEnv 2, successEnv 0]
      exampleRenderer alwaysTrue rfl (by simp [successEnv, VK_SUCCESS]) rfl rfl rfl rfl (fun _ => rfl)
    rw [h1]
    rfl

/-! ## Traces of building and destroying -/

@[simp] theorem destroyRenderPass_swapchain (r : Renderer) :
    (destroyRenderPass r).swapchain =
      r.swapchain := by
  unfold destroyRenderPass; split <;> simp_all

@[simp] theorem destroyRenderPass_renderPass (r : Renderer) :
    (destroyRenderPass r).renderPass =
      0 := by
  unfold destroyRenderPass; split <;> simp_all

@[simp] theorem destroyRenderPass_swapchainResources (r : Renderer) :
    (destroyRenderPass r).swapchainResources =
      r.swapchainResources := by
  unfold destroyRenderPass; split <;> simp_all

@[simp] theorem destroyRenderPass_framesCount (r : Renderer) :
    (destroyRenderPass r).framesCount =
      r.framesCount := by
  unfold destroyRenderPass; split <;> simp_all

@[simp] theorem destroyRenderPass_currentFrame (r : Renderer) :
    (destroyRenderPass r).currentFrame =
      r.currentFrame := by
  unfold destroyRenderPass; split <;> simp_all

@[simp] theorem destroyRenderPass_nextFrame (r : Renderer) :
    (destroyRenderPass r).nextFrame =
      r.nextFrame := by
  unfold destroyRenderPass; split <;> simp_all

@[simp] theorem destroyRenderPass_callbackOnPresent (r : Renderer) :
    (destroyRenderPass r).callbackOnPresent =
      r.callbackOnPresent := by
  unfold destroyRenderPass; split <;> simp_all

@[simp] theorem destroyRenderPass_trace (r : Renderer) :
    (destroyRenderPass r).trace =
      r.trace ++ (if r.renderPass ≠ 0 then [Call.vkDestroyRenderPass r.renderPass] else []) := by
  unfold destroyRenderPass; split <;> simp_all

@[simp] theorem destroyChain_swapchain (r : Renderer) :
    (destroyChain r).swapchain =
      0 := by
  unfold destroyChain; split <;> simp_all

@[simp] theorem destroyChain_renderPass (r : Renderer) :
    (destroyChain r).renderPass =
      r.renderPass := by
  unfold destroyChain; split <;> simp_all

@[simp] theorem destroyChain_swapchainResources (r : Renderer) :
    (destroyChain r).swapchainResources =
      r.swapchainResources := by
  unfold destroyChain; split <;> simp_all

@[simp] theorem destroyChain_framesCount (r : Renderer) :
    (destroyChain r).framesCount =
      r.framesCount := by
  unfold destroyChain; split <;> simp_all

@[simp] theorem destroyChain_currentFrame (r : Renderer) :
    (destroyChain r).currentFrame =
      r.currentFrame := by
  unfold destroyChain; split <;> simp_all

@[simp] theorem destroyChain_nextFrame (r : Renderer) :
    (destroyChain r).nextFrame =
      r.nextFrame := by
  unfold destroyChain; split <;> simp_all

@[simp] theorem destroyChain_callbackOnPresent (r : Renderer) :
    (destroyChain r).callbackOnPresent =
      r.callbackOnPresent := by
  unfold destroyChain; split <;> simp_all

@[simp] theorem destroyChain_trace (r : Renderer) :
    (destroyChain r).trace =
      r.trace ++ (if r.swapchain ≠ 0 then [Call.vkDestroySwapchainKHR r.swapchain] else []) := by
  unfold destroyChain; split <;> simp_all

@[simp] theorem DestroySwapchain_swapchain (r : Renderer) :
    (DestroySwapchain r).swapchain =
      0 := by
  simp [DestroySwapchain]

@[simp] theorem DestroySwapchain_renderPass (r : Renderer) :
    (DestroySwapchain r).renderPass =
      0 := by
  simp [DestroySwapchain]

@[simp] theorem DestroySwapchain_swapchainResources (r : Renderer) :
    (DestroySwapchain r).swapchainResources =
      [] := by
  simp [DestroySwapchain]

@[simp] theorem DestroySwapchain_framesCount (r : Renderer) :
    (DestroySwapchain r).framesCount =
      r.framesCount := by
  simp [DestroySwapchain]

@[simp] theorem DestroySwapchain_currentFrame (r : Renderer) :
    (DestroySwapchain r).currentFrame =
      r.currentFrame := by
  simp [DestroySwapchain]

@[simp] theorem DestroySwapchain_nextFrame (r : Renderer) :
    (DestroySwapchain r).nextFrame =
      r.nextFrame := by
  simp [DestroySwapchain]

@[simp] theorem DestroySwapchain_callbackOnPresent (r : Renderer) :
    (DestroySwapchain r).callbackOnPresent =
      r.callbackOnPresent := by
  simp [DestroySwapchain]

@[simp] theorem DestroySwapchain_trace (r : Renderer) :
    (DestroySwapchain r).trace =
      r.trace ++ destroyBundles r.swapchainResources ++
        (if r.renderPass ≠ 0 then [Call.vkDestroyRenderPass r.renderPass] else []) ++
        (if r.swapchain ≠ 0 then [Call.vkDestroySwapchainKHR r.swapchain] else []) := by
  simp [DestroySwapchain]

theorem isChainCall_not_isFrameCall (c : Call) (h : c.isChainCall = true) :
    c.isFrameCall = false := by
  cases c <;> simp_all [Call.isChainCall, Call.isFrameCall, Call.isFenceWait, Call.isFenceReset,
    Call.isRecording, Call.isCallback, Call.isSubmit, Call.isPresent]

theorem destroyBundle_isChainCall (s : SwapchainResources) :
    ∀ c ∈ destroyBundle s, c.isChainCall = true := by
  intro c hc
  unfold destroyBundle at hc
  simp only [List.mem_append] at hc
  rcases hc with ((((h | h) | h) | h) | h) | h <;>
    (split at h <;> simp at h; subst h; rfl)

theorem destroyBundles_isChainCall (xs : List SwapchainResources) :
    ∀ c ∈ destroyBundles xs, c.isChainCall = true := by
  induction xs with
  | nil => intro c hc; simp [destroyBundles] at hc
  | cons s rest ih =>
    intro c hc
    simp only [destroyBundles, List.mem_append] at hc
    rcases hc with h | h
    · exact destroyBundle_isChainCall s c h
    · exact ih c h

/-- `DestroySwapchain` only appends chain calls to the trace. -/
theorem DestroySwapchain_trace_isChainCall (r : Renderer) :
    ∃ t, (DestroySwapchain r).trace = r.trace ++ t ∧ ∀ c ∈ t, c.isChainCall = true := by
  refine ⟨destroyBundles r.swapchainResources ++
    (if r.renderPass ≠ 0 then [Call.vkDestroyRenderPass r.renderPass] else []) ++
    (if r.swapchain ≠ 0 then [Call.vkDestroySwapchainKHR r.swapchain] else []), by simp, ?_⟩
  intro c hc
  simp only [List.mem_append] at hc
  rcases hc with (h | h) | h
  · exact destroyBundles_isChainCall _ c h
  · split at h <;> simp at h; subst h; rfl
  · split at h <;> simp at h; subst h; rfl

/-- One loop iteration of `InitSwapchain` on an index inside the vector. -/
theorem initBundle_spec (env : BuildEnv) (format : Nat) (width height : Int) (i : Nat)
    (r : Renderer) (current : SwapchainResources)
    (h : r.swapchainResources[i]? = some current) :
    ∃ r1, initBundle env format width height i r = some r1 ∧
      r1.swapchainResources = r.swapchainResources.set i
        { commandBuffer := (env.bundle i).commandBuffer
          image := env.image i
          imageView := (env.bundle i).imageView
          framebuffer := (env.bundle i).framebuffer
          startSemaphore := (env.bundle i).startSemaphore
          endSemaphore := (env.bundle i).endSemaphore
          fence := (env.bundle i).fence
          lastFence := 0 } ∧
      r1.trace = r.trace ++
        [Call.vkAllocateCommandBuffers (env.bundle i).commandBuffer,
         Call.vkCreateImageView (env.image i) format (env.bundle i).imageView,
         Call.vkCreateFramebuffer r.renderPass (env.bundle i).imageView
           (toUint32 width) (toUint32 height) (env.bundle i).framebuffer,
         Call.vkCreateSemaphore (env.bundle i).startSemaphore,
         Call.vkCreateSemaphore (env.bundle i).endSemaphore,
         Call.vkCreateFence true (env.bundle i).fence] ∧
      r1.swapchain = r.swapchain ∧ r1.renderPass = r.renderPass ∧
      r1.framesCount = r.framesCount ∧ r1.currentFrame = r.currentFrame ∧
      r1.nextFrame = r.nextFrame ∧ r1.callbackOnPresent = r.callbackOnPresent := by
  unfold initBundle
  simp [h, VK_NULL_HANDLE]

theorem initBundles_spec (env : BuildEnv) (format : Nat) (width height : Int) :
    ∀ (remaining i : Nat) (r : Renderer), i + remaining ≤ r.swapchainResources.length →
    ∃ r1, initBundles env format width height i remaining r = some r1 ∧
      r1.swapchainResources.length = r.swapchainResources.length ∧
      r1.trace = r.trace ++ initBundlesCalls env format width height r.renderPass i remaining ∧
      r1.swapchain = r.swapchain ∧ r1.renderPass = r.renderPass ∧
      r1.framesCount = r.framesCount ∧ r1.currentFrame = r.currentFrame ∧
      r1.nextFrame = r.nextFrame ∧ r1.callbackOnPresent = r.callbackOnPresent := by
  intro remaining
  induction remaining with
  | zero => intro i r _; exact ⟨r, by simp [initBundles, initBundlesCalls]⟩
  | succ k ih =>
    intro i r hlen
    have hi : i < r.swapchainResources.length := by omega
    obtain ⟨r1, h1, h2, h3, h4, h5, h6, h7, h8, h9⟩ := initBundle_spec env format width height i r
      r.swapchainResources[i] (List.getElem?_eq_getElem hi)
    have hlen1 : r1.swapchainResources.length = r.swapchainResources.length := by
      rw [h2]; simp
    obtain ⟨r2, g1, g2, g3, g4, g5, g6, g7, g8, g9⟩ := ih (i + 1) r1 (by omega)
    refine ⟨r2, ?_, ?_, ?_, ?_, ?_, ?_, ?_, ?_, ?_⟩
    · simp [initBundles, h1, g1]
    · omega
    · rw [g3, h3, h5]; simp [initBundlesCalls]
    · rw [g4, h4]
    · rw [g5, h5]
    · rw [g6, h6]
    · rw [g7, h7]
    · rw [g8, h8]
    · rw [g9, h9]

@[simp] theorem querySurface_swapchain (env : BuildEnv) (r : Renderer) :
    (querySurface env r).swapchain =
      r.swapchain := by
  simp [querySurface]

@[simp] theorem querySurface_renderPass (env : BuildEnv) (r : Renderer) :
    (querySurface env r).renderPass =
      r.renderPass := by
  simp [querySurface]

@[simp] theorem querySurface_swapchainResources (env : BuildEnv) (r : Renderer) :
    (querySurface env r).swapchainResources =
      r.swapchainResources := by
  simp [querySurface]

@[simp] theorem querySurface_framesCount (env : BuildEnv) (r : Renderer) :
    (querySurface env r).framesCount =
      r.framesCount := by
  simp [querySurface]

@[simp] theorem querySurface_currentFrame (env : BuildEnv) (r : Renderer) :
    (querySurface env r).currentFrame =
      r.currentFrame := by
  simp [querySurface]

@[simp] theorem querySurface_nextFrame (env : BuildEnv) (r : Renderer) :
    (querySurface env r).nextFrame =
      r.nextFrame := by
  simp [querySurface]

@[simp] theorem querySurface_callbackOnPresent (env : BuildEnv) (r : Renderer) :
    (querySurface env r).callbackOnPresent =
      r.callbackOnPresent := by
  simp [querySurface]

@[simp] theorem querySurface_trace (env : BuildEnv) (r : Renderer) :
    (querySurface env r).trace =
      r.trace ++ [Call.vkGetPhysicalDeviceSurfaceCapabilitiesKHR,
        Call.vkGetPhysicalDeviceSurfaceFormatsKHR, Call.vkGetPhysicalDeviceSurfaceFormatsKHR] := by
  simp [querySurface]

@[simp] theorem createChain_swapchain (window : Option WindowSize) (env : BuildEnv)
    (chosenFormat : VkSurfaceFormatKHR) (r : Renderer) :
    (createChain window env chosenFormat r).swapchain =
      env.swapchain := by
  simp [createChain]

@[simp] theorem createChain_renderPass (window : Option WindowSize) (env : BuildEnv)
    (chosenFormat : VkSurfaceFormatKHR) (r : Renderer) :
    (createChain window env chosenFormat r).renderPass =
      env.renderPass := by
  simp [createChain]

@[simp] theorem createChain_swapchainResources (window : Option WindowSize) (env : BuildEnv)
    (chosenFormat : VkSurfaceFormatKHR) (r : Renderer) :
    (createChain window env chosenFormat r).swapchainResources =
      resizeVector r.swapchainResources env.imagesWritten := by
  simp [createChain]

@[simp] theorem createChain_framesCount (window : Option WindowSize) (env : BuildEnv)
    (chosenFormat : VkSurfaceFormatKHR) (r : Renderer) :
    (createChain window env chosenFormat r).framesCount =
      env.imagesWritten := by
  simp [createChain]

@[simp] theorem createChain_currentFrame (window : Option WindowSize) (env : BuildEnv)
    (chosenFormat : VkSurfaceFormatKHR) (r : Renderer) :
    (createChain window env chosenFormat r).currentFrame =
      r.currentFrame := by
  simp [createChain]

@[simp] theorem createChain_nextFrame (window : Option WindowSize) (env : BuildEnv)
    (chosenFormat : VkSurfaceFormatKHR) (r : Renderer) :
    (createChain window env chosenFormat r).nextFrame =
      r.nextFrame := by
  simp [createChain]

@[simp] theorem createChain_callbackOnPresent (window : Option WindowSize) (env : BuildEnv)
    (chosenFormat : VkSurfaceFormatKHR) (r : Renderer) :
    (createChain window env chosenFormat r).callbackOnPresent =
      r.callbackOnPresent := by
  simp [createChain]

@[simp] theorem createChain_trace (window : Option WindowSize) (env : BuildEnv)
    (chosenFormat : VkSurfaceFormatKHR) (r : Renderer) :
    (createChain window env chosenFormat r).trace =
      r.trace ++ [Call.vkCreateSwapchainKHR
          (swapchainCreateInfo (imageCount env.capabilities) chosenFormat
            (resolveExtent window env.capabilities).1 (resolveExtent window env.capabilities).2
            env.capabilities) env.swapchain,
        Call.vkCreateRenderPass chosenFormat.format env.renderPass,
        Call.vkGetSwapchainImagesKHR, Call.vkGetSwapchainImagesKHR] := by
  simp [createChain]

theorem initBundlesCalls_isChainCall (env : BuildEnv) (format : Nat) (width height : Int)
    (renderPass : Nat) :
    ∀ (remaining i : Nat), ∀ c ∈ initBundlesCalls env format width height renderPass i remaining,
      c.isChainCall = true := by
  intro remaining
  induction remaining with
  | zero => intro i c hc; simp [initBundlesCalls] at hc
  | succ k ih =>
    intro i c hc
    simp only [initBundlesCalls, List.mem_append, List.mem_cons, List.mem_singleton,
      List.not_mem_nil, or_false] at hc
    rcases hc with (h | h | h | h | h | h) | h
    all_goals first | (subst h; rfl) | exact ih _ c h

theorem InitSwapchainCalls_isChainCall (window : Option WindowSize) (env : BuildEnv)
    (chosenFormat : VkSurfaceFormatKHR) :
    ∀ c ∈ InitSwapchainCalls window env chosenFormat, c.isChainCall = true := by
  intro c hc
  simp only [InitSwapchainCalls, List.mem_append, List.mem_cons, List.mem_singleton,
    List.not_mem_nil, or_false] at hc
  rcases hc with (h | h | h | h | h | h | h) | h
  all_goals first | (subst h; rfl) | exact initBundlesCalls_isChainCall _ _ _ _ _ _ _ c h

theorem resizeVector_length (xs : List SwapchainResources) (n : Nat) :
    (resizeVector xs n).length = n := by
  simp only [resizeVector, List.length_append, List.length_take, List.length_replicate]
  omega

/-- A run of `InitSwapchain` with a format to choose from and a driver that
delivers the images it announced: it returns true, and its calls are
`InitSwapchainCalls`. -/
theorem InitSwapchain_spec (window : Option WindowSize) (env : BuildEnv) (r : Renderer)
    (chosenFormat : VkSurfaceFormatKHR)
    (hformat : chooseFormat env.formats = some chosenFormat)
    (himages : env.imagesCount ≤ env.imagesWritten) :
    ∃ r1, InitSwapchain window env r = some (true, r1) ∧
      r1.framesCount = env.imagesWritten ∧
      r1.swapchainResources.length = env.imagesWritten ∧
      r1.trace = r.trace ++ InitSwapchainCalls window env chosenFormat ∧
      r1.swapchain = env.swapchain ∧ r1.renderPass = env.renderPass ∧
      r1.currentFrame = r.currentFrame ∧ r1.nextFrame = r.nextFrame ∧
      r1.callbackOnPresent = r.callbackOnPresent := by
  obtain ⟨r1, h1, h2, h3, h4, h5, h6, h7, h8, h9⟩ := initBundles_spec env chosenFormat.format
    (resolveExtent window env.capabilities).1 (resolveExtent window env.capabilities).2
    env.imagesCount 0 (createChain window env chosenFormat (querySurface env r))
    (by simp [resizeVector_length]; omega)
  refine ⟨r1, ?_, ?_, ?_, ?_, ?_, ?_, ?_, ?_, ?_⟩
  · simp [InitSwapchain, hformat, h1]
  · simpa using h6
  · rw [h2]; simp [resizeVector_length]
  · rw [h3]; simp [InitSwapchainCalls]
  · simpa using h4
  · simpa using h5
  · simpa using h7
  · simpa using h8
  · simpa using h9

theorem initBundles_returns (env : BuildEnv) (format : Nat) (width height : Int) :
    ∀ (remaining i : Nat) (r r1 : Renderer),
    initBundles env format width height i remaining r = some r1 →
    r1.currentFrame = r.currentFrame ∧ r1.framesCount = r.framesCount ∧
    r1.callbackOnPresent = r.callbackOnPresent ∧
    ∃ t, r1.trace = r.trace ++ t ∧ ∀ c ∈ t, c.isChainCall = true := by
  intro remaining
  induction remaining with
  | zero =>
    intro i r r1 h
    simp only [initBundles, Option.some.injEq] at h
    subst h
    exact ⟨rfl, rfl, rfl, [], by simp, by simp⟩
  | succ k ih =>
    intro i r r1 h
    cases hlook : r.swapchainResources[i]? with
    | none => simp [initBundles, initBundle, hlook] at h
    | some current =>
      obtain ⟨r2, h1, -, h3, -, -, h6, h7, -, h9⟩ :=
        initBundle_spec env format width height i r current hlook
      simp only [initBundles, h1] at h
      obtain ⟨g1, g2, g3, t, ht, hall⟩ := ih (i + 1) r2 r1 h
      refine ⟨by rw [g1, h7], by rw [g2, h6], by rw [g3, h9],
        initBundlesCalls env format width height r.renderPass i 1 ++ t, ?_, ?_⟩
      · rw [ht, h3]; simp [initBundlesCalls]
      · intro c hc
        rcases List.mem_append.1 hc with h | h
        · exact initBundlesCalls_isChainCall _ _ _ _ _ _ _ c h
        · exact hall c h

/-- Whenever `InitSwapchain` returns, it returns true, has left `currentFrame`
and the callback alone and has only appended chain calls to the trace. -/
theorem InitSwapchain_returns (window : Option WindowSize) (env : BuildEnv) (r r1 : Renderer)
    (b : Bool) (h : InitSwapchain window env r = some (b, r1)) :
    b = true ∧ r1.currentFrame = r.currentFrame ∧
      r1.callbackOnPresent = r.callbackOnPresent ∧
      ∃ t, r1.trace = r.trace ++ t ∧ ∀ c ∈ t, c.isChainCall = true := by
  unfold InitSwapchain at h
  cases hformat : chooseFormat env.formats with
  | none => simp [hformat] at h
  | some chosen =>
    simp only [hformat] at h
    cases hloop : initBundles env chosen.format (resolveExtent window env.capabilities).1
        (resolveExtent window env.capabilities).2 0 env.imagesCount
        (createChain window env chosen (querySurface env r)) with
    | none => simp [hloop] at h
    | some r2 =>
      simp only [hloop, Option.some.injEq, Prod.mk.injEq] at h
      obtain ⟨hb, hr⟩ := h
      subst hr
      obtain ⟨g1, -, g3, t, ht, hall⟩ := initBundles_returns _ _ _ _ _ _ _ _ hloop
      refine ⟨hb.symm, by simpa using g1, by simpa using g3,
        InitSwapchainCalls window { env with imagesCount := 0 } chosen ++ t, ?_, ?_⟩
      · rw [ht]; simp [InitSwapchainCalls, initBundlesCalls]
      · intro c hc
        rcases List.mem_append.1 hc with h | h
        · exact InitSwapchainCalls_isChainCall _ _ _ c h
        · exact hall c h

/-! ## OnResize -/

/-- Whenever `OnResize` returns, it has only appended chain calls to the
trace, and when it returns true `currentFrame` is 0. -/
theorem OnResize_returns (window : Option WindowSize) (env : BuildEnv) (r r1 : Renderer)
    (b : Bool) (h : OnResize window env r = some (b, r1)) :
    (b = true → r1.currentFrame = 0) ∧
      r1.callbackOnPresent = r.callbackOnPresent ∧
      ∃ t, r1.trace = r.trace ++ t ∧ ∀ c ∈ t, c.isChainCall = true := by
  unfold OnResize OnResizeWith at h
  obtain ⟨t0, ht0, hall0⟩ := DestroySwapchain_trace_isChainCall r
  cases hbuild : InitSwapchain window env (DestroySwapchain r) with
  | none => simp [hbuild] at h
  | some p =>
    obtain ⟨b2, r2⟩ := p
    obtain ⟨hb2, -, g3, t, ht, hall⟩ := InitSwapchain_returns window env _ r2 b2 hbuild
    subst hb2
    simp only [hbuild, Option.some.injEq, Prod.mk.injEq] at h
    obtain ⟨hb, hr⟩ := h
    subst hr
    refine ⟨fun _ => rfl, by simpa using g3, t0 ++ t, ?_, ?_⟩
    · show r2.trace = _
      rw [ht, ht0, List.append_assoc]
    · intro c hc
      rcases List.mem_append.1 hc with h | h
      · exact hall0 c h
      · exact hall c h

theorem DestroySwapchainCalls_isChainCall (r : Renderer) :
    ∀ c ∈ DestroySwapchainCalls r, c.isChainCall = true := by
  intro c hc
  simp only [DestroySwapchainCalls, List.mem_append] at hc
  rcases hc with (h | h) | h
  · exact destroyBundles_isChainCall _ c h
  · split at h <;> simp at h; subst h; rfl
  · split at h <;> simp at h; subst h; rfl

/-- A rebuild against a driver that offers a format and delivers the images
it announced: `OnResize` returns true, `currentFrame` is 0, and the calls are
those of `DestroySwapchain` followed by those of `InitSwapchain`. -/
theorem OnResize_spec (window : Option WindowSize) (env : BuildEnv) (r : Renderer)
    (chosenFormat : VkSurfaceFormatKHR)
    (hformat : chooseFormat env.formats = some chosenFormat)
    (himages : env.imagesCount ≤ env.imagesWritten) :
    ∃ r1, OnResize window env r = some (true, r1) ∧
      r1.currentFrame = 0 ∧
      r1.framesCount = env.imagesWritten ∧
      r1.swapchainResources.length = env.imagesWritten ∧
      r1.trace = r.trace ++ DestroySwapchainCalls r ++
        InitSwapchainCalls window env chosenFormat ∧
      r1.swapchain = env.swapchain ∧ r1.renderPass = env.renderPass ∧
      r1.callbackOnPresent = r.callbackOnPresent := by
  obtain ⟨r1, h1, h2, h3, h4, h5, h6, -, -, h9⟩ :=
    InitSwapchain_spec window env (DestroySwapchain r) chosenFormat hformat himages
  refine ⟨{ r1 with currentFrame := 0 }, ?_, rfl, h2, h3, ?_, h5, h6, ?_⟩
  · simp [OnResize, OnResizeWith, h1]
  · show r1.trace = _
    rw [h4]; simp [DestroySwapchainCalls]
  · show r1.callbackOnPresent = _
    rw [h9]; simp

/-! ## C2, C3 -/

theorem Render_rejected (window : Option WindowSize) (env : RenderEnv)
    (r : Renderer) (i : Nat) (callback : Nat → Bool)
    (hcur : r.currentFrame < r.swapchainResources.length)
    (hacq : ¬ (env.acquireResult = VK_ERROR_OUT_OF_DATE_KHR ∨
      env.acquireResult = VK_SUBOPTIMAL_KHR))
    (hidx : env.acquired = some i) (hi : i < r.swapchainResources.length)
    (hcb : r.callbackOnPresent = some callback) (hfalse : callback i = false) :
    Render window env r = some (false,
      (beginRecording env r.swapchainResources[r.currentFrame] r.swapchainResources[i]
        (checkError env.acquireResult
          (acquireImage env r.swapchainResources[r.currentFrame] r))).call
        (Call.callbackOnPresent i)) := by
  unfold Render
  simp only [List.getElem?_eq_getElem hcur, hacq, if_false]
  unfold recordFrame
  simp only [checkError_swapchainResources, acquireImage_swapchainResources,
    checkError_nextFrame, acquireImage_nextFrame, hidx, Option.getD_some,
    List.getElem?_eq_getElem hi, beginRecording_callbackOnPresent,
    checkError_callbackOnPresent, acquireImage_callbackOnPresent, hcb, call_nextFrame,
    beginRecording_nextFrame, hfalse, if_true]

/-- C2: when acquisition succeeds and the registered callback returns false,
`Render` returns false, `currentFrame` is unchanged, the callback has been
called, and the calls of the cycle contain neither a queue submission nor a
present request. -/
theorem Render_callback_false_aborts (window : Option WindowSize) (env : RenderEnv)
    (r : Renderer) (i : Nat) (callback : Nat → Bool)
    (hcur : r.currentFrame < r.swapchainResources.length)
    (hacq : env.acquireResult = VK_SUCCESS)
    (hidx : env.acquired = some i) (hi : i < r.swapchainResources.length)
    (hcb : r.callbackOnPresent = some callback) (hfalse : callback i = false) :
    ∃ r1 t, Render window env r = some (false, r1) ∧
      r1.currentFrame = r.currentFrame ∧
      r1.trace = r.trace ++ t ∧
      Call.callbackOnPresent i ∈ t ∧
      ∀ c ∈ t, c.isSubmit = false ∧ c.isPresent = false := by
  have hnot : ¬ (env.acquireResult = VK_ERROR_OUT_OF_DATE_KHR ∨
      env.acquireResult = VK_SUBOPTIMAL_KHR) := by
    simp [hacq, VK_SUCCESS, VK_ERROR_OUT_OF_DATE_KHR, VK_SUBOPTIMAL_KHR]
  refine ⟨_, [Call.vkWaitForFences r.swapchainResources[r.currentFrame].fence,
      Call.vkAcquireNextImageKHR r.swapchain r.swapchainResources[r.currentFrame].startSemaphore]
      ++ (if r.swapchainResources[i].lastFence ≠ 0
        then [Call.vkWaitForFences r.swapchainResources[i].lastFence] else [])
      ++ [Call.vkResetFences r.swapchainResources[r.currentFrame].fence,
        Call.vkBeginCommandBuffer r.swapchainResources[i].commandBuffer,
        Call.callbackOnPresent i],
    Render_rejected window env r i callback hcur hnot hidx hi hcb hfalse, ?_, ?_, ?_, ?_⟩
  · simp
  · simp
  · simp
  · intro c hc
    simp only [List.mem_append, List.mem_cons, List.mem_singleton, List.not_mem_nil,
      or_false] at hc
    rcases hc with ((h | h) | h) | (h | h | h)
    · subst h; exact ⟨rfl, rfl⟩
    · subst h; exact ⟨rfl, rfl⟩
    · split at h <;> simp at h; subst h; exact ⟨rfl, rfl⟩
    · subst h; exact ⟨rfl, rfl⟩
    · subst h; exact ⟨rfl, rfl⟩
    · subst h; exact ⟨rfl, rfl⟩

/-- Witness of C2: the example chain with a rejecting callback. -/
theorem Render_callback_false_aborts_witness :
    (Render none (successEnv 1) rejectingRenderer).map (fun p => (p.1, p.2.currentFrame))
      = some (false, 0) := by
  obtain ⟨r1, t, h1, h2, -⟩ := Render_callback_false_aborts none (successEnv 1)
    rejectingRenderer 1 alwaysFalse (by decide) rfl rfl (by decide) rfl rfl
  rw [h1]
  simp [h2, rejectingRenderer, exampleRenderer]

/-- C3: when acquisition reports out-of-date or suboptimal, `Render` waits on
the fence of the current slot, acquires, waits for the device to go idle and
then is exactly `OnResize` on the state `r0` reached there. Every call issued
after the idle wait is a chain call: no fence wait, no fence reset, no
recording, no callback, no submission, no present. When the call returns true
`currentFrame` is 0; against a driver that offers a format and delivers the
images it announced the call does return true. -/
theorem Render_stale_acquisition_rebuilds (window : Option WindowSize) (env : RenderEnv)
    (r : Renderer) (hcur : r.currentFrame < r.swapchainResources.length)
    (hstale : env.acquireResult = VK_ERROR_OUT_OF_DATE_KHR ∨
      env.acquireResult = VK_SUBOPTIMAL_KHR) :
    ∃ r0 : Renderer,
      r0.trace = r.trace ++
        [Call.vkWaitForFences r.swapchainResources[r.currentFrame].fence,
         Call.vkAcquireNextImageKHR r.swapchain
           r.swapchainResources[r.currentFrame].startSemaphore,
         Call.vkDeviceWaitIdle] ∧
      r0.swapchainResources = r.swapchainResources ∧
      r0.swapchain = r.swapchain ∧ r0.renderPass = r.renderPass ∧
      Render window env r = OnResize window env.build r0 ∧
      (∀ (b : Bool) (r1 : Renderer), Render window env r = some (b, r1) →
        (b = true → r1.currentFrame = 0) ∧
        ∃ t, r1.trace = r0.trace ++ t ∧ ∀ c ∈ t, c.isFrameCall = false) ∧
      (∀ chosenFormat, chooseFormat env.build.formats = some chosenFormat →
        env.build.imagesCount ≤ env.build.imagesWritten →
        ∃ r1, Render window env r = some (true, r1) ∧ r1.currentFrame = 0 ∧
          r1.trace = r0.trace ++ DestroySwapchainCalls r0 ++
            InitSwapchainCalls window env.build chosenFormat) := by
  have heq : Render window env r = OnResize window env.build
      (CHECK_VK_RESULT "vkDeviceWaitIdle" env.idleResult
        ((acquireImage env r.swapchainResources[r.currentFrame] r).call
          Call.vkDeviceWaitIdle)) := by
    unfold Render
    simp only [List.getElem?_eq_getElem hcur, hstale, if_true]
  refine ⟨_, ?_, ?_, ?_, ?_, heq, ?_, ?_⟩
  · simp
  · simp
  · simp
  · simp
  · intro b r1 h
    rw [heq] at h
    obtain ⟨h1, -, t, ht, hall⟩ := OnResize_returns window env.build _ r1 b h
    exact ⟨h1, t, ht, fun c hc => isChainCall_not_isFrameCall c (hall c hc)⟩
  · intro chosenFormat hformat himages
    obtain ⟨r1, h1, h2, -, -, h5, -⟩ := OnResize_spec window env.build
      (CHECK_VK_RESULT "vkDeviceWaitIdle" env.idleResult
        ((acquireImage env r.swapchainResources[r.currentFrame] r).call
          Call.vkDeviceWaitIdle)) chosenFormat hformat himages
    exact ⟨r1, by rw [heq, h1], h2, h5⟩

/-- Witness of C3: an out-of-date acquisition in slot 2 of the example chain. -/
theorem Render_stale_acquisition_rebuilds_witness :
    (Render none staleAcquireEnv { exampleRenderer with currentFrame := 2 }).map
      (fun p => (p.1, p.2.currentFrame)) = some (true, 0) := by
  obtain ⟨r0, -, -, -, -, -, -, h⟩ := Render_stale_acquisition_rebuilds none staleAcquireEnv
    { exampleRenderer with currentFrame := 2 } (by decide) (Or.inl rfl)
  obtain ⟨r1, h1, h2, -⟩ := h { format := 44, colorSpace := 0 } (by decide) (by decide)
  rw [h1]
  simp [h2]

/-! ## C4, C6 -/

/-- C4 (evaluation of the code): on the example chain in slot 0 a cycle whose
presentation reports suboptimal rebuilds the chain and returns true, but
leaves `currentFrame = 1`: after `OnResize` has reset the slot to 0, `Render`
falls through to the advance. The same staleness reported by acquisition
leaves `currentFrame = 0`. -/
theorem Render_stale_presentation_advances_after_rebuild :
    (Render none stalePresentEnv exampleRenderer).map (fun p => (p.1, p.2.currentFrame))
      = some (true, 1) ∧
    (Render none staleAcquireEnv exampleRenderer).map (fun p => (p.1, p.2.currentFrame))
      = some (true, 0) := by
  constructor <;> decide

/-- C6 as stated fails: with a resize to 640 x 480 pending, `Window::Render`
does not return with `currentFrame = 0` and no frame presented. -/
theorem Window_Render_pending_resize_counterexample :
    ¬ ∃ w1, Window.Render exampleWindowEnv pendingWindow = some (true, w1) ∧
      w1.renderer.currentFrame = 0 ∧
      w1.renderer.trace.any Call.isPresent = false := by
  rintro ⟨w1, h, hc, -⟩
  have h2 : (Window.Render exampleWindowEnv pendingWindow).map
      (fun p => p.2.renderer.currentFrame) = some 1 := by decide
  rw [h] at h2
  simp [hc] at h2

/-- The resize step of `Window::Render` with a pending notification. -/
theorem Window_Render_pending (env : WindowEnv) (w : Window) (r0 : Renderer)
    (hpending : w.readyToResize = true ∧ w.resize = true)
    (hresize : OnResize (some { width := w.newWidth, height := w.newHeight }) env.build
      (CHECK_VK_RESULT "vkDeviceWaitIdle" env.idleResult
        (w.renderer.call Call.vkDeviceWaitIdle)) = some (true, r0)) :
    Window.Render env w =
      (Render (some { width := w.newWidth, height := w.newHeight }) env.render
        (r0.call Call.wl_surface_commit)).map
        (fun p => (p.1, { w with
          width := w.newWidth, height := w.newHeight, renderer := p.2,
          readyToResize := false, resize := false })) := by
  unfold Window.Render
  simp only [hpending, and_self, if_true, Window.size, hresize]
  cases Render (some { width := w.newWidth, height := w.newHeight }) env.render
      (r0.call Call.wl_surface_commit) with
  | none => rfl
  | some p => rfl

/-- C6, amended: with a resize pending, `Window::Render` adopts the new size,
waits for the device to go idle and rebuilds the chain once (`OnResize` at
the new size, leaving `currentFrame = 0` in the state `r0`); it then clears
the pending flags, commits the surface and runs a `Renderer::Render` cycle on
the rebuilt chain in the same call, whose result it returns. When that cycle
acquires and presents successfully and the callback returns true, the call
returns true with the new size adopted, the flags cleared and
`currentFrame = 1 mod N`, and the calls after the rebuild contain a
submission and a present request and no chain call. -/
theorem Window_Render_pending_resize_rebuilds_then_renders (env : WindowEnv) (w : Window)
    (chosenFormat : VkSurfaceFormatKHR)
    (hpending : w.readyToResize = true ∧ w.resize = true)
    (hformat : chooseFormat env.build.formats = some chosenFormat)
    (himages : env.build.imagesCount ≤ env.build.imagesWritten) :
    ∃ r0 : Renderer,
      OnResize (some { width := w.newWidth, height := w.newHeight }) env.build
        (CHECK_VK_RESULT "vkDeviceWaitIdle" env.idleResult
          (w.renderer.call Call.vkDeviceWaitIdle)) = some (true, r0) ∧
      r0.currentFrame = 0 ∧
      r0.trace = w.renderer.trace ++ [Call.vkDeviceWaitIdle] ++
        DestroySwapchainCalls w.renderer ++
        InitSwapchainCalls (some { width := w.newWidth, height := w.newHeight })
          env.build chosenFormat ∧
      Window.Render env w =
        (Render (some { width := w.newWidth, height := w.newHeight }) env.render
          (r0.call Call.wl_surface_commit)).map
          (fun p => (p.1, { w with
            width := w.newWidth, height := w.newHeight, renderer := p.2,
            readyToResize := false, resize := false })) ∧
      (∀ (i : Nat) (callback : Nat → Bool),
        0 < env.build.imagesWritten → env.build.imagesWritten < UINT32_SIZE →
        env.render.acquireResult = VK_SUCCESS → env.render.acquired = some i →
        i < env.build.imagesWritten → env.render.presentResult = VK_SUCCESS →
        w.renderer.callbackOnPresent = some callback → callback i = true →
        ∃ w1 t, Window.Render env w = some (true, w1) ∧
          w1.width = w.newWidth ∧ w1.height = w.newHeight ∧
          w1.resize = false ∧ w1.readyToResize = false ∧
          w1.renderer.currentFrame = 1 % env.build.imagesWritten ∧
          w1.renderer.trace = r0.trace ++ t ∧
          t.any Call.isSubmit = true ∧ t.any Call.isPresent = true ∧
          ∀ c ∈ t, c.isChainCall = false) := by
  obtain ⟨r0, h1, h2, h3, h4, h5, -, -, h8⟩ := OnResize_spec
    (some { width := w.newWidth, height := w.newHeight }) env.build
    (CHECK_VK_RESULT "vkDeviceWaitIdle" env.idleResult (w.renderer.call Call.vkDeviceWaitIdle))
    chosenFormat hformat himages
  have hW := Window_Render_pending env w r0 hpending h1
  refine ⟨r0, h1, h2, ?_, hW, ?_⟩
  · rw [h5]; simp [DestroySwapchainCalls]
  · intro i callback hpos h32 hacq hidx hi hpres hcb htrue
    have hlen : (r0.call Call.wl_surface_commit).swapchainResources.length
        = env.build.imagesWritten := by simpa using h4
    obtain ⟨r1, g1, g2, -, -, -, g6⟩ := Render_normal
      (some { width := w.newWidth, height := w.newHeight }) env.render
      (r0.call Call.wl_surface_commit) i callback
      (by rw [hlen]; simpa [h2] using hpos)
      (by simp [hacq, VK_SUCCESS, VK_ERROR_OUT_OF_DATE_KHR, VK_SUBOPTIMAL_KHR])
      hidx (by rw [hlen]; exact hi) (by simpa [h8] using hcb) htrue
      (by simp [hpres, VK_SUCCESS, VK_ERROR_OUT_OF_DATE_KHR, VK_SUBOPTIMAL_KHR])
      (by simp [h3]; omega)
    simp only [call_trace, List.append_assoc] at g6
    have hret : Window.Render env w = some (true, { w with
        width := w.newWidth, height := w.newHeight, renderer := r1,
        readyToResize := false, resize := false }) := by rw [hW, g1]; rfl
    refine ⟨_, _, hret, rfl, rfl, rfl, rfl, ?_, g6, ?_, ?_, ?_⟩
    · show r1.currentFrame = _
      rw [g2]
      simp only [call_currentFrame, call_framesCount, h2, h3]
      rfl
    · simp [Call.isSubmit]
    · simp [Call.isPresent]
    · intro c hc
      simp only [List.mem_append, List.mem_cons, List.mem_singleton, List.not_mem_nil,
        or_false] at hc
      rcases hc with h | (h | h) | h | h | h | h | h | h | h
      all_goals first | (subst h; rfl) | (split at h <;> simp at h; subst h; rfl)

/-- Witness of the amended C6: the pending resize to 640 x 480 on the
example chain. -/
theorem Window_Render_pending_resize_rebuilds_then_renders_witness :
    (Window.Render exampleWindowEnv pendingWindow).map
      (fun p => (p.1, p.2.width, p.2.height, p.2.resize, p.2.readyToResize,
        p.2.renderer.currentFrame)) = some (true, 640, 480, false, false, 1) := by
  obtain ⟨r0, -, -, -, -, h⟩ := Window_Render_pending_resize_rebuilds_then_renders
    exampleWindowEnv pendingWindow { format := 44, colorSpace := 0 }
    ⟨rfl, rfl⟩ (by decide) (by decide)
  obtain ⟨w1, t, h1, h2, h3, h4, h5, h6, -⟩ := h 0 alwaysTrue (by decide) (by decide) rfl rfl
    (by decide) rfl rfl rfl
  rw [h1]
  simp [h2, h3, h4, h5, h6, pendingWindow, exampleWindowEnv, exampleBuild]

/-! ## C7, C10 -/

/-- C7 (evaluation of the code): the count `InitSwapchain` requests is the
minimum of the `uint32_t` sum `minImageCount + 1` and `maxImageCount` for
all capabilities, with no special case for `maxImageCount = 0`; with
`minImageCount = 2` and `maxImageCount = 0` it requests 0 images, not 3. -/
theorem InitSwapchain_requests_zero_images_when_unbounded :
    (∀ capabilities : VkSurfaceCapabilitiesKHR, imageCount capabilities =
      min ((capabilities.minImageCount + 1) % UINT32_SIZE) capabilities.maxImageCount) ∧
    imageCount unboundedCapabilities = 0 ∧
    (InitSwapchain none unboundedBuild {}).map (fun p => requestedImageCounts p.2.trace)
      = some [0] := by
  refine ⟨?_, by decide, by decide⟩
  intro capabilities
  unfold imageCount
  split <;> omega

/-- C10 (evaluation of the code): with zero formats `InitSwapchain` does not
return false; it reads `formats[0]` of an empty vector, which is undefined.
No run of `InitSwapchain` returns false at all. -/
theorem InitSwapchain_zero_formats_is_undefined :
    (InitSwapchain none noFormatsBuild {}).isNone = true ∧
    ∀ (window : Option WindowSize) (env : BuildEnv) (r : Renderer),
      Option.all (fun p => p.1) (InitSwapchain window env r) = true := by
  refine ⟨by decide, ?_⟩
  intro window env r
  cases h : InitSwapchain window env r with
  | none => rfl
  | some p =>
    obtain ⟨b, r1⟩ := p
    have := (InitSwapchain_returns window env r r1 b h).1
    simp [Option.all, this]

/-! ## C8 -/

theorem chooseFormatLoop_eq_find (chosenFormat : VkSurfaceFormatKHR)
    (formats : List VkSurfaceFormatKHR) :
    chooseFormatLoop chosenFormat formats =
      (formats.find? (fun f => decide (f.format = VK_FORMAT_B8G8R8A8_UNORM))).getD
        chosenFormat := by
  induction formats with
  | nil => rfl
  | cons f rest ih =>
    by_cases h : f.format = VK_FORMAT_B8G8R8A8_UNORM
    · simp [chooseFormatLoop, List.find?, h]
    · simp [chooseFormatLoop, List.find?, h, ih]

theorem chooseFormat_cons (first : VkSurfaceFormatKHR) (rest : List VkSurfaceFormatKHR) :
    chooseFormat (first :: rest) = some
      (((first :: rest).find? (fun f => decide (f.format = VK_FORMAT_B8G8R8A8_UNORM))).getD
        first) := by
  simp only [chooseFormat, List.getElem?_cons_zero, chooseFormatLoop_eq_find]

theorem initBundlesCalls_mem (env : BuildEnv) (format : Nat) (width height : Int)
    (renderPass : Nat) :
    ∀ (remaining i : Nat), ∀ c ∈ initBundlesCalls env format width height renderPass i remaining,
      (∀ info handle, c ≠ Call.vkCreateSwapchainKHR info handle) ∧
      (∀ f handle, c ≠ Call.vkCreateRenderPass f handle) ∧
      (∀ image f handle, c = Call.vkCreateImageView image f handle → f = format) ∧
      (∀ rp view w h handle, c = Call.vkCreateFramebuffer rp view w h handle →
        w = toUint32 width ∧ h = toUint32 height) := by
  intro remaining
  induction remaining with
  | zero => intro i c hc; simp [initBundlesCalls] at hc
  | succ k ih =>
    intro i c hc
    simp only [initBundlesCalls, List.mem_append, List.mem_cons, List.mem_singleton,
      List.not_mem_nil, or_false] at hc
    rcases hc with (h | h | h | h | h | h) | h
    any_goals (subst h; simp)
    · intro rp view w h handle _ _ hw hh _; exact ⟨hw.symm, hh.symm⟩
    · exact ih _ c h

/-- Where formats and extent appear in the calls of `InitSwapchain`. -/
theorem InitSwapchainCalls_mem (window : Option WindowSize) (env : BuildEnv)
    (chosenFormat : VkSurfaceFormatKHR) :
    Call.vkCreateSwapchainKHR
      (swapchainCreateInfo (imageCount env.capabilities) chosenFormat
        (resolveExtent window env.capabilities).1 (resolveExtent window env.capabilities).2
        env.capabilities) env.swapchain ∈ InitSwapchainCalls window env chosenFormat ∧
    Call.vkCreateRenderPass chosenFormat.format env.renderPass ∈
      InitSwapchainCalls window env chosenFormat ∧
    ∀ c ∈ InitSwapchainCalls window env chosenFormat,
      (∀ info handle, c = Call.vkCreateSwapchainKHR info handle →
        info = swapchainCreateInfo (imageCount env.capabilities) chosenFormat
          (resolveExtent window env.capabilities).1 (resolveExtent window env.capabilities).2
          env.capabilities) ∧
      (∀ f handle, c = Call.vkCreateRenderPass f handle → f = chosenFormat.format) ∧
      (∀ image f handle, c = Call.vkCreateImageView image f handle →
        f = chosenFormat.format) ∧
      (∀ rp view w h handle, c = Call.vkCreateFramebuffer rp view w h handle →
        w = toUint32 (resolveExtent window env.capabilities).1 ∧
        h = toUint32 (resolveExtent window env.capabilities).2) := by
  refine ⟨by simp [InitSwapchainCalls], by simp [InitSwapchainCalls], ?_⟩
  intro c hc
  simp only [InitSwapchainCalls, List.mem_append, List.mem_cons, List.mem_singleton,
    List.not_mem_nil, or_false] at hc
  rcases hc with (h | h | h | h | h | h | h) | h
  any_goals (subst h; simp)
  · obtain ⟨g1, g2, g3, g4⟩ := initBundlesCalls_mem _ _ _ _ _ _ _ c h
    exact ⟨fun info handle hc => absurd hc (g1 info handle),
      fun f handle hc => absurd hc (g2 f handle), g3, g4⟩

/-- C8: for a non-empty list of surface formats (and a driver that delivers
the images it announced) `InitSwapchain` returns true having chosen the first
entry whose format is `VK_FORMAT_B8G8R8A8_UNORM` if there is one and the first
entry of the list otherwise; the chain is requested with the format and the
colour space of that entry, and the render pass and every image view are
created with its format. -/
theorem InitSwapchain_chooses_format (window : Option WindowSize) (env : BuildEnv)
    (r : Renderer) (first : VkSurfaceFormatKHR) (rest : List VkSurfaceFormatKHR)
    (hformats : env.formats = first :: rest)
    (himages : env.imagesCount ≤ env.imagesWritten) :
    ∃ (chosen : VkSurfaceFormatKHR) (r1 : Renderer) (t : List Call),
      chosen = ((first :: rest).find?
        (fun f => decide (f.format = VK_FORMAT_B8G8R8A8_UNORM))).getD first ∧
      InitSwapchain window env r = some (true, r1) ∧ r1.trace = r.trace ++ t ∧
      (∃ info, Call.vkCreateSwapchainKHR info env.swapchain ∈ t) ∧
      (∀ info handle, Call.vkCreateSwapchainKHR info handle ∈ t →
        info.imageFormat = chosen.format ∧ info.imageColorSpace = chosen.colorSpace) ∧
      Call.vkCreateRenderPass chosen.format env.renderPass ∈ t ∧
      (∀ format handle, Call.vkCreateRenderPass format handle ∈ t →
        format = chosen.format) ∧
      (∀ image format handle, Call.vkCreateImageView image format handle ∈ t →
        format = chosen.format) := by
  have hchoose : chooseFormat env.formats = some (((first :: rest).find?
      (fun f => decide (f.format = VK_FORMAT_B8G8R8A8_UNORM))).getD first) := by
    rw [hformats]; exact chooseFormat_cons first rest
  obtain ⟨r1, h1, -, -, h4, -⟩ := InitSwapchain_spec window env r _ hchoose himages
  obtain ⟨m1, m2, m3⟩ := InitSwapchainCalls_mem window env
    (((first :: rest).find? (fun f => decide (f.format = VK_FORMAT_B8G8R8A8_UNORM))).getD first)
  refine ⟨_, r1, InitSwapchainCalls window env _, rfl, h1, h4, ⟨_, m1⟩, ?_, m2, ?_, ?_⟩
  · intro info handle hmem
    have := (m3 _ hmem).1 info handle rfl
    subst this
    exact ⟨rfl, rfl⟩
  · intro format handle hmem
    exact (m3 _ hmem).2.1 format handle rfl
  · intro image format handle hmem
    exact (m3 _ hmem).2.2.1 image format handle rfl

/-- Witness of C8: the example driver lists format 37 before
`VK_FORMAT_B8G8R8A8_UNORM`; the chain is requested with the latter. -/
theorem InitSwapchain_chooses_format_witness :
    ∃ (r1 : Renderer) (info : VkSwapchainCreateInfoKHR),
      InitSwapchain none exampleBuild {} = some (true, r1) ∧
      Call.vkCreateSwapchainKHR info 1 ∈ r1.trace ∧ info.imageFormat = 44 := by
  obtain ⟨chosen, r1, t, h0, h1, h2, ⟨info, h3⟩, h4, -⟩ := InitSwapchain_chooses_format none
    exampleBuild {} { format := 37, colorSpace := 0 } [{ format := 44, colorSpace := 0 }]
    rfl (by decide)
  refine ⟨r1, info, h1, ?_, ?_⟩
  · rw [h2]; exact List.mem_append_right _ h3
  · rw [(h4 info _ h3).1, h0]; rfl

/-! ## C9 -/

theorem toUint32_toInt32 (u : Nat) (h : u < UINT32_SIZE) : toUint32 (toInt32 u) = u := by
  unfold toUint32 toInt32 UINT32_SIZE at *
  rw [Nat.mod_eq_of_lt h]
  split <;> omega

theorem toInt32_ne_zero (u : Nat) (h : u < UINT32_SIZE) : toInt32 u ≠ 0 ↔ u ≠ 0 := by
  unfold toInt32 UINT32_SIZE at *
  rw [Nat.mod_eq_of_lt h]
  split <;> omega

theorem complement32_ne_zero (u : Nat) (h : u < UINT32_SIZE) :
    complement32 u ≠ 0 ↔ u ≠ 4294967295 := by
  unfold complement32 UINT32_SIZE at *
  rw [Nat.mod_eq_of_lt h]
  omega

/-- The `int32_t` locals of `InitSwapchain`, cast back to `uint32_t`, are the
extent resolved on the unsigned values. -/
theorem resolveExtent_eq_expectedExtent (window : Option WindowSize)
    (capabilities : VkSurfaceCapabilitiesKHR)
    (hcw : capabilities.currentExtent.width < UINT32_SIZE)
    (hch : capabilities.currentExtent.height < UINT32_SIZE)
    (hmw : capabilities.maxImageExtent.width < UINT32_SIZE)
    (hmh : capabilities.maxImageExtent.height < UINT32_SIZE)
    (hwin : ∀ w, window = some w → w.width < UINT32_SIZE ∧ w.height < UINT32_SIZE) :
    ({ width := toUint32 (resolveExtent window capabilities).1,
       height := toUint32 (resolveExtent window capabilities).2 } : VkExtent2D)
      = expectedExtent window capabilities := by
  have hwidth : toUint32 (toInt32 (if complement32 capabilities.currentExtent.width ≠ 0
      then capabilities.currentExtent.width else capabilities.maxImageExtent.width))
      = (capabilityExtent capabilities).width := by
    unfold capabilityExtent
    simp only [complement32_ne_zero _ hcw]
    split <;> simp [toUint32_toInt32, *]
  have hheight : toUint32 (toInt32 (if complement32 capabilities.currentExtent.height ≠ 0
      then capabilities.currentExtent.height else capabilities.maxImageExtent.height))
      = (capabilityExtent capabilities).height := by
    unfold capabilityExtent
    simp only [complement32_ne_zero _ hch]
    split <;> simp [toUint32_toInt32, *]
  cases window with
  | none => simp only [resolveExtent, expectedExtent, hwidth, hheight]
  | some w =>
    obtain ⟨hw, hh⟩ := hwin w rfl
    have hiff : (w.GetWidth ≠ 0 ∧ w.GetHeight ≠ 0) ↔ (w.width ≠ 0 ∧ w.height ≠ 0) := by
      simp only [WindowSize.GetWidth, WindowSize.GetHeight, toInt32_ne_zero _ hw,
        toInt32_ne_zero _ hh]
    by_cases hnz : w.width ≠ 0 ∧ w.height ≠ 0
    · have h1 := hiff.2 hnz
      simp only [resolveExtent, expectedExtent]
      rw [if_pos h1, if_pos hnz]
      simp only [WindowSize.GetWidth, WindowSize.GetHeight, toUint32_toInt32 _ hw,
        toUint32_toInt32 _ hh]
    · have h1 : ¬ (w.GetWidth ≠ 0 ∧ w.GetHeight ≠ 0) := fun h => hnz (hiff.1 h)
      simp only [resolveExtent, expectedExtent]
      rw [if_neg h1, if_neg hnz]
      simp only [hwidth, hheight]

/-- C9 as stated fails: with a current extent of `0xFFFFFFFF x 600`, a maximum
extent of `4096 x 4096` and no window size, the chain is requested with
`4096 x 600`, which is neither the current nor the maximum extent. -/
theorem InitSwapchain_extent_counterexample :
    ¬ ((InitSwapchain none mixedBuild {}).map (fun p => requestedExtents p.2.trace)
          = some [mixedCapabilities.currentExtent] ∨
       (InitSwapchain none mixedBuild {}).map (fun p => requestedExtents p.2.trace)
          = some [mixedCapabilities.maxImageExtent]) := by
  decide

/-- C9, amended: for all `uint32_t` capability values and window sizes (and a
driver that offers a format and delivers the images it announced) the extent
`InitSwapchain` requests for the chain and uses for every framebuffer is the
window's `(width, height)` when both are nonzero; otherwise its width is the
surface's current width unless that is `0xFFFFFFFF`, in which case it is the
maximum width, and its height is resolved in the same way on its own. -/
theorem InitSwapchain_extent_per_dimension (window : Option WindowSize) (env : BuildEnv)
    (r : Renderer) (chosenFormat : VkSurfaceFormatKHR)
    (hformat : chooseFormat env.formats = some chosenFormat)
    (himages : env.imagesCount ≤ env.imagesWritten)
    (hcw : env.capabilities.currentExtent.width < UINT32_SIZE)
    (hch : env.capabilities.currentExtent.height < UINT32_SIZE)
    (hmw : env.capabilities.maxImageExtent.width < UINT32_SIZE)
    (hmh : env.capabilities.maxImageExtent.height < UINT32_SIZE)
    (hwin : ∀ w, window = some w → w.width < UINT32_SIZE ∧ w.height < UINT32_SIZE) :
    ∃ (r1 : Renderer) (t : List Call),
      InitSwapchain window env r = some (true, r1) ∧ r1.trace = r.trace ++ t ∧
      (∃ info, Call.vkCreateSwapchainKHR info env.swapchain ∈ t) ∧
      (∀ info handle, Call.vkCreateSwapchainKHR info handle ∈ t →
        info.imageExtent = expectedExtent window env.capabilities) ∧
      (∀ renderPass view width height handle,
        Call.vkCreateFramebuffer renderPass view width height handle ∈ t →
        width = (expectedExtent window env.capabilities).width ∧
        height = (expectedExtent window env.capabilities).height) := by
  obtain ⟨r1, h1, -, -, h4, -⟩ := InitSwapchain_spec window env r _ hformat himages
  obtain ⟨m1, -, m3⟩ := InitSwapchainCalls_mem window env chosenFormat
  have hext := resolveExtent_eq_expectedExtent window env.capabilities hcw hch hmw hmh hwin
  refine ⟨r1, InitSwapchainCalls window env chosenFormat, h1, h4, ⟨_, m1⟩, ?_, ?_⟩
  · intro info handle hmem
    have := (m3 _ hmem).1 info handle rfl
    subst this
    exact hext
  · intro renderPass view width height handle hmem
    obtain ⟨hw, hh⟩ := (m3 _ hmem).2.2.2 renderPass view width height handle rfl
    rw [hw, hh, ← hext]
    exact ⟨rfl, rfl⟩

/-- Witness of the amended C9: the mixed capabilities, no window size. -/
theorem InitSwapchain_extent_per_dimension_witness :
    ∃ (r1 : Renderer) (info : VkSwapchainCreateInfoKHR),
      InitSwapchain none mixedBuild {} = some (true, r1) ∧
      Call.vkCreateSwapchainKHR info 1 ∈ r1.trace ∧
      info.imageExtent = { width := 4096, height := 600 } := by
  obtain ⟨r1, t, h1, h2, ⟨info, h3⟩, h4, -⟩ := InitSwapchain_extent_per_dimension none
    mixedBuild {} { format := 44, colorSpace := 0 } (by decide) (by decide)
    (by decide) (by decide) (by decide) (by decide) (by simp)
  refine ⟨r1, info, h1, ?_, ?_⟩
  · rw [h2]; exact List.mem_append_right _ h3
  · rw [h4 info _ h3]; decide

/-! ## C11, C15 -/

/-- C11 (evaluation of the code): against a driver that rejects the chain
creation and every creation call of the loop, `InitSwapchain` prints the
failures and returns true, and so do `OnResize` and `Init`. -/
theorem InitSwapchain_ignores_creation_errors :
    (InitSwapchain none rejectingBuild {}).map (fun p => (p.1, p.2.log.take 2))
      = some (true, [Stderr.vkFailure "vkCreateSwapchainKHR" (-3),
          Stderr.vkFailure "vkAllocateCommandBuffers" (-2)]) ∧
    (OnResize none rejectingBuild exampleRenderer).map (fun p => p.1) = some true ∧
    (Init none rejectingInit {}).map (fun p => p.1) = some true := by
  refine ⟨by decide, by decide, by decide⟩

/-- C15 (evaluation of the code): the rebuild after a stale presentation
destroys the fence that guards the submission just queued with no
`vkDeviceWaitIdle` anywhere in the call; the three other teardown paths
(stale acquisition, pending resize in `Window::Render`, destructor) issue the
idle wait immediately before the first release. -/
theorem Render_stale_presentation_destroys_without_idle_wait :
    (Render none stalePresentEnv exampleRenderer).map
        (fun p => (p.2.trace.contains Call.vkDeviceWaitIdle, p.2.trace.take 9))
      = some (false, [Call.vkWaitForFences 16, Call.vkAcquireNextImageKHR 1 14,
          Call.vkResetFences 16, Call.vkBeginCommandBuffer 21, Call.callbackOnPresent 1,
          Call.vkEndCommandBuffer 21, Call.vkQueueSubmit 14 21 15 16,
          Call.vkQueuePresentKHR 15 1 1, Call.vkDestroyFence 16]) ∧
    (Render none staleAcquireEnv exampleRenderer).map (fun p => p.2.trace.take 4)
      = some [Call.vkWaitForFences 16, Call.vkAcquireNextImageKHR 1 14,
          Call.vkDeviceWaitIdle, Call.vkDestroyFence 16] ∧
    (Window.Render exampleWindowEnv pendingWindow).map (fun p => p.2.renderer.trace.take 2)
      = some [Call.vkDeviceWaitIdle, Call.vkDestroyFence 16] ∧
    (Destructor 0 exampleRenderer).trace.take 2
      = [Call.vkDeviceWaitIdle, Call.vkDestroyFence 16] := by
  refine ⟨by decide, by decide, by decide, by decide⟩

/-! ## Order and count of creations and releases -/

theorem destroyBundle_complete (s : SwapchainResources) (h : s.complete) :
    destroyBundle s = bundleReleaseCalls s := by
  obtain ⟨h1, h2, h3, h4, h5, h6⟩ := h
  simp [destroyBundle, bundleReleaseCalls, h1, h2, h3, h4, h5, h6]

theorem destroyBundles_complete (xs : List SwapchainResources)
    (h : ∀ s ∈ xs, s.complete) : destroyBundles xs = xs.flatMap bundleReleaseCalls := by
  induction xs with
  | nil => rfl
  | cons s rest ih =>
    simp only [destroyBundles, List.flatMap_cons]
    rw [destroyBundle_complete s (h s (List.mem_cons_self _ _)),
      ih (fun x hx => h x (List.mem_cons_of_mem _ hx))]

theorem releasedObjects_append (t1 t2 : List Call) :
    releasedObjects (t1 ++ t2) = releasedObjects t1 ++ releasedObjects t2 := by
  simp [releasedObjects]

theorem createdObjects_append (t1 t2 : List Call) :
    createdObjects (t1 ++ t2) = createdObjects t1 ++ createdObjects t2 := by
  simp [createdObjects]

theorem releasedObjects_bundleReleaseCalls (xs : List SwapchainResources) :
    releasedObjects (xs.flatMap bundleReleaseCalls) = xs.flatMap bundleReleasedObjects := by
  induction xs with
  | nil => rfl
  | cons s rest ih =>
    simp only [List.flatMap_cons, releasedObjects_append, ih]
    rfl

theorem createdObjects_initBundlesCalls (env : BuildEnv) (format : Nat) (width height : Int)
    (renderPass : Nat) :
    ∀ (remaining i : Nat),
      createdObjects (initBundlesCalls env format width height renderPass i remaining) =
        (List.range' i remaining).flatMap (fun j => bundleObjects (builtBundle env j)) := by
  intro remaining
  induction remaining with
  | zero => intro i; rfl
  | succ k ih =>
    intro i
    simp only [initBundlesCalls, createdObjects_append, ih, List.range'_succ,
      List.flatMap_cons]
    rfl

theorem createdObjects_InitSwapchainCalls (window : Option WindowSize) (env : BuildEnv)
    (chosenFormat : VkSurfaceFormatKHR) :
    createdObjects (InitSwapchainCalls window env chosenFormat) =
      [(ObjectKind.chain, env.swapchain), (ObjectKind.renderPass, env.renderPass)] ++
        (List.range env.imagesCount).flatMap (fun j => bundleObjects (builtBundle env j)) := by
  simp only [InitSwapchainCalls, createdObjects_append, createdObjects_initBundlesCalls,
    List.range_eq_range']
  rfl

/-- The releases of `DestroySwapchain` on a chain all of whose handles are set. -/
theorem DestroySwapchainCalls_complete (r : Renderer)
    (hbundles : ∀ s ∈ r.swapchainResources, s.complete)
    (hpass : r.renderPass ≠ 0) (hchain : r.swapchain ≠ 0) :
    DestroySwapchainCalls r = r.swapchainResources.flatMap bundleReleaseCalls ++
      [Call.vkDestroyRenderPass r.renderPass, Call.vkDestroySwapchainKHR r.swapchain] := by
  simp [DestroySwapchainCalls, destroyBundles_complete _ hbundles, hpass, hchain]

theorem map_fst_flatMap_bundleReleasedObjects (xs : List SwapchainResources) :
    (xs.flatMap bundleReleasedObjects).map Prod.fst =
      (List.replicate xs.length
        [ObjectKind.fence, ObjectKind.semaphore, ObjectKind.semaphore, ObjectKind.framebuffer,
         ObjectKind.imageView, ObjectKind.commandBuffer]).flatten := by
  induction xs with
  | nil => rfl
  | cons s rest ih =>
    simp only [List.flatMap_cons, List.map_append, ih, List.length_cons, List.replicate_succ,
      List.flatten_cons]
    rfl

theorem map_fst_flatMap_bundleObjects (env : BuildEnv) :
    ∀ (n i : Nat),
    ((List.range' i n).flatMap (fun j => bundleObjects (builtBundle env j))).map Prod.fst =
      (List.replicate n
        [ObjectKind.commandBuffer, ObjectKind.imageView, ObjectKind.framebuffer,
         ObjectKind.semaphore, ObjectKind.semaphore, ObjectKind.fence]).flatten := by
  intro n
  induction n with
  | zero => intro i; rfl
  | succ k ih =>
    intro i
    simp only [List.range'_succ, List.flatMap_cons, List.map_append, ih, List.replicate_succ,
      List.flatten_cons]
    rfl

theorem reverse_flatten_replicate {α : Type} (n : Nat) (xs : List α) :
    (List.replicate n xs).flatten.reverse = (List.replicate n xs.reverse).flatten := by
  induction n with
  | zero => rfl
  | succ k ih =>
    rw [List.replicate_succ, List.flatten_cons, List.reverse_append, ih,
      List.replicate_succ', List.flatten_append]
    simp

/-! ## The bundle list after a build -/

theorem initBundles_contents (env : BuildEnv) (format : Nat) (width height : Int) :
    ∀ (remaining i : Nat) (r : Renderer), i + remaining ≤ r.swapchainResources.length →
    ∃ r1, initBundles env format width height i remaining r = some r1 ∧
      ∀ j, r1.swapchainResources[j]? =
        if i ≤ j ∧ j < i + remaining then some (builtBundle env j)
        else r.swapchainResources[j]? := by
  intro remaining
  induction remaining with
  | zero =>
    intro i r _
    refine ⟨r, rfl, fun j => ?_⟩
    have : ¬ (i ≤ j ∧ j < i + 0) := by omega
    rw [if_neg this]
  | succ k ih =>
    intro i r hlen
    have hi : i < r.swapchainResources.length := by omega
    obtain ⟨r2, h1, h2, -⟩ := initBundle_spec env format width height i r
      r.swapchainResources[i] (List.getElem?_eq_getElem hi)
    have hlen2 : r2.swapchainResources.length = r.swapchainResources.length := by
      rw [h2]; simp
    obtain ⟨r1, g1, g2⟩ := ih (i + 1) r2 (by omega)
    refine ⟨r1, by simp [initBundles, h1, g1], fun j => ?_⟩
    rw [g2 j, h2, List.getElem?_set]
    by_cases hj : i = j
    · subst hj
      have h3 : ¬ (i + 1 ≤ i ∧ i < i + 1 + k) := by omega
      have h4 : i ≤ i ∧ i < i + (k + 1) := by omega
      rw [if_neg h3, if_pos rfl, if_pos hi, if_pos h4]
      rfl
    · rw [if_neg hj]
      by_cases h5 : i + 1 ≤ j ∧ j < i + 1 + k
      · have h6 : i ≤ j ∧ j < i + (k + 1) := by omega
        rw [if_pos h5, if_pos h6]
      · have h6 : ¬ (i ≤ j ∧ j < i + (k + 1)) := by omega
        rw [if_neg h5, if_neg h6]

/-- A build whose two image queries agree on `N` images: the bundle list is
the list of the `N` bundles the loop writes. -/
theorem InitSwapchain_contents (window : Option WindowSize) (env : BuildEnv) (r : Renderer)
    (chosenFormat : VkSurfaceFormatKHR)
    (hformat : chooseFormat env.formats = some chosenFormat)
    (himages : env.imagesCount = env.imagesWritten) :
    ∃ r1, InitSwapchain window env r = some (true, r1) ∧
      r1.swapchainResources = (List.range env.imagesCount).map (builtBundle env) ∧
      r1.framesCount = env.imagesCount ∧
      r1.trace = r.trace ++ InitSwapchainCalls window env chosenFormat ∧
      r1.swapchain = env.swapchain ∧ r1.renderPass = env.renderPass ∧
      r1.currentFrame = r.currentFrame ∧ r1.nextFrame = r.nextFrame ∧
      r1.callbackOnPresent = r.callbackOnPresent := by
  obtain ⟨r1, h1, h2, h3, h4, h5, h6, h7, h8, h9⟩ :=
    InitSwapchain_spec window env r chosenFormat hformat (le_of_eq himages)
  obtain ⟨r2, g1, g2⟩ := initBundles_contents env chosenFormat.format
    (resolveExtent window env.capabilities).1 (resolveExtent window env.capabilities).2
    env.imagesCount 0 (createChain window env chosenFormat (querySurface env r))
    (by simp [resizeVector_length]; omega)
  have hr : r2 = r1 := by
    have := h1
    simp only [InitSwapchain, hformat, g1, Option.some.injEq, Prod.mk.injEq, true_and] at this
    exact this
  subst hr
  refine ⟨r2, h1, ?_, by rw [h2, himages], h4, h5, h6, h7, h8, h9⟩
  apply List.ext_getElem?
  intro j
  rw [g2 j]
  by_cases hj : j < env.imagesCount
  · have : 0 ≤ j ∧ j < 0 + env.imagesCount := by omega
    rw [if_pos this, List.getElem?_map, List.getElem?_range hj]
    rfl
  · have : ¬ (0 ≤ j ∧ j < 0 + env.imagesCount) := by omega
    rw [if_neg this]
    have hlen : (createChain window env chosenFormat
        (querySurface env r)).swapchainResources.length = env.imagesCount := by
      simp [resizeVector_length, himages]
    rw [List.getElem?_eq_none (by omega), List.getElem?_eq_none (by simp; omega)]

/-! ## C18 -/

theorem bundleReleasedObjects_perm (s : SwapchainResources) :
    (bundleReleasedObjects s).Perm (bundleObjects s) := by
  have h : bundleReleasedObjects s =
      [(ObjectKind.fence, s.fence)] ++
        ([(ObjectKind.semaphore, s.startSemaphore), (ObjectKind.semaphore, s.endSemaphore)] ++
          ([(ObjectKind.framebuffer, s.framebuffer)] ++
            ([(ObjectKind.imageView, s.imageView)] ++
              [(ObjectKind.commandBuffer, s.commandBuffer)]))) := rfl
  have h2 : bundleObjects s =
      (((([(ObjectKind.commandBuffer, s.commandBuffer)] ++
        [(ObjectKind.imageView, s.imageView)]) ++
          [(ObjectKind.framebuffer, s.framebuffer)]) ++
            [(ObjectKind.semaphore, s.startSemaphore), (ObjectKind.semaphore, s.endSemaphore)]) ++
              [(ObjectKind.fence, s.fence)]) := rfl
  rw [h, h2]
  refine List.Perm.trans List.perm_append_comm (List.Perm.append ?_ (List.Perm.refl _))
  refine List.Perm.trans List.perm_append_comm (List.Perm.append ?_ (List.Perm.refl _))
  refine List.Perm.trans List.perm_append_comm (List.Perm.append ?_ (List.Perm.refl _))
  exact List.perm_append_comm

theorem complete_of_bundleObjects_eq (s s1 : SwapchainResources)
    (h : bundleObjects s = bundleObjects s1) (hc : s1.complete) : s.complete := by
  simp only [bundleObjects, List.cons.injEq, Prod.mk.injEq, true_and, and_true] at h
  obtain ⟨h1, h2, h3, h4, h5, h6⟩ := h
  unfold SwapchainResources.complete at *
  rw [h1, h2, h3, h4, h5, h6]
  exact hc

theorem bundleReleasedObjects_congr (s s1 : SwapchainResources)
    (h : bundleObjects s = bundleObjects s1) :
    bundleReleasedObjects s = bundleReleasedObjects s1 := by
  simp only [bundleObjects, List.cons.injEq, Prod.mk.injEq, true_and, and_true] at h
  obtain ⟨h1, h2, h3, h4, h5, h6⟩ := h
  simp only [bundleReleasedObjects, h1, h2, h3, h4, h5, h6]

theorem flatMap_bundleReleasedObjects_congr :
    ∀ (xs ys : List SwapchainResources), xs.map bundleObjects = ys.map bundleObjects →
      xs.flatMap bundleReleasedObjects = ys.flatMap bundleReleasedObjects := by
  intro xs
  induction xs with
  | nil => intro ys h; cases ys with
    | nil => rfl
    | cons y ys => simp at h
  | cons x xs ih =>
    intro ys h
    cases ys with
    | nil => simp at h
    | cons y ys =>
      simp only [List.map_cons, List.cons.injEq] at h
      simp only [List.flatMap_cons, bundleReleasedObjects_congr x y h.1, ih ys h.2]

theorem complete_of_map_bundleObjects_eq :
    ∀ (xs ys : List SwapchainResources), xs.map bundleObjects = ys.map bundleObjects →
      (∀ s ∈ ys, s.complete) → ∀ s ∈ xs, s.complete := by
  intro xs
  induction xs with
  | nil => intro ys _ _ s hs; simp at hs
  | cons x xs ih =>
    intro ys h hc s hs
    cases ys with
    | nil => simp at h
    | cons y ys =>
      simp only [List.map_cons, List.cons.injEq] at h
      rcases List.mem_cons.1 hs with hx | hx
      · rw [hx]
        exact complete_of_bundleObjects_eq x y h.1 (hc y (List.mem_cons_self _ _))
      · exact ih ys h.2 (fun z hz => hc z (List.mem_cons_of_mem _ hz)) s hx

theorem length_createdObjects_InitSwapchainCalls (window : Option WindowSize) (env : BuildEnv)
    (chosenFormat : VkSurfaceFormatKHR) :
    (createdObjects (InitSwapchainCalls window env chosenFormat)).length =
      6 * env.imagesCount + 2 := by
  have h := congrArg List.length (map_fst_flatMap_bundleObjects env env.imagesCount 0)
  rw [List.length_map] at h
  rw [createdObjects_InitSwapchainCalls, List.length_append, List.range_eq_range', h]
  simp [List.length_flatten, List.map_replicate, List.sum_replicate]
  omega

/-- The releases of a teardown on a complete chain whose bundles hold the
handles of a build are a permutation of the creations of that build. -/
theorem releasedObjects_perm_createdObjects (window : Option WindowSize) (env : BuildEnv)
    (chosenFormat : VkSurfaceFormatKHR) (hcomplete : env.complete) (r2 : Renderer)
    (hchain : r2.swapchain = env.swapchain) (hpass : r2.renderPass = env.renderPass)
    (hbundles : r2.swapchainResources.map bundleObjects =
      ((List.range env.imagesCount).map (builtBundle env)).map bundleObjects) :
    DestroySwapchainCalls r2 = r2.swapchainResources.flatMap bundleReleaseCalls ++
      [Call.vkDestroyRenderPass r2.renderPass, Call.vkDestroySwapchainKHR r2.swapchain] ∧
    (releasedObjects (DestroySwapchainCalls r2)).Perm
      (createdObjects (InitSwapchainCalls window env chosenFormat)) := by
  obtain ⟨hc1, hc2, hc3⟩ := hcomplete
  have hcomp : ∀ s ∈ r2.swapchainResources, s.complete :=
    complete_of_map_bundleObjects_eq _ _ hbundles (by
      intro s hs
      obtain ⟨i, -, rfl⟩ := List.mem_map.1 hs
      exact hc3 i)
  have hcalls := DestroySwapchainCalls_complete r2 hcomp (by rw [hpass]; exact hc2)
    (by rw [hchain]; exact hc1)
  refine ⟨hcalls, ?_⟩
  rw [hcalls, releasedObjects_append, releasedObjects_bundleReleaseCalls,
    flatMap_bundleReleasedObjects_congr _ _ hbundles, createdObjects_InitSwapchainCalls,
    hchain, hpass]
  refine List.Perm.trans List.perm_append_comm (List.Perm.append ?_ ?_)
  · exact List.Perm.swap _ _ _
  · rw [List.flatMap_map]
    exact List.Perm.flatMap_left _ (fun i _ => bundleReleasedObjects_perm _)

theorem length_flatMap_bundleReleaseCalls (xs : List SwapchainResources) :
    (xs.flatMap bundleReleaseCalls).length = 6 * xs.length := by
  induction xs with
  | nil => rfl
  | cons x xs ih =>
    simp only [List.flatMap_cons, List.length_append, ih, List.length_cons]
    simp only [bundleReleaseCalls, List.length_cons, List.length_nil]
    omega

theorem createdObjects_flatMap_bundleReleaseCalls (xs : List SwapchainResources) :
    createdObjects (xs.flatMap bundleReleaseCalls) = [] := by
  induction xs with
  | nil => rfl
  | cons x xs ih => simp only [List.flatMap_cons, createdObjects_append, ih]; rfl

/-- C18: after a build that succeeds with `N` images (every creation call
answered with a handle, both image queries reporting `N`), a teardown on the
chain that holds the handles of that build releases a permutation of the
objects the build created: `6 * N + 2` releases for `6 * N + 2` creations,
and the teardown creates nothing. A rebuild against the same driver answers
and window issues the same creation calls again (same extent) and leaves the
bundle count unchanged. -/
theorem teardown_releases_what_the_build_created (window : Option WindowSize)
    (env : BuildEnv) (r : Renderer) (chosenFormat : VkSurfaceFormatKHR)
    (hformat : chooseFormat env.formats = some chosenFormat)
    (himages : env.imagesCount = env.imagesWritten) (hcomplete : env.complete) :
    ∃ r1, InitSwapchain window env r = some (true, r1) ∧
      r1.swapchainResources.length = env.imagesCount ∧
      r1.trace = r.trace ++ InitSwapchainCalls window env chosenFormat ∧
      (createdObjects (InitSwapchainCalls window env chosenFormat)).length =
        6 * env.imagesCount + 2 ∧
      (∀ r2 : Renderer, r2.swapchain = r1.swapchain → r2.renderPass = r1.renderPass →
        r2.swapchainResources.map bundleObjects = r1.swapchainResources.map bundleObjects →
        (DestroySwapchain r2).trace = r2.trace ++ DestroySwapchainCalls r2 ∧
        (releasedObjects (DestroySwapchainCalls r2)).Perm
          (createdObjects (InitSwapchainCalls window env chosenFormat)) ∧
        (releasedObjects (DestroySwapchainCalls r2)).length = 6 * env.imagesCount + 2 ∧
        (DestroySwapchainCalls r2).length = 6 * env.imagesCount + 2 ∧
        createdObjects (DestroySwapchainCalls r2) = []) ∧
      ∃ r3, OnResize window env r1 = some (true, r3) ∧
        r3.framesCount = r1.framesCount ∧
        r3.swapchainResources.length = r1.swapchainResources.length ∧
        r3.trace = r1.trace ++ DestroySwapchainCalls r1 ++
          InitSwapchainCalls window env chosenFormat := by
  obtain ⟨r1, h1, h2, h3, h4, h5, h6, -⟩ :=
    InitSwapchain_contents window env r chosenFormat hformat himages
  have hlen := length_createdObjects_InitSwapchainCalls window env chosenFormat
  refine ⟨r1, h1, by rw [h2]; simp, h4, hlen, ?_, ?_⟩
  · intro r2 hchain hpass hbundles
    obtain ⟨g1, g2⟩ := releasedObjects_perm_createdObjects window env chosenFormat hcomplete r2
      (by rw [hchain, h5]) (by rw [hpass, h6]) (by rw [hbundles, h2])
    have hrel : (releasedObjects (DestroySwapchainCalls r2)).length
        = 6 * env.imagesCount + 2 := by rw [g2.length_eq, hlen]
    have hbl : r2.swapchainResources.length = env.imagesCount := by
      have := congrArg List.length hbundles
      simpa [h2] using this
    refine ⟨by simp [DestroySwapchainCalls], g2, hrel, ?_, ?_⟩
    · rw [g1, List.length_append, length_flatMap_bundleReleaseCalls, hbl]
      rfl
    · rw [g1, createdObjects_append, createdObjects_flatMap_bundleReleaseCalls]
      rfl
  · obtain ⟨r3, k1, -, k3, k4, k5, -⟩ := OnResize_spec window env r1 chosenFormat hformat
      (le_of_eq himages)
    exact ⟨r3, k1, by rw [k3, h3, himages], by rw [k4, h2]; simp [himages], k5⟩

/-- Witness of C18: the example driver, three bundles, twenty releases. -/
theorem teardown_releases_what_the_build_created_witness :
    ∃ r1, InitSwapchain none exampleBuild {} = some (true, r1) ∧
      (releasedObjects (DestroySwapchainCalls r1)).length = 20 := by
  obtain ⟨r1, h1, -, -, -, h5, -⟩ := teardown_releases_what_the_build_created none
    exampleBuild {} { format := 44, colorSpace := 0 } (by decide) rfl
    ⟨by decide, by decide, fun i => by
      simp [SwapchainResources.complete, builtBundle, exampleBuild, exampleBundle]⟩
  exact ⟨r1, h1, (h5 r1 rfl rfl rfl).2.2.1⟩

/-! ## One live chain -/

theorem liveChainsAfter_append (t1 t2 : List Call) :
    ∀ live, liveChainsAfter live (t1 ++ t2) = liveChainsAfter (liveChainsAfter live t1) t2 := by
  induction t1 with
  | nil => intro live; rfl
  | cons c t ih =>
    intro live
    show liveChainsAfter (chainStep live c) (t ++ t2) = _
    rw [ih]
    rfl

theorem peakLiveChains_append (t1 t2 : List Call) :
    ∀ live, peakLiveChains live (t1 ++ t2) =
      max (peakLiveChains live t1) (peakLiveChains (liveChainsAfter live t1) t2) := by
  induction t1 with
  | nil =>
    intro live
    cases t2 with
    | nil => simp [peakLiveChains, liveChainsAfter]
    | cons c t => simp [peakLiveChains, liveChainsAfter]
  | cons c t ih =>
    intro live
    show max live.length (peakLiveChains (chainStep live c) (t ++ t2)) = _
    rw [ih]
    simp only [peakLiveChains, liveChainsAfter, max_assoc]

/-- Calls that neither create nor destroy a chain object leave the live
chains alone. -/
theorem liveChains_untouched (t : List Call)
    (h : ∀ c ∈ t, ∀ live, chainStep live c = live) :
    ∀ live, liveChainsAfter live t = live ∧ peakLiveChains live t = live.length := by
  induction t with
  | nil => intro live; exact ⟨rfl, rfl⟩
  | cons c t ih =>
    intro live
    have hc := h c (List.mem_cons_self _ _) live
    obtain ⟨h1, h2⟩ := ih (fun x hx => h x (List.mem_cons_of_mem _ hx)) live
    simp only [liveChainsAfter, peakLiveChains, hc, h1, h2, max_self, and_self]

theorem ChainInv_extend (r r1 : Renderer) (t : List Call) (hinv : ChainInv r)
    (htrace : r1.trace = r.trace ++ t) (h : ∀ c ∈ t, ∀ live, chainStep live c = live)
    (hchain : r1.swapchain = r.swapchain) : ChainInv r1 := by
  obtain ⟨h1, h2⟩ := hinv
  obtain ⟨g1, g2⟩ := liveChains_untouched t h (liveChainsAfter [] r.trace)
  refine ⟨?_, ?_⟩
  · rw [htrace, liveChainsAfter_append, g1, h1, hchain]
  · rw [htrace, peakLiveChains_append, g2, h1]
    split <;> simp [h2]

theorem chainStep_of_not_touchesChain (c : Call) (h : c.touchesChain = false) :
    ∀ live, chainStep live c = live := by
  intro live
  cases c <;> simp_all [Call.touchesChain, chainStep]

theorem isFrameCall_not_touchesChain (c : Call) (h : c.isFrameCall = true) :
    c.touchesChain = false := by
  cases c <;> simp_all [Call.touchesChain, Call.isFrameCall, Call.isFenceWait,
    Call.isFenceReset, Call.isRecording, Call.isCallback, Call.isSubmit, Call.isPresent]

theorem destroyBundles_not_touchesChain (xs : List SwapchainResources) :
    ∀ c ∈ destroyBundles xs, c.touchesChain = false := by
  induction xs with
  | nil => intro c hc; simp [destroyBundles] at hc
  | cons s rest ih =>
    intro c hc
    simp only [destroyBundles, List.mem_append] at hc
    rcases hc with h | h
    · unfold destroyBundle at h
      simp only [List.mem_append] at h
      rcases h with ((((h | h) | h) | h) | h) | h <;>
        (split at h <;> simp at h; subst h; rfl)
    · exact ih c h

theorem initBundlesCalls_not_touchesChain (env : BuildEnv) (format : Nat) (width height : Int)
    (renderPass : Nat) :
    ∀ (remaining i : Nat), ∀ c ∈ initBundlesCalls env format width height renderPass i remaining,
      c.touchesChain = false := by
  intro remaining
  induction remaining with
  | zero => intro i c hc; simp [initBundlesCalls] at hc
  | succ k ih =>
    intro i c hc
    simp only [initBundlesCalls, List.mem_append, List.mem_cons, List.mem_singleton,
      List.not_mem_nil, or_false] at hc
    rcases hc with (h | h | h | h | h | h) | h
    all_goals first | (subst h; rfl) | exact ih _ c h

theorem initBundles_bound (env : BuildEnv) (format : Nat) (width height : Int) :
    ∀ (remaining i : Nat) (r r1 : Renderer),
    initBundles env format width height i remaining r = some r1 → remaining ≠ 0 →
    i + remaining ≤ r.swapchainResources.length := by
  intro remaining
  induction remaining with
  | zero => intro i r r1 _ h; exact absurd rfl h
  | succ k ih =>
    intro i r r1 h _
    cases hlook : r.swapchainResources[i]? with
    | none => simp [initBundles, initBundle, hlook] at h
    | some current =>
      have hi : i < r.swapchainResources.length := by
        by_contra hcon
        rw [List.getElem?_eq_none (by omega)] at hlook
        cases hlook
      obtain ⟨r2, h1, h2, -⟩ := initBundle_spec env format width height i r current hlook
      simp only [initBundles, h1] at h
      by_cases hk : k = 0
      · omega
      · have := ih (i + 1) r2 r1 h hk
        rw [h2] at this
        simp at this
        omega

/-- Every run of `InitSwapchain` that returns had a format to choose and
stayed inside the bundle vector, and so is described by `InitSwapchain_spec`. -/
theorem InitSwapchain_returns_spec (window : Option WindowSize) (env : BuildEnv)
    (r r1 : Renderer) (b : Bool) (h : InitSwapchain window env r = some (b, r1)) :
    ∃ chosenFormat, chooseFormat env.formats = some chosenFormat ∧
      env.imagesCount ≤ env.imagesWritten ∧ b = true ∧
      r1.framesCount = env.imagesWritten ∧
      r1.swapchainResources.length = env.imagesWritten ∧
      r1.trace = r.trace ++ InitSwapchainCalls window env chosenFormat ∧
      r1.swapchain = env.swapchain ∧ r1.renderPass = env.renderPass ∧
      r1.currentFrame = r.currentFrame ∧ r1.nextFrame = r.nextFrame ∧
      r1.callbackOnPresent = r.callbackOnPresent := by
  cases hformat : chooseFormat env.formats with
  | none => simp [InitSwapchain, hformat] at h
  | some chosen =>
    have himages : env.imagesCount ≤ env.imagesWritten := by
      by_cases h0 : env.imagesCount = 0
      · omega
      · cases hloop : initBundles env chosen.format (resolveExtent window env.capabilities).1
            (resolveExtent window env.capabilities).2 0 env.imagesCount
            (createChain window env chosen (querySurface env r)) with
        | none => simp [InitSwapchain, hformat, hloop] at h
        | some r2 =>
          have := initBundles_bound _ _ _ _ _ _ _ _ hloop h0
          simpa [resizeVector_length] using this
    obtain ⟨r2, g1, g2, g3, g4, g5, g6, g7, g8, g9⟩ :=
      InitSwapchain_spec window env r chosen hformat himages
    rw [g1] at h
    simp only [Option.some.injEq, Prod.mk.injEq] at h
    obtain ⟨hb, hr⟩ := h
    subst hr
    exact ⟨chosen, rfl, himages, hb.symm, g2, g3, g4, g5, g6, g7, g8, g9⟩

theorem DestroySwapchain_ChainInv (r : Renderer) (hinv : ChainInv r) :
    ChainInv (DestroySwapchain r) := by
  obtain ⟨h1, h2⟩ := hinv
  have hA : ∀ c ∈ destroyBundles r.swapchainResources ++
      (if r.renderPass ≠ 0 then [Call.vkDestroyRenderPass r.renderPass] else []),
      ∀ live, chainStep live c = live := by
    intro c hc
    apply chainStep_of_not_touchesChain
    rcases List.mem_append.1 hc with h | h
    · exact destroyBundles_not_touchesChain _ c h
    · split at h <;> simp at h; subst h; rfl
  have htrace : (DestroySwapchain r).trace = r.trace ++
      ((destroyBundles r.swapchainResources ++
        (if r.renderPass ≠ 0 then [Call.vkDestroyRenderPass r.renderPass] else [])) ++
      (if r.swapchain ≠ 0 then [Call.vkDestroySwapchainKHR r.swapchain] else [])) := by
    simp
  obtain ⟨g1, g2⟩ := liveChains_untouched _ hA (liveChainsAfter [] r.trace)
  refine ⟨?_, ?_⟩
  · rw [htrace, liveChainsAfter_append, liveChainsAfter_append, g1, h1]
    by_cases hs : r.swapchain = 0
    · simp [hs, liveChainsAfter]
    · simp [hs, liveChainsAfter, chainStep]
  · rw [htrace, peakLiveChains_append, peakLiveChains_append, g1, g2, h1]
    by_cases hs : r.swapchain = 0
    · simp [hs, peakLiveChains, h2]
    · simp [hs, peakLiveChains, chainStep, h2]

theorem InitSwapchain_ChainInv (window : Option WindowSize) (env : BuildEnv)
    (r r1 : Renderer) (b : Bool) (hinv : ChainInv r) (hnone : r.swapchain = 0)
    (h : InitSwapchain window env r = some (b, r1)) : ChainInv r1 := by
  obtain ⟨h1, h2⟩ := hinv
  obtain ⟨chosen, -, -, -, -, -, g6, g7, -⟩ := InitSwapchain_returns_spec window env r r1 b h
  have hB := fun c hc => chainStep_of_not_touchesChain c
    (initBundlesCalls_not_touchesChain env chosen.format
      (resolveExtent window env.capabilities).1 (resolveExtent window env.capabilities).2
      env.renderPass env.imagesCount 0 c hc)
  rw [hnone] at h1
  simp only [ne_eq, not_true_eq_false, if_false] at h1
  refine ⟨?_, ?_⟩
  · rw [g6, liveChainsAfter_append, h1, InitSwapchainCalls, liveChainsAfter_append, g7]
    by_cases hs : env.swapchain = 0
    · simp only [liveChainsAfter, chainStep, hs, ne_eq, not_true_eq_false, if_false]
      exact (liveChains_untouched _ hB []).1
    · simp only [liveChainsAfter, chainStep, hs, ne_eq, not_false_eq_true, if_true,
        List.nil_append]
      exact (liveChains_untouched _ hB [env.swapchain]).1
  · rw [g6, peakLiveChains_append, h1, InitSwapchainCalls, peakLiveChains_append]
    by_cases hs : env.swapchain = 0
    · simp only [liveChainsAfter, peakLiveChains, chainStep, hs, ne_eq, not_true_eq_false,
        if_false, (liveChains_untouched _ hB []).2]
      simp [h2]
    · simp only [liveChainsAfter, peakLiveChains, chainStep, hs, ne_eq, not_false_eq_true,
        if_true, List.nil_append, (liveChains_untouched _ hB [env.swapchain]).2]
      simp [h2]

theorem OnResize_ChainInv (window : Option WindowSize) (env : BuildEnv)
    (r r1 : Renderer) (b : Bool) (hinv : ChainInv r)
    (h : OnResize window env r = some (b, r1)) : ChainInv r1 := by
  unfold OnResize OnResizeWith at h
  cases hbuild : InitSwapchain window env (DestroySwapchain r) with
  | none => simp [hbuild] at h
  | some p =>
    obtain ⟨b2, r2⟩ := p
    have hinv2 := InitSwapchain_ChainInv window env _ r2 b2 (DestroySwapchain_ChainInv r hinv)
      (by simp) hbuild
    cases b2 with
    | false =>
      simp only [hbuild, Option.some.injEq, Prod.mk.injEq] at h
      rw [← h.2]; exact hinv2
    | true =>
      simp only [hbuild, Option.some.injEq, Prod.mk.injEq] at h
      rw [← h.2]; exact hinv2

theorem ChainInv_of_same (r r1 : Renderer) (hinv : ChainInv r)
    (htrace : r1.trace = r.trace) (hchain : r1.swapchain = r.swapchain) : ChainInv r1 := by
  unfold ChainInv at *
  rw [htrace, hchain]
  exact hinv

theorem advanceFrame_ChainInv (r r1 : Renderer) (b : Bool) (hinv : ChainInv r)
    (h : advanceFrame r = some (b, r1)) : ChainInv r1 := by
  unfold advanceFrame at h
  split at h
  · cases h
  · simp only [Option.some.injEq, Prod.mk.injEq] at h
    rw [← h.2]
    exact ChainInv_of_same r _ hinv rfl rfl

theorem submitAndPresent_ChainInv (window : Option WindowSize) (env : RenderEnv)
    (current next : SwapchainResources) (r r1 : Renderer) (b : Bool) (hinv : ChainInv r)
    (h : submitAndPresent window env current next r = some (b, r1)) : ChainInv r1 := by
  have hC : ChainInv (submitFrame env current next r) :=
    ChainInv_extend r _ _ hinv (submitFrame_trace env current next r)
      (by
        intro c hc
        simp only [List.mem_cons, List.mem_singleton, List.not_mem_nil, or_false] at hc
        rcases hc with h | h | h <;> (subst h; intro live; rfl))
      (by simp)
  unfold submitAndPresent at h
  by_cases hstale : env.presentResult = VK_ERROR_OUT_OF_DATE_KHR ∨
      env.presentResult = VK_SUBOPTIMAL_KHR
  · simp only [hstale, if_true] at h
    cases hres : OnResize window env.build (submitFrame env current next r) with
    | none => simp [hres] at h
    | some p =>
      obtain ⟨b2, r2⟩ := p
      have hinv2 := OnResize_ChainInv window env.build _ r2 b2 hC hres
      cases b2 with
      | false =>
        simp only [hres, Option.some.injEq, Prod.mk.injEq] at h
        rw [← h.2]; exact hinv2
      | true =>
        simp only [hres] at h
        exact advanceFrame_ChainInv r2 r1 b hinv2 h
  · simp only [hstale, if_false] at h
    exact advanceFrame_ChainInv _ r1 b
      (ChainInv_of_same _ _ hC (by simp) (by simp)) h

theorem recordFrame_ChainInv (window : Option WindowSize) (env : RenderEnv)
    (current : SwapchainResources) (r r1 : Renderer) (b : Bool) (hinv : ChainInv r)
    (h : recordFrame window env current r = some (b, r1)) : ChainInv r1 := by
  unfold recordFrame at h
  cases hlook : r.swapchainResources[r.nextFrame]? with
  | none => simp [hlook] at h
  | some next =>
    simp only [hlook] at h
    have hB : ChainInv (beginRecording env current next r) :=
      ChainInv_extend r _ _ hinv
        (by rw [beginRecording_trace, List.append_assoc])
        (by
          intro c hc
          simp only [List.mem_append, List.mem_cons, List.mem_singleton, List.not_mem_nil,
            or_false] at hc
          rcases hc with h | h | h
          · split at h <;> simp at h; subst h; intro live; rfl
          · subst h; intro live; rfl
          · subst h; intro live; rfl)
        (by simp)
    cases hcb : (beginRecording env current next r).callbackOnPresent with
    | none =>
      simp only [hcb] at h
      exact submitAndPresent_ChainInv window env current next _ r1 b hB h
    | some callback =>
      simp only [hcb] at h
      have hCall : ChainInv ((beginRecording env current next r).call
          (Call.callbackOnPresent (beginRecording env current next r).nextFrame)) :=
        ChainInv_extend _ _ _ hB (call_trace _ _)
          (by intro c hc; simp at hc; subst hc; intro live; rfl) (by simp)
      split at h
      · simp only [Option.some.injEq, Prod.mk.injEq] at h
        rw [← h.2]; exact hCall
      · exact submitAndPresent_ChainInv window env current next _ r1 b hCall h

/-- `Render` keeps the chain bookkeeping on every path on which it returns. -/
theorem Render_ChainInv (window : Option WindowSize) (env : RenderEnv)
    (r r1 : Renderer) (b : Bool) (hinv : ChainInv r)
    (h : Render window env r = some (b, r1)) : ChainInv r1 := by
  unfold Render at h
  cases hlook : r.swapchainResources[r.currentFrame]? with
  | none => simp [hlook] at h
  | some current =>
    simp only [hlook] at h
    have hA : ChainInv (acquireImage env current r) :=
      ChainInv_extend r _ _ hinv (acquireImage_trace env current r)
        (by
          intro c hc
          simp only [List.mem_cons, List.mem_singleton, List.not_mem_nil, or_false] at hc
          rcases hc with h | h <;> (subst h; intro live; rfl))
        (by simp)
    split at h
    · refine OnResize_ChainInv window env.build _ r1 b ?_ h
      exact ChainInv_extend _ _ [Call.vkDeviceWaitIdle] hA (by simp)
        (by intro c hc; simp at hc; subst hc; intro live; rfl) (by simp)
    · exact recordFrame_ChainInv window env current _ r1 b
        (ChainInv_of_same _ _ hA (by simp) (by simp)) h

theorem ChainInv_fresh : ChainInv {} := by
  refine ⟨by decide, by decide⟩

theorem Init_ChainInv (window : Option WindowSize) (env : InitEnv) (r r1 : Renderer)
    (b : Bool) (hinv : ChainInv r) (hnone : r.swapchain = 0)
    (h : Init window env r = some (b, r1)) : ChainInv r1 := by
  have hS : ChainInv (InitSurface env r).2 ∧ (InitSurface env r).2.swapchain = 0 :=
    ⟨ChainInv_extend r _ [Call.vkCreateWaylandSurfaceKHR env.surface] hinv
      (by simp [InitSurface])
      (by intro c hc; simp at hc; subst hc; intro live; rfl) (by simp [InitSurface]),
     by simp [InitSurface, hnone]⟩
  unfold Init at h
  rcases hs : InitSurface env r with ⟨bs, rs⟩
  rw [hs] at h hS
  cases bs with
  | false =>
    simp only [Option.some.injEq, Prod.mk.injEq] at h
    rw [← h.2]
    exact ChainInv_of_same rs _ hS.1 rfl rfl
  | true =>
    simp only at h
    have hS2 : rs.swapchain = 0 := hS.2
    have hP : ChainInv (InitCommandPool env (InitGraphicsQueue env rs)).2 ∧
        (InitCommandPool env (InitGraphicsQueue env rs)).2.swapchain = 0 :=
      ⟨ChainInv_extend rs _ [Call.vkGetDeviceQueue, Call.vkCreateCommandPool env.commandPool]
        hS.1 (by simp [InitCommandPool, InitGraphicsQueue])
        (by
          intro c hc
          simp only [List.mem_cons, List.mem_singleton, List.not_mem_nil, or_false] at hc
          rcases hc with h | h <;> (subst h; intro live; rfl))
        (by simp [InitCommandPool, InitGraphicsQueue]),
       by simp [InitCommandPool, InitGraphicsQueue, hS2]⟩
    rcases hp : InitCommandPool env (InitGraphicsQueue env rs) with ⟨bp, rp⟩
    rw [hp] at h hP
    cases bp with
    | false =>
      simp only [Option.some.injEq, Prod.mk.injEq] at h
      rw [← h.2]
      exact ChainInv_of_same rp _ hP.1 rfl rfl
    | true =>
      simp only at h
      cases hbuild : InitSwapchain window env.build rp with
      | none => simp [hbuild] at h
      | some p =>
        obtain ⟨b2, r2⟩ := p
        have hinv2 := InitSwapchain_ChainInv window env.build rp r2 b2 hP.1 hP.2 hbuild
        cases b2 with
        | false =>
          simp only [hbuild, Option.some.injEq, Prod.mk.injEq] at h
          rw [← h.2]
          exact ChainInv_of_same r2 _ hinv2 rfl rfl
        | true =>
          simp only [hbuild, Option.some.injEq, Prod.mk.injEq] at h
          rw [← h.2]
          exact hinv2

theorem Destructor_ChainInv (idleResult : Int) (r : Renderer) (hinv : ChainInv r) :
    ChainInv (Destructor idleResult r) ∧ (Destructor idleResult r).swapchain = 0 := by
  have key : Destructor idleResult r = destroySurface (destroyCommandPool (DestroySwapchain
      (CHECK_VK_RESULT "vkDeviceWaitIdle" idleResult (r.call Call.vkDeviceWaitIdle)))) := rfl
  rw [key]
  have h0 : ChainInv (CHECK_VK_RESULT "vkDeviceWaitIdle" idleResult
      (r.call Call.vkDeviceWaitIdle)) :=
    ChainInv_extend r _ [Call.vkDeviceWaitIdle] hinv (by simp)
      (by intro c hc; simp at hc; subst hc; intro live; rfl) (by simp)
  have h1 := DestroySwapchain_ChainInv _ h0
  have hsw : (DestroySwapchain (CHECK_VK_RESULT "vkDeviceWaitIdle" idleResult
      (r.call Call.vkDeviceWaitIdle))).swapchain = 0 := by simp
  generalize DestroySwapchain (CHECK_VK_RESULT "vkDeviceWaitIdle" idleResult
      (r.call Call.vkDeviceWaitIdle)) = rd at h1 hsw ⊢
  have h2 : ChainInv (destroyCommandPool rd) ∧ (destroyCommandPool rd).swapchain = 0 := by
    unfold destroyCommandPool
    split
    · exact ⟨ChainInv_extend rd _ [Call.vkDestroyCommandPool rd.commandPool] h1 (by simp)
        (by intro c hc; simp at hc; subst hc; intro live; rfl) (by simp), by simpa using hsw⟩
    · exact ⟨h1, hsw⟩
  generalize destroyCommandPool rd = rc at h2 ⊢
  unfold destroySurface
  split
  · exact ⟨ChainInv_extend rc _ [Call.vkDestroySurfaceKHR rc.surface] h2.1 (by simp)
      (by intro c hc; simp at hc; subst hc; intro live; rfl) (by simp), by simpa using h2.2⟩
  · exact h2

theorem runOps_ChainInv : ∀ (ops : List Op) (r r1 : Renderer), ChainInv r →
    runOps ops r = some r1 → ChainInv r1 := by
  intro ops
  induction ops with
  | nil => intro r r1 hinv h; cases h; exact hinv
  | cons op ops ih =>
    intro r r1 hinv h
    unfold runOps at h
    cases hop : op.run r with
    | none => simp [hop] at h
    | some p =>
      obtain ⟨b, r2⟩ := p
      simp only [hop] at h
      refine ih r2 r1 ?_ h
      cases op with
      | render window env => exact Render_ChainInv window env r r2 b hinv hop
      | resize window env => exact OnResize_ChainInv window env r r2 b hinv hop

/-! ## C16 -/

theorem releasedObjects_destroyBundle (s : SwapchainResources) :
    releasedObjects (destroyBundle s) =
      (bundleReleasedObjects s).filter (fun o => decide (o.2 ≠ 0)) := by
  unfold destroyBundle bundleReleasedObjects
  by_cases h1 : s.fence = 0 <;> by_cases h2 : s.startSemaphore = 0 <;>
    by_cases h3 : s.endSemaphore = 0 <;> by_cases h4 : s.framebuffer = 0 <;>
    by_cases h5 : s.imageView = 0 <;> by_cases h6 : s.commandBuffer = 0 <;>
    simp [h1, h2, h3, h4, h5, h6, releasedObjects, Call.released, List.filter]

theorem releasedObjects_destroyBundles (xs : List SwapchainResources) :
    releasedObjects (destroyBundles xs) =
      (xs.flatMap bundleReleasedObjects).filter (fun o => decide (o.2 ≠ 0)) := by
  induction xs with
  | nil => rfl
  | cons s rest ih =>
    simp only [destroyBundles, releasedObjects_append, List.flatMap_cons, List.filter_append,
      ih, releasedObjects_destroyBundle]

/-- `DestroySwapchain` releases exactly the objects the renderer holds. -/
theorem releasedObjects_DestroySwapchainCalls (r : Renderer) :
    releasedObjects (DestroySwapchainCalls r) = heldObjects r := by
  unfold DestroySwapchainCalls heldObjects
  simp only [releasedObjects_append, releasedObjects_destroyBundles, List.filter_append]
  by_cases h1 : r.renderPass = 0 <;> by_cases h2 : r.swapchain = 0 <;>
    simp [h1, h2, releasedObjects, Call.released, List.filter]

theorem createdObjects_destroyBundles (xs : List SwapchainResources) :
    createdObjects (destroyBundles xs) = [] := by
  induction xs with
  | nil => rfl
  | cons s rest ih =>
    simp only [destroyBundles, createdObjects_append, ih, List.append_nil]
    unfold destroyBundle
    by_cases h1 : s.fence = 0 <;> by_cases h2 : s.startSemaphore = 0 <;>
      by_cases h3 : s.endSemaphore = 0 <;> by_cases h4 : s.framebuffer = 0 <;>
      by_cases h5 : s.imageView = 0 <;> by_cases h6 : s.commandBuffer = 0 <;>
      simp [h1, h2, h3, h4, h5, h6, createdObjects, Call.created]

theorem createdObjects_DestroySwapchainCalls (r : Renderer) :
    createdObjects (DestroySwapchainCalls r) = [] := by
  unfold DestroySwapchainCalls
  simp only [createdObjects_append, createdObjects_destroyBundles]
  by_cases h1 : r.renderPass = 0 <;> by_cases h2 : r.swapchain = 0 <;>
    simp [h1, h2, createdObjects, Call.created]

theorem releasedObjects_initBundlesCalls (env : BuildEnv) (format : Nat) (width height : Int)
    (renderPass : Nat) :
    ∀ (remaining i : Nat),
      releasedObjects (initBundlesCalls env format width height renderPass i remaining) = [] := by
  intro remaining
  induction remaining with
  | zero => intro i; rfl
  | succ k ih =>
    intro i
    simp only [initBundlesCalls, releasedObjects_append, ih]
    rfl

theorem releasedObjects_InitSwapchainCalls (window : Option WindowSize) (env : BuildEnv)
    (chosenFormat : VkSurfaceFormatKHR) :
    releasedObjects (InitSwapchainCalls window env chosenFormat) = [] := by
  simp only [InitSwapchainCalls, releasedObjects_append, releasedObjects_initBundlesCalls]
  rfl

/-- Every rebuild that returns has issued the calls of `DestroySwapchain`
followed by the calls of `InitSwapchain`. -/
theorem OnResize_returns_spec (window : Option WindowSize) (env : BuildEnv)
    (r r1 : Renderer) (b : Bool) (h : OnResize window env r = some (b, r1)) :
    ∃ chosenFormat, chooseFormat env.formats = some chosenFormat ∧
      env.imagesCount ≤ env.imagesWritten ∧ b = true ∧
      r1.currentFrame = 0 ∧ r1.framesCount = env.imagesWritten ∧
      r1.swapchainResources.length = env.imagesWritten ∧
      r1.trace = r.trace ++ DestroySwapchainCalls r ++
        InitSwapchainCalls window env chosenFormat := by
  unfold OnResize OnResizeWith at h
  cases hbuild : InitSwapchain window env (DestroySwapchain r) with
  | none => simp [hbuild] at h
  | some p =>
    obtain ⟨b2, r2⟩ := p
    obtain ⟨chosen, g1, g2, g3, g4, g5, g6, -⟩ :=
      InitSwapchain_returns_spec window env _ r2 b2 hbuild
    subst g3
    simp only [hbuild, Option.some.injEq, Prod.mk.injEq] at h
    obtain ⟨hb, hr⟩ := h
    subst hr
    refine ⟨chosen, g1, g2, hb.symm, rfl, g4, g5, ?_⟩
    show r2.trace = _
    rw [g6]
    simp [DestroySwapchainCalls]

/-- C16: a rebuild first runs `DestroySwapchain`, which releases every
object the renderer holds (each non-null handle of every bundle, the render
pass, the chain object), creates nothing and leaves the bundle list empty and
nothing held; the creation calls of `InitSwapchain` all follow it, and no
release follows them. Over the whole life of a renderer (`Init`, any
sequence of `Render` and `OnResize` calls, the destructor) there is never
more than one live chain object, and none is left at the end. -/
theorem at_most_one_chain_is_live :
    (∀ r : Renderer,
      (DestroySwapchain r).trace = r.trace ++ DestroySwapchainCalls r ∧
      releasedObjects (DestroySwapchainCalls r) = heldObjects r ∧
      createdObjects (DestroySwapchainCalls r) = [] ∧
      (DestroySwapchain r).swapchainResources = [] ∧
      heldObjects (DestroySwapchain r) = []) ∧
    (∀ (window : Option WindowSize) (env : BuildEnv) (r r1 : Renderer) (b : Bool),
      OnResize window env r = some (b, r1) →
      ∃ chosenFormat, r1.trace = r.trace ++ DestroySwapchainCalls r ++
          InitSwapchainCalls window env chosenFormat ∧
        releasedObjects (InitSwapchainCalls window env chosenFormat) = []) ∧
    (∀ (window : Option WindowSize) (env : InitEnv) (ops : List Op) (idleResult : Int)
        (r1 : Renderer),
      lifetime window env ops idleResult = some r1 →
      peakLiveChains [] r1.trace ≤ 1 ∧ liveChainsAfter [] r1.trace = []) := by
  refine ⟨?_, ?_, ?_⟩
  · intro r
    refine ⟨by simp [DestroySwapchainCalls], releasedObjects_DestroySwapchainCalls r,
      createdObjects_DestroySwapchainCalls r, by simp, ?_⟩
    simp [heldObjects]
  · intro window env r r1 b h
    obtain ⟨chosen, -, -, -, -, -, -, g⟩ := OnResize_returns_spec window env r r1 b h
    exact ⟨chosen, g, releasedObjects_InitSwapchainCalls window env chosen⟩
  · intro window env ops idleResult r1 h
    unfold lifetime at h
    cases hinit : Init window env {} with
    | none => simp [hinit] at h
    | some p =>
      obtain ⟨b, r0⟩ := p
      simp only [hinit] at h
      cases hops : runOps ops r0 with
      | none => simp [hops] at h
      | some r2 =>
        simp only [hops, Option.some.injEq] at h
        have hinv0 := Init_ChainInv window env {} r0 b ChainInv_fresh rfl hinit
        have hinv2 := runOps_ChainInv ops r0 r2 hinv0 hops
        obtain ⟨⟨g1, g2⟩, g3⟩ := Destructor_ChainInv idleResult r2 hinv2
        rw [← h]
        refine ⟨g2, ?_⟩
        rw [g1, g3]
        rfl

/-- Witness of C16: the example life returns, and never has two live chains. -/
theorem at_most_one_chain_is_live_witness :
    (lifetime none exampleInit exampleOps 0).isSome = true ∧
    Option.all (fun r => decide (peakLiveChains [] r.trace ≤ 1))
      (lifetime none exampleInit exampleOps 0) = true := by
  refine ⟨by decide, ?_⟩
  cases h : lifetime none exampleInit exampleOps 0 with
  | none => rfl
  | some r1 =>
    have := (at_most_one_chain_is_live.2.2 none exampleInit exampleOps 0 r1 h).1
    simp [Option.all, this]

/-! ## One cycle on the chain as it is -/

/-- Every `Render` call with no stale result that returns has issued the
calls of one cycle and has stored the fence of the current slot in
`lastFence` of the acquired bundle; it returns true exactly when the cycle was
completed, and then the slot has advanced. -/
theorem Render_cycle_returns (window : Option WindowSize) (env : RenderEnv)
    (r r1 : Renderer) (b : Bool) (hstale : env.notStale)
    (h : Render window env r = some (b, r1)) :
    ∃ current next,
      r.swapchainResources[r.currentFrame]? = some current ∧
      r.swapchainResources[env.acquired.getD r.nextFrame]? = some next ∧
      r1.trace = r.trace ++ cycleCalls r current next (env.acquired.getD r.nextFrame) b ∧
      r1.swapchainResources = r.swapchainResources.set (env.acquired.getD r.nextFrame)
        { next with lastFence := current.fence } ∧
      r1.framesCount = r.framesCount ∧ r1.callbackOnPresent = r.callbackOnPresent ∧
      r1.swapchain = r.swapchain ∧ r1.renderPass = r.renderPass ∧
      r1.nextFrame = env.acquired.getD r.nextFrame ∧
      (b = true → r.framesCount ≠ 0 ∧
        r1.currentFrame = ((r.currentFrame + 1) % UINT32_SIZE) % r.framesCount) ∧
      (b = false → r1.currentFrame = r.currentFrame) := by
  obtain ⟨hacq, hpres⟩ := hstale
  unfold Render at h
  cases hcur : r.swapchainResources[r.currentFrame]? with
  | none => simp [hcur] at h
  | some current =>
    simp only [hcur, hacq, if_false] at h
    unfold recordFrame at h
    simp only [checkError_swapchainResources, acquireImage_swapchainResources,
      checkError_nextFrame, acquireImage_nextFrame] at h
    cases hnext : r.swapchainResources[env.acquired.getD r.nextFrame]? with
    | none => simp [hnext] at h
    | some next =>
      simp only [hnext, beginRecording_callbackOnPresent, checkError_callbackOnPresent,
        acquireImage_callbackOnPresent, call_nextFrame, beginRecording_nextFrame,
        checkError_nextFrame, acquireImage_nextFrame] at h
      refine ⟨current, next, rfl, rfl, ?_⟩
      have hdone : ∀ (r0 : Renderer), r0.framesCount = r.framesCount →
          r0.currentFrame = r.currentFrame →
          submitAndPresent window env current next r0 = some (b, r1) →
          b = true ∧ r.framesCount ≠ 0 ∧
          r1.currentFrame = ((r.currentFrame + 1) % UINT32_SIZE) % r.framesCount ∧
          r1.trace = (submitFrame env current next r0).trace ∧
          r1.swapchainResources = r0.swapchainResources ∧
          r1.framesCount = r0.framesCount ∧ r1.callbackOnPresent = r0.callbackOnPresent ∧
          r1.swapchain = r0.swapchain ∧ r1.renderPass = r0.renderPass ∧
          r1.nextFrame = r0.nextFrame := by
        intro r0 hf hc hs
        unfold submitAndPresent at hs
        simp only [hpres, if_false] at hs
        unfold advanceFrame at hs
        split at hs
        · cases hs
        · rename_i hN
          simp only [Option.some.injEq, Prod.mk.injEq] at hs
          obtain ⟨hb, hr⟩ := hs
          subst hr
          refine ⟨hb.symm, ?_, ?_, ?_, ?_, ?_, ?_, ?_, ?_, ?_⟩
          · simpa [hf] using hN
          · simp [hf, hc]
          · simp
          · simp
          · simp
          · simp
          · simp
          · simp
          · simp
      cases hcb : r.callbackOnPresent with
      | none =>
        simp only [hcb] at h
        obtain ⟨hb, hN, h1, h2, h3, h4, h5, h6, h7, h8⟩ := hdone _ (by simp) (by simp) h
        subst hb
        refine ⟨?_, ?_, ?_, ?_, ?_, ?_, ?_, fun _ => ⟨hN, h1⟩, fun hcon => by cases hcon⟩
        · rw [h2]; simp [cycleCalls, hcb]
        · rw [h3]; simp
        · rw [h4]; simp
        · rw [h5]; simp [hcb]
        · rw [h6]; simp
        · rw [h7]; simp
        · rw [h8]; simp
      | some callback =>
        simp only [hcb] at h
        by_cases hrej : callback (env.acquired.getD r.nextFrame) = false
        · simp only [hrej, if_true, Option.some.injEq, Prod.mk.injEq] at h
          obtain ⟨hb, hr⟩ := h
          subst hb hr
          simp [cycleCalls, hcb]
        · simp only [hrej, if_false] at h
          obtain ⟨hb, hN, h1, h2, h3, h4, h5, h6, h7, h8⟩ := hdone _ (by simp) (by simp) h
          subst hb
          refine ⟨?_, ?_, ?_, ?_, ?_, ?_, ?_, fun _ => ⟨hN, h1⟩, fun hcon => by cases hcon⟩
          · rw [h2]; simp [cycleCalls, hcb]
          · rw [h3]; simp
          · rw [h4]; simp
          · rw [h5]; simp [hcb]
          · rw [h6]; simp
          · rw [h7]; simp
          · rw [h8]; simp

/-! ## The synchronisation model, call by call -/

theorem gpuRun_append (t1 t2 : List Call) :
    ∀ g, gpuRun g (t1 ++ t2) = gpuRun (gpuRun g t1) t2 := by
  induction t1 with
  | nil => intro g; rfl
  | cons c t ih => intro g; exact ih (gpuStep g c)

theorem AlwaysGpu_append (P : Gpu → Call → Prop) (t1 t2 : List Call) :
    ∀ g, AlwaysGpu P g (t1 ++ t2) ↔ (AlwaysGpu P g t1 ∧ AlwaysGpu P (gpuRun g t1) t2) := by
  induction t1 with
  | nil => intro g; simp [AlwaysGpu, gpuRun]
  | cons c t ih =>
    intro g
    show (P g c ∧ AlwaysGpu P (gpuStep g c) (t ++ t2)) ↔ _
    rw [ih]
    simp only [AlwaysGpu, gpuRun, and_assoc]

theorem AlwaysGpu_mono (P Q : Gpu → Call → Prop) (hPQ : ∀ g c, P g c → Q g c)
    (t : List Call) : ∀ g, AlwaysGpu P g t → AlwaysGpu Q g t := by
  induction t with
  | nil => intro g _; trivial
  | cons c t ih => intro g h; exact ⟨hPQ g c h.1, ih _ h.2⟩

/-- With the bookkeeping in agreement at most one submission per fence of the
chain is in flight. -/
theorem Sync_length_le (bundles : List SwapchainResources) (g : Gpu) (h : Sync bundles g) :
    g.inFlight.length ≤ bundles.length := by
  obtain ⟨-, h2, -, h4⟩ := h
  have hsub : g.inFlight.map (fun x => x.fence) ⊆ bundles.map (fun s => s.fence) := by
    intro f hf
    obtain ⟨x, hx, rfl⟩ := List.mem_map.1 hf
    exact h2 x hx
  have := (List.subperm_of_subset h4 hsub).length_le
  simpa using this

/-- If moreover none of them is guarded by the fence `fence` of the chain,
at most `N - 1` are in flight. -/
theorem Sync_length_lt (bundles : List SwapchainResources) (g : Gpu) (fence : Nat)
    (h : Sync bundles g) (hmem : fence ∈ bundles.map (fun s => s.fence))
    (hfree : ∀ x ∈ g.inFlight, x.fence ≠ fence) :
    g.inFlight.length + 1 ≤ bundles.length := by
  obtain ⟨-, h2, -, h4⟩ := h
  have hsub : g.inFlight.map (fun x => x.fence) ⊆
      (bundles.map (fun s => s.fence)).erase fence := by
    intro f hf
    obtain ⟨x, hx, rfl⟩ := List.mem_map.1 hf
    exact (List.mem_erase_of_ne (hfree x hx)).2 (h2 x hx)
  have h1 := (List.subperm_of_subset h4 hsub).length_le
  rw [List.length_erase_of_mem hmem] at h1
  have hpos : 0 < (bundles.map (fun s => s.fence)).length := List.length_pos_of_mem hmem
  simp only [List.length_map] at h1 hpos
  omega

/-- After a wait on a fence no submission in flight is guarded by it. -/
theorem Sync_wait (bundles : List SwapchainResources) (g : Gpu) (fence : Nat)
    (h : Sync bundles g) :
    Sync bundles (g.wait fence) ∧ (∀ x ∈ (g.wait fence).inFlight, x.fence ≠ fence) ∧
      (∀ x ∈ (g.wait fence).inFlight, x ∈ g.inFlight) := by
  obtain ⟨h1, h2, h3, h4⟩ := h
  unfold Gpu.wait
  cases hf : g.fences fence with
  | signalled =>
    refine ⟨⟨h1, h2, h3, h4⟩, ?_, fun x hx => hx⟩
    intro x hx hcon
    have := h1 x hx
    rw [hcon, hf] at this
    cases this
  | unsignalled =>
    refine ⟨⟨h1, h2, h3, h4⟩, ?_, fun x hx => hx⟩
    intro x hx hcon
    have := h1 x hx
    rw [hcon, hf] at this
    cases this
  | guarding s =>
    have hne : ∀ x ∈ g.inFlight.filter (fun x => decide (x.id ≠ s)), x.fence ≠ fence := by
      intro x hx hcon
      obtain ⟨hx1, hx2⟩ := List.mem_filter.1 hx
      have := h1 x hx1
      rw [hcon, hf] at this
      simp only [FenceState.guarding.injEq] at this
      simp [this] at hx2
    have hin : ∀ x ∈ g.inFlight.filter (fun x => decide (x.id ≠ s)), x ∈ g.inFlight :=
      fun x hx => (List.mem_filter.1 hx).1
    refine ⟨⟨?_, fun x hx => h2 x (hin x hx), fun b hb x hx => h3 b hb x (hin x hx), ?_⟩,
      hne, hin⟩
    · intro x hx
      simp only [Gpu.setFence, hne x hx, if_false]
      exact h1 x (hin x hx)
    · exact List.Nodup.sublist ((List.filter_sublist _).map _) h4

/-- A fence that guards nothing in flight can be reset. -/
theorem Sync_reset (bundles : List SwapchainResources) (g : Gpu) (fence : Nat)
    (h : Sync bundles g) (hfree : ∀ x ∈ g.inFlight, x.fence ≠ fence) :
    Sync bundles (g.setFence fence FenceState.unsignalled) := by
  obtain ⟨h1, h2, h3, h4⟩ := h
  refine ⟨?_, h2, h3, h4⟩
  intro x hx
  simp only [Gpu.setFence, hfree x hx, if_false]
  exact h1 x hx

/-- A submission of a command buffer none of whose submissions is in flight,
under a free fence of the chain that `lastFence` of its bundle records. -/
theorem Sync_submit (bundles : List SwapchainResources) (g : Gpu) (commandBuffer fence : Nat)
    (h : Sync bundles g) (hfree : ∀ x ∈ g.inFlight, x.fence ≠ fence)
    (hmem : fence ∈ bundles.map (fun s => s.fence))
    (hlast : ∀ b ∈ bundles, b.commandBuffer = commandBuffer → b.lastFence = fence) :
    Sync bundles (g.submit commandBuffer fence) := by
  obtain ⟨h1, h2, h3, h4⟩ := h
  unfold Gpu.submit
  refine ⟨?_, ?_, ?_, ?_⟩
  · intro x hx
    rcases List.mem_append.1 hx with hx | hx
    · simp only [Gpu.setFence, hfree x hx, if_false]
      exact h1 x hx
    · simp only [List.mem_singleton] at hx
      subst hx
      simp [Gpu.setFence]
  · intro x hx
    rcases List.mem_append.1 hx with hx | hx
    · exact h2 x hx
    · simp only [List.mem_singleton] at hx
      subst hx
      exact hmem
  · intro b hb x hx hcb
    rcases List.mem_append.1 hx with hx | hx
    · exact h3 b hb x hx hcb
    · simp only [List.mem_singleton] at hx
      subst hx
      exact hlast b hb hcb.symm
  · simp only [List.map_append, List.map_cons, List.map_nil]
    rw [List.nodup_append]
    refine ⟨h4, List.nodup_singleton _, ?_⟩
    intro a ha hb
    simp only [List.mem_singleton] at hb
    obtain ⟨x, hx, rfl⟩ := List.mem_map.1 ha
    exact hfree x hx hb

theorem map_fence_set (bundles : List SwapchainResources) (i : Nat)
    (next : SwapchainResources) (fence : Nat) (h : bundles[i]? = some next) :
    (bundles.set i { next with lastFence := fence }).map (fun s => s.fence) =
      bundles.map (fun s => s.fence) := by
  apply List.ext_getElem?
  intro j
  simp only [List.getElem?_map, List.getElem?_set]
  by_cases hj : i = j
  · subst hj
    have hi : i < bundles.length := by
      by_contra hcon
      rw [List.getElem?_eq_none (by omega)] at h
      cases h
    simp [hi, h]
  · simp [hj]

theorem map_commandBuffer_set (bundles : List SwapchainResources) (i : Nat)
    (next : SwapchainResources) (fence : Nat) (h : bundles[i]? = some next) :
    (bundles.set i { next with lastFence := fence }).map (fun s => s.commandBuffer) =
      bundles.map (fun s => s.commandBuffer) := by
  apply List.ext_getElem?
  intro j
  simp only [List.getElem?_map, List.getElem?_set]
  by_cases hj : i = j
  · subst hj
    have hi : i < bundles.length := by
      by_contra hcon
      rw [List.getElem?_eq_none (by omega)] at h
      cases h
    simp [hi, h]
  · simp [hj]

theorem DistinctHandles_set (bundles : List SwapchainResources) (i : Nat)
    (next : SwapchainResources) (fence : Nat) (h : bundles[i]? = some next)
    (hd : DistinctHandles bundles) :
    DistinctHandles (bundles.set i { next with lastFence := fence }) := by
  obtain ⟨h1, h2, h3⟩ := hd
  refine ⟨by rw [map_fence_set _ _ _ _ h]; exact h1, ?_,
    by rw [map_commandBuffer_set _ _ _ _ h]; exact h3⟩
  intro s hs
  rcases List.mem_or_eq_of_mem_set hs with hs | hs
  · exact h2 s hs
  · subst hs
    exact h2 next (List.getElem?_mem h)

/-- Storing a fence in `lastFence` of a bundle none of whose submissions is
in flight. -/
theorem Sync_set (bundles : List SwapchainResources) (g : Gpu) (i : Nat)
    (next : SwapchainResources) (fence : Nat) (h : bundles[i]? = some next)
    (hs : Sync bundles g) (hfree : ∀ x ∈ g.inFlight, x.commandBuffer ≠ next.commandBuffer) :
    Sync (bundles.set i { next with lastFence := fence }) g := by
  obtain ⟨h1, h2, h3, h4⟩ := hs
  refine ⟨h1, by rw [map_fence_set _ _ _ _ h]; exact h2, ?_, h4⟩
  intro b hb x hx hcb
  rcases List.mem_or_eq_of_mem_set hb with hb | hb
  · exact h3 b hb x hx hcb
  · subst hb
    exact absurd hcb (hfree x hx)

/-- A bundle with a given command buffer is the bundle at the acquired index. -/
theorem lastFence_of_commandBuffer (bundles : List SwapchainResources) (i : Nat)
    (next : SwapchainResources) (fence : Nat) (h : bundles[i]? = some next)
    (hd : DistinctHandles bundles) :
    ∀ b ∈ bundles.set i { next with lastFence := fence },
      b.commandBuffer = next.commandBuffer → b.lastFence = fence := by
  intro b hb hcb
  have hi : i < bundles.length := by
    by_contra hcon
    rw [List.getElem?_eq_none (by omega)] at h
    cases h
  obtain ⟨j, hj, hbj⟩ := List.getElem_of_mem hb
  simp only [List.length_set] at hj
  by_cases hij : i = j
  · subst hij
    rw [List.getElem_set_self] at hbj
    rw [← hbj]
  · rw [List.getElem_set_ne hij] at hbj
    exfalso
    have hnd := hd.2.2
    have hnext : bundles[i] = next := by
      have := List.getElem?_eq_getElem hi
      rw [h] at this
      exact (Option.some.inj this).symm
    have hi2 : i < (bundles.map (fun s => s.commandBuffer)).length := by simpa using hi
    have hj2 : j < (bundles.map (fun s => s.commandBuffer)).length := by simpa using hj
    have h1 : (bundles.map (fun s => s.commandBuffer))[i] =
        (bundles.map (fun s => s.commandBuffer))[j] := by
      simp only [List.getElem_map, hnext, hbj, hcb]
    exact hij ((List.Nodup.getElem_inj_iff hnd).1 h1)

theorem SafeCall_quiet (N : Nat) (g : Gpu) (c : Call)
    (h1 : ∀ commandBuffer, c ≠ Call.vkBeginCommandBuffer commandBuffer)
    (h2 : ∀ w commandBuffer s fence, c ≠ Call.vkQueueSubmit w commandBuffer s fence)
    (hlen : (gpuStep g c).inFlight.length ≤ N) : SafeCall N g c :=
  ⟨fun cb hc => absurd hc (h1 cb), fun w cb s f hc => absurd hc (h2 w cb s f), hlen⟩

/-- One cycle keeps the bookkeeping in agreement with the synchronisation
state, and every call of it is safe. -/
theorem Sync_cycle (bundles : List SwapchainResources) (g : Gpu) (r : Renderer)
    (current next : SwapchainResources) (f i : Nat) (completed : Bool)
    (hd : DistinctHandles bundles) (hs : Sync bundles g)
    (hcur : bundles[f]? = some current) (hnext : bundles[i]? = some next) :
    AlwaysGpu (SafeCall bundles.length) g (cycleCalls r current next i completed) ∧
    Sync (bundles.set i { next with lastFence := current.fence })
      (gpuRun g (cycleCalls r current next i completed)) := by
  have hFmem : current.fence ∈ bundles.map (fun s => s.fence) :=
    List.mem_map.2 ⟨current, List.getElem?_mem hcur, rfl⟩
  have hnextmem : next ∈ bundles := List.getElem?_mem hnext
  -- the wait that opens the cycle
  obtain ⟨s1, free1, -⟩ := Sync_wait bundles g current.fence hs
  -- the wait on the previous user of the acquired image
  have hB : ∃ g2, gpuRun (g.wait current.fence)
        (if next.lastFence ≠ 0 then [Call.vkWaitForFences next.lastFence] else []) = g2 ∧
      AlwaysGpu (SafeCall bundles.length) (g.wait current.fence)
        (if next.lastFence ≠ 0 then [Call.vkWaitForFences next.lastFence] else []) ∧
      Sync bundles g2 ∧ (∀ x ∈ g2.inFlight, x.fence ≠ current.fence) ∧
      (∀ x ∈ g2.inFlight, x.commandBuffer ≠ next.commandBuffer) := by
    by_cases hL : next.lastFence = 0
    · refine ⟨g.wait current.fence, by simp [hL, gpuRun], by simp [hL, AlwaysGpu], s1, free1, ?_⟩
      intro x hx hcb
      have h3 := s1.2.2.1 next hnextmem x hx hcb
      have h2 := s1.2.1 x hx
      obtain ⟨s, hsmem, hsf⟩ := List.mem_map.1 h2
      exact hd.2.1 s hsmem (by rw [hsf, ← h3, hL])
    · obtain ⟨s2, free2, sub2⟩ := Sync_wait bundles (g.wait current.fence) next.lastFence s1
      refine ⟨(g.wait current.fence).wait next.lastFence, by simp [hL, gpuRun, gpuStep], ?_,
        s2, fun x hx => free1 x (sub2 x hx), ?_⟩
      · simp only [hL, ne_eq, not_false_eq_true, if_true, AlwaysGpu, and_true]
        exact SafeCall_quiet _ _ _ (fun _ hc => by cases hc) (fun _ _ _ _ hc => by cases hc)
          (Sync_length_le bundles _ s2)
      · intro x hx hcb
        exact free2 x hx (s2.2.2.1 next hnextmem x hx hcb).symm
  obtain ⟨g2, hrun2, always2, s2, freeF, freeCb⟩ := hB
  -- the store into lastFence, the reset and the start of recording
  have s2set := Sync_set bundles g2 i next current.fence hnext s2 freeCb
  have s3 := Sync_reset _ g2 current.fence s2set freeF
  have hlen : (bundles.set i { next with lastFence := current.fence }).length
      = bundles.length := List.length_set _ _ _
  have hFmem2 : current.fence ∈
      (bundles.set i { next with lastFence := current.fence }).map (fun s => s.fence) := by
    rw [map_fence_set _ _ _ _ hnext]; exact hFmem
  have len3 : (g2.setFence current.fence FenceState.unsignalled).inFlight.length
      ≤ bundles.length := by
    have := Sync_length_le _ _ s3
    rwa [hlen] at this
  have lt3 : (g2.setFence current.fence FenceState.unsignalled).inFlight.length + 1
      ≤ bundles.length := by
    have := Sync_length_lt _ _ current.fence s3 hFmem2 freeF
    rwa [hlen] at this
  have s4 := Sync_submit _ (g2.setFence current.fence FenceState.unsignalled)
    next.commandBuffer current.fence s3 freeF hFmem2
    (lastFence_of_commandBuffer bundles i next current.fence hnext hd)
  have len4 : ((g2.setFence current.fence FenceState.unsignalled).submit
      next.commandBuffer current.fence).inFlight.length ≤ bundles.length := by
    have := Sync_length_le _ _ s4
    rwa [hlen] at this
  have safeBegin : SafeCall bundles.length (g2.setFence current.fence FenceState.unsignalled)
      (Call.vkBeginCommandBuffer next.commandBuffer) :=
    ⟨fun cb hc => (by cases hc; exact freeCb), fun _ _ _ _ hc => (by cases hc), len3⟩
  have safeSubmit : SafeCall bundles.length (g2.setFence current.fence FenceState.unsignalled)
      (Call.vkQueueSubmit current.startSemaphore next.commandBuffer current.endSemaphore
        current.fence) :=
    ⟨fun _ hc => (by cases hc), fun _ _ _ _ hc => (by cases hc; exact ⟨freeCb, lt3⟩), len4⟩
  have quiet3 : ∀ c, gpuStep (g2.setFence current.fence FenceState.unsignalled) c
        = g2.setFence current.fence FenceState.unsignalled →
      (∀ cb, c ≠ Call.vkBeginCommandBuffer cb) →
      (∀ w cb s fence, c ≠ Call.vkQueueSubmit w cb s fence) →
      SafeCall bundles.length (g2.setFence current.fence FenceState.unsignalled) c :=
    fun c hc h1 h2 => SafeCall_quiet _ _ c h1 h2 (by rw [hc]; exact len3)
  -- assemble
  unfold cycleCalls
  simp only [List.append_assoc, AlwaysGpu_append, gpuRun_append]
  have hA : gpuRun g [Call.vkWaitForFences current.fence,
      Call.vkAcquireNextImageKHR r.swapchain current.startSemaphore]
      = g.wait current.fence := rfl
  rw [hA, hrun2]
  have hC : gpuRun g2 [Call.vkResetFences current.fence,
      Call.vkBeginCommandBuffer next.commandBuffer]
      = g2.setFence current.fence FenceState.unsignalled := rfl
  rw [hC]
  have hD : gpuRun (g2.setFence current.fence FenceState.unsignalled)
      (if r.callbackOnPresent.isSome = true then [Call.callbackOnPresent i] else [])
      = g2.setFence current.fence FenceState.unsignalled := by
    split <;> rfl
  rw [hD]
  refine ⟨⟨?_, always2, ?_, ?_, ?_⟩, ?_⟩
  · exact ⟨SafeCall_quiet _ _ _ (fun _ hc => by cases hc) (fun _ _ _ _ hc => by cases hc)
      (Sync_length_le bundles _ s1),
      SafeCall_quiet _ _ _ (fun _ hc => by cases hc) (fun _ _ _ _ hc => by cases hc)
        (Sync_length_le bundles _ s1), trivial⟩
  · refine ⟨SafeCall_quiet _ _ _ (fun _ hc => by cases hc) (fun _ _ _ _ hc => by cases hc)
      len3, safeBegin, trivial⟩
  · split
    · exact ⟨quiet3 _ rfl (fun _ hc => by cases hc) (fun _ _ _ _ hc => by cases hc), trivial⟩
    · trivial
  · cases completed with
    | false => trivial
    | true =>
      exact ⟨quiet3 _ rfl (fun _ hc => by cases hc) (fun _ _ _ _ hc => by cases hc),
        safeSubmit,
        SafeCall_quiet _ _ _ (fun _ hc => by cases hc) (fun _ _ _ _ hc => by cases hc) len4,
        trivial⟩
  · cases completed with
    | false => exact s3
    | true => exact s4

/-! ## Sequences of cycles -/

/-- Any sequence of cycles with no stale result keeps the bookkeeping in
agreement with the synchronisation state, and every call of it is safe. -/
theorem runOps_cycles_safe : ∀ (ops : List Op) (r r1 : Renderer) (g : Gpu),
    (∀ op ∈ ops, op.isCycle) → DistinctHandles r.swapchainResources →
    Sync r.swapchainResources g → runOps ops r = some r1 →
    ∃ t, r1.trace = r.trace ++ t ∧
      AlwaysGpu (SafeCall r.swapchainResources.length) g t ∧
      Sync r1.swapchainResources (gpuRun g t) ∧
      DistinctHandles r1.swapchainResources ∧
      r1.swapchainResources.length = r.swapchainResources.length := by
  intro ops
  induction ops with
  | nil =>
    intro r r1 g _ hd hs h
    cases h
    exact ⟨[], by simp, trivial, hs, hd, rfl⟩
  | cons op ops ih =>
    intro r r1 g hops hd hs h
    have hop := hops op (List.mem_cons_self _ _)
    cases op with
    | resize window env => exact absurd hop (by simp [Op.isCycle])
    | render window env =>
      unfold runOps at h
      cases hrun : (Op.render window env).run r with
      | none => simp [hrun] at h
      | some p =>
        obtain ⟨b, r2⟩ := p
        simp only [hrun] at h
        obtain ⟨current, next, hcur, hnext, htrace, hbundles, -⟩ :=
          Render_cycle_returns window env r r2 b hop hrun
        obtain ⟨halways, hsync⟩ := Sync_cycle r.swapchainResources g r current next
          r.currentFrame (env.acquired.getD r.nextFrame) b hd hs hcur hnext
        have hd2 := DistinctHandles_set r.swapchainResources _ next current.fence hnext hd
        rw [← hbundles] at hsync hd2
        have hlen : r2.swapchainResources.length = r.swapchainResources.length := by
          rw [hbundles]; exact List.length_set _ _ _
        obtain ⟨t, ht, always2, sync2, hd3, hlen3⟩ := ih r2 r1
          (gpuRun g (cycleCalls r current next (env.acquired.getD r.nextFrame) b))
          (fun o ho => hops o (List.mem_cons_of_mem _ ho)) hd2 hsync h
        refine ⟨cycleCalls r current next (env.acquired.getD r.nextFrame) b ++ t, ?_, ?_, ?_,
          hd3, by rw [hlen3, hlen]⟩
        · rw [ht, htrace, List.append_assoc]
        · rw [AlwaysGpu_append]
          rw [hlen] at always2
          exact ⟨halways, always2⟩
        · rw [gpuRun_append]; exact sync2

/-- Cycles that acquire other images leave the bundle of image `i` alone. -/
theorem runOps_acquiresOther (i : Nat) : ∀ (ops : List Op) (r r1 : Renderer),
    (∀ op ∈ ops, op.acquiresOther i) → runOps ops r = some r1 →
    r1.swapchainResources[i]? = r.swapchainResources[i]? := by
  intro ops
  induction ops with
  | nil => intro r r1 _ h; cases h; rfl
  | cons op ops ih =>
    intro r r1 hops h
    have hop := hops op (List.mem_cons_self _ _)
    cases op with
    | resize window env => exact absurd hop (by simp [Op.acquiresOther])
    | render window env =>
      obtain ⟨hstale, j, hj, hji⟩ := hop
      unfold runOps at h
      cases hrun : (Op.render window env).run r with
      | none => simp [hrun] at h
      | some p =>
        obtain ⟨b, r2⟩ := p
        simp only [hrun] at h
        obtain ⟨current, next, -, -, -, hbundles, -⟩ :=
          Render_cycle_returns window env r r2 b hstale hrun
        rw [ih r2 r1 (fun o ho => hops o (List.mem_cons_of_mem _ ho)) h, hbundles, hj]
        simp only [Option.getD_some]
        rw [List.getElem?_set_ne hji]

theorem peakInFlight_le (N : Nat) (t : List Call) : ∀ g, g.inFlight.length ≤ N →
    AlwaysGpu (SafeCall N) g t → peakInFlight g t ≤ N := by
  induction t with
  | nil => intro g h _; exact h
  | cons c t ih =>
    intro g h halways
    exact max_le h (ih _ halways.1.2.2 halways.2)

theorem Sync_of_idle (bundles : List SwapchainResources) (g : Gpu) (h : g.inFlight = []) :
    Sync bundles g := by
  unfold Sync
  rw [h]
  simp

/-! ## The example chains -/

theorem exampleGpu_inFlight : exampleGpu.inFlight = [] := by decide

theorem exampleRenderer_distinct : DistinctHandles exampleRenderer.swapchainResources := by
  unfold DistinctHandles
  decide

theorem twoBundleRenderer_distinct : DistinctHandles twoBundleRenderer.swapchainResources := by
  unfold DistinctHandles
  decide

theorem successEnv_notStale (i : Nat) : (successEnv i).notStale := by
  have h1 : (successEnv i).acquireResult = 0 := rfl
  have h2 : (successEnv i).presentResult = 0 := rfl
  unfold RenderEnv.notStale
  rw [h1, h2]
  decide

theorem crossedOps_isCycle : ∀ op ∈ crossedOps, op.isCycle := by
  intro op hop
  simp only [crossedOps, List.mem_cons, List.mem_singleton, List.not_mem_nil, or_false] at hop
  rcases hop with rfl | rfl <;> exact successEnv_notStale _

theorem straightOps_isCycle : ∀ op ∈ straightOps, op.isCycle := by
  intro op hop
  simp only [straightOps, List.mem_cons, List.mem_singleton, List.not_mem_nil, or_false] at hop
  rcases hop with rfl | rfl <;> exact successEnv_notStale _

theorem zigzagOps_isCycle : ∀ op ∈ zigzagOps, op.isCycle := by
  intro op hop
  simp only [zigzagOps, List.mem_cons, List.mem_singleton, List.not_mem_nil, or_false] at hop
  rcases hop with rfl | rfl | rfl <;> exact successEnv_notStale _

/-! ## Reuse of an image (C12) -/

/-- C12: on one chain, take two `Render` cycles that acquire the same image
index `i` with only acquisitions of other indices between them. The earlier
cycle stores the fence of its slot in `lastFence` of bundle `i`, and the later
cycle waits on exactly that fence, with no fence reset and no start of
recording before the wait. In the model where a fence is signalled only when
the submission it guards has finished, every sequence of cycles that starts
with nothing in flight begins recording and submits a command buffer only
when no submission of that command buffer is in flight. -/
theorem Render_waits_for_previous_user_of_image :
    (∀ (w0 w2 : Option WindowSize) (env0 env2 : RenderEnv) (ops : List Op)
      (r0 r1 r2 r3 : Renderer) (b0 b2 : Bool) (i : Nat) (current : SwapchainResources),
      env0.notStale → env0.acquired = some i →
      r0.swapchainResources[r0.currentFrame]? = some current → current.fence ≠ 0 →
      Render w0 env0 r0 = some (b0, r1) →
      (∀ op ∈ ops, op.acquiresOther i) → runOps ops r1 = some r2 →
      env2.notStale → env2.acquired = some i →
      Render w2 env2 r2 = some (b2, r3) →
      (∃ bundle, r1.swapchainResources[i]? = some bundle ∧
        bundle.lastFence = current.fence) ∧
      ∃ pre post,
        r3.trace = r2.trace ++ pre ++ [Call.vkWaitForFences current.fence] ++ post ∧
        (∀ c ∈ pre, (∀ fence, c ≠ Call.vkResetFences fence) ∧
          ∀ commandBuffer, c ≠ Call.vkBeginCommandBuffer commandBuffer) ∧
        (∃ fence, Call.vkResetFences fence ∈ post) ∧
        ∃ commandBuffer, Call.vkBeginCommandBuffer commandBuffer ∈ post) ∧
    (∀ (ops : List Op) (r r1 : Renderer) (g : Gpu),
      (∀ op ∈ ops, op.isCycle) → DistinctHandles r.swapchainResources →
      g.inFlight = [] → runOps ops r = some r1 →
      ∃ t, r1.trace = r.trace ++ t ∧
        AlwaysGpu (fun g c => RecordsIdleBuffer g c ∧ SubmitsIdleBuffer g c) g t) := by
  constructor
  · intro w0 w2 env0 env2 ops r0 r1 r2 r3 b0 b2 i current hstale0 hacq0 hcurrent hfence
      hearlier hbetween hops hstale2 hacq2 hlater
    obtain ⟨cur0, next0, hcur0, hnext0, -, hbundles, -⟩ :=
      Render_cycle_returns w0 env0 r0 r1 b0 hstale0 hearlier
    rw [hcurrent] at hcur0
    cases hcur0
    rw [hacq0] at hnext0 hbundles
    simp only [Option.getD_some] at hnext0 hbundles
    have hi : i < r0.swapchainResources.length := (List.getElem?_eq_some_iff.1 hnext0).1
    have h1 : r1.swapchainResources[i]? = some { next0 with lastFence := current.fence } := by
      rw [hbundles, List.getElem?_set_self hi]
    have h2 := runOps_acquiresOther i ops r1 r2 hbetween hops
    obtain ⟨cur2, next2, -, hnext2, htrace, -⟩ :=
      Render_cycle_returns w2 env2 r2 r3 b2 hstale2 hlater
    rw [hacq2] at hnext2 htrace
    simp only [Option.getD_some] at hnext2 htrace
    rw [h2, h1] at hnext2
    cases hnext2
    refine ⟨⟨_, h1, rfl⟩, ?_⟩
    refine ⟨[Call.vkWaitForFences cur2.fence,
      Call.vkAcquireNextImageKHR r2.swapchain cur2.startSemaphore],
      [Call.vkResetFences cur2.fence, Call.vkBeginCommandBuffer next0.commandBuffer] ++
      (if r2.callbackOnPresent.isSome then [Call.callbackOnPresent i] else []) ++
      (if b2 then
        [Call.vkEndCommandBuffer next0.commandBuffer,
         Call.vkQueueSubmit cur2.startSemaphore next0.commandBuffer
           cur2.endSemaphore cur2.fence,
         Call.vkQueuePresentKHR cur2.endSemaphore r2.swapchain i]
       else []), ?_, ?_, ?_, ?_⟩
    · rw [htrace]
      simp only [cycleCalls, ne_eq, hfence, not_false_eq_true, if_true, List.append_assoc]
    · intro c hc
      simp only [List.mem_cons, List.mem_singleton, List.not_mem_nil, or_false] at hc
      rcases hc with rfl | rfl <;> exact ⟨fun _ h => (by cases h), fun _ h => (by cases h)⟩
    · exact ⟨cur2.fence, by simp⟩
    · exact ⟨next0.commandBuffer, by simp⟩
  · intro ops r r1 g hops hd hidle h
    obtain ⟨t, ht, halways, -⟩ := runOps_cycles_safe ops r r1 g hops hd
      (Sync_of_idle _ g hidle) h
    exact ⟨t, ht, AlwaysGpu_mono (SafeCall r.swapchainResources.length)
      (fun g c => RecordsIdleBuffer g c ∧ SubmitsIdleBuffer g c)
      (fun g c hc => ⟨hc.1, fun w cb s f e => (hc.2.1 w cb s f e).1⟩) t g halways⟩

end NcBar
namespace NcBar

theorem Render_waits_for_previous_user_of_image_witness :
    (∃ r1 r2 r3 b0 b2,
      Render none (successEnv 1) exampleRenderer = some (b0, r1) ∧
      runOps [Op.render none (successEnv 0)] r1 = some r2 ∧
      Render none (successEnv 1) r2 = some (b2, r3) ∧
      (∃ bundle, r1.swapchainResources[1]? = some bundle ∧ bundle.lastFence = 16) ∧
      ∃ pre post,
        r3.trace = r2.trace ++ pre ++ [Call.vkWaitForFences 16] ++ post ∧
        (∀ c ∈ pre, (∀ fence, c ≠ Call.vkResetFences fence) ∧
          ∀ commandBuffer, c ≠ Call.vkBeginCommandBuffer commandBuffer) ∧
        (∃ fence, Call.vkResetFences fence ∈ post) ∧
        ∃ commandBuffer, Call.vkBeginCommandBuffer commandBuffer ∈ post) ∧
    (∃ r1 t, runOps crossedOps exampleRenderer = some r1 ∧
      r1.trace = exampleRenderer.trace ++ t ∧
      AlwaysGpu (fun g c => RecordsIdleBuffer g c ∧ SubmitsIdleBuffer g c) exampleGpu t) := by
  constructor
  · have hsome : ((Render none (successEnv 1) exampleRenderer).bind (fun p0 =>
        (runOps [Op.render none (successEnv 0)] p0.2).bind (fun r2 =>
          Render none (successEnv 1) r2))).isSome = true := by decide
    cases h0 : Render none (successEnv 1) exampleRenderer with
    | none => rw [h0] at hsome; cases hsome
    | some p0 =>
      obtain ⟨b0, r1⟩ := p0
      rw [h0] at hsome
      simp only [Option.some_bind] at hsome
      cases h1 : runOps [Op.render none (successEnv 0)] r1 with
      | none => rw [h1] at hsome; cases hsome
      | some r2 =>
        rw [h1] at hsome
        simp only [Option.some_bind] at hsome
        cases h2 : Render none (successEnv 1) r2 with
        | none => rw [h2] at hsome; cases hsome
        | some p2 =>
          obtain ⟨b2, r3⟩ := p2
          refine ⟨r1, r2, r3, b0, b2, rfl, h1, h2, ?_⟩
          exact Render_waits_for_previous_user_of_image.1 none none (successEnv 1)
            (successEnv 1) [Op.render none (successEnv 0)] exampleRenderer r1 r2 r3 b0 b2 1
            { commandBuffer := 11, image := 100, imageView := 12, framebuffer := 13,
              startSemaphore := 14, endSemaphore := 15, fence := 16 }
            (successEnv_notStale 1) rfl rfl (by decide) h0
            (fun op hop => by
              simp only [List.mem_singleton] at hop
              subst hop
              exact ⟨successEnv_notStale 0, 0, rfl, by decide⟩)
            h1 (successEnv_notStale 1) rfl h2
  · have hsome : (runOps crossedOps exampleRenderer).isSome = true := by decide
    cases h : runOps crossedOps exampleRenderer with
    | none => rw [h] at hsome; cases hsome
    | some r1 =>
      obtain ⟨t, ht, halways⟩ := Render_waits_for_previous_user_of_image.2 crossedOps
        exampleRenderer r1 exampleGpu crossedOps_isCycle exampleRenderer_distinct
        exampleGpu_inFlight h
      exact ⟨r1, t, rfl, ht, halways⟩

/-! ## The fence of a bundle when its command buffer is recorded (C13) -/

/-- C13 (counterexample): on a chain of two bundles, three cycles acquire the
images 1, 0, 1. The second cycle begins recording command buffer 11 of
bundle 0 while fence 16 of that bundle guards the unfinished submission 0,
and the third cycle begins re-recording command buffer 21 of bundle 1 while
fence 26 of that bundle guards the unfinished submission 1. When every slot
draws into its own image, the fence of the bundle has just been reset when
recording begins. -/
theorem Render_records_while_own_fence_is_unsignalled :
    (runOps zigzagOps twoBundleRenderer).map
      (fun r => ownFenceAtRecording twoBundleRenderer.swapchainResources exampleGpu r.trace) =
      some [(21, FenceState.signalled), (11, FenceState.guarding 0),
        (21, FenceState.guarding 1)] ∧
    (runOps straightOps twoBundleRenderer).map
      (fun r => ownFenceAtRecording twoBundleRenderer.swapchainResources exampleGpu r.trace) =
      some [(11, FenceState.unsignalled), (21, FenceState.unsignalled)] := by
  decide

/-- C13 (amended): across every sequence of `Render` cycles on one chain
whose bundles have non-null, pairwise distinct fences and pairwise distinct
command buffers, starting with nothing in flight, whatever the order in which
the images are acquired, recording of a command buffer begins only when no
submission of that command buffer is in flight. -/
theorem Render_records_only_idle_command_buffers (ops : List Op) (r r1 : Renderer) (g : Gpu)
    (hops : ∀ op ∈ ops, op.isCycle) (hd : DistinctHandles r.swapchainResources)
    (hidle : g.inFlight = []) (h : runOps ops r = some r1) :
    ∃ t, r1.trace = r.trace ++ t ∧ AlwaysGpu RecordsIdleBuffer g t := by
  obtain ⟨t, ht, halways, -⟩ := runOps_cycles_safe ops r r1 g hops hd
    (Sync_of_idle _ g hidle) h
  exact ⟨t, ht, AlwaysGpu_mono (SafeCall r.swapchainResources.length) RecordsIdleBuffer
    (fun g c hc => hc.1) t g halways⟩

theorem Render_records_only_idle_command_buffers_witness :
    ∃ r1 t, runOps zigzagOps twoBundleRenderer = some r1 ∧
      r1.trace = twoBundleRenderer.trace ++ t ∧ AlwaysGpu RecordsIdleBuffer exampleGpu t := by
  have hsome : (runOps zigzagOps twoBundleRenderer).isSome = true := by decide
  cases h : runOps zigzagOps twoBundleRenderer with
  | none => rw [h] at hsome; cases hsome
  | some r1 =>
    obtain ⟨t, ht, halways⟩ := Render_records_only_idle_command_buffers zigzagOps
      twoBundleRenderer r1 exampleGpu zigzagOps_isCycle twoBundleRenderer_distinct
      exampleGpu_inFlight h
    exact ⟨r1, t, rfl, ht, halways⟩

/-! ## Submissions in flight (C14) -/

/-- C14 (counterexample): on a chain of two bundles, two cycles in which each
slot draws into its own image leave two submissions in flight, one more than
`N - 1 = 1`. -/
theorem Render_keeps_two_submissions_in_flight_on_two_bundles :
    twoBundleRenderer.swapchainResources.length = 2 ∧
    (runOps straightOps twoBundleRenderer).map (fun r => peakInFlight exampleGpu r.trace) =
      some 2 := by
  decide

/-- C14 (amended): for every sequence of `Render` cycles on one chain of `N`
bundles that starts with nothing in flight, the number of submissions in
flight never exceeds `N`, and every `vkQueueSubmit` is issued with at most
`N - 1` submissions in flight. -/
theorem Render_in_flight_bounded_by_bundle_count (ops : List Op) (r r1 : Renderer) (g : Gpu)
    (hops : ∀ op ∈ ops, op.isCycle) (hd : DistinctHandles r.swapchainResources)
    (hidle : g.inFlight = []) (h : runOps ops r = some r1) :
    ∃ t, r1.trace = r.trace ++ t ∧
      peakInFlight g t ≤ r.swapchainResources.length ∧
      AlwaysGpu (SubmitsBelow r.swapchainResources.length) g t := by
  obtain ⟨t, ht, halways, -⟩ := runOps_cycles_safe ops r r1 g hops hd
    (Sync_of_idle _ g hidle) h
  refine ⟨t, ht, peakInFlight_le _ t g (by rw [hidle]; exact Nat.zero_le _) halways, ?_⟩
  exact AlwaysGpu_mono (SafeCall r.swapchainResources.length)
    (SubmitsBelow r.swapchainResources.length)
    (fun g c hc w cb s f e => (hc.2.1 w cb s f e).2) t g halways

theorem Render_in_flight_bounded_by_bundle_count_witness :
    ∃ r1 t, runOps straightOps twoBundleRenderer = some r1 ∧
      r1.trace = twoBundleRenderer.trace ++ t ∧
      peakInFlight exampleGpu t ≤ twoBundleRenderer.swapchainResources.length ∧
      AlwaysGpu (SubmitsBelow twoBundleRenderer.swapchainResources.length) exampleGpu t := by
  have hsome : (runOps straightOps twoBundleRenderer).isSome = true := by decide
  cases h : runOps straightOps twoBundleRenderer with
  | none => rw [h] at hsome; cases hsome
  | some r1 =>
    obtain ⟨t, ht, hpeak, halways⟩ := Render_in_flight_bounded_by_bundle_count straightOps
      twoBundleRenderer r1 exampleGpu straightOps_isCycle twoBundleRenderer_distinct
      exampleGpu_inFlight h
    exact ⟨r1, t, rfl, ht, hpeak, halways⟩

/-! ## An aborted cycle (C19) -/

/-- C19: the example chain has fence 16 of slot 0 signalled and nothing in
flight. A `Render` call whose callback returns false returns false with
`currentFrame` still 0, has queued no submission, and leaves fence 16
unsignalled with nothing in flight that could signal it. The next `Render`
call starts with the unbounded wait on fence 16, and that wait is on a fence
nothing will signal. -/
theorem Render_aborted_leaves_slot_fence_unsignalled :
    exampleGpu.fences 16 = FenceState.signalled ∧ exampleGpu.inFlight = [] ∧
    (Render none (successEnv 0) rejectingRenderer).map
      (fun p => (p.1, p.2.currentFrame, p.2.trace.any Call.isSubmit,
        (gpuRun exampleGpu p.2.trace).fences 16, (gpuRun exampleGpu p.2.trace).inFlight)) =
      some (false, 0, false, FenceState.unsignalled, []) ∧
    (Render none (successEnv 0) rejectingRenderer).bind
      (fun p => (Render none (successEnv 0) p.2).map
        (fun q => (q.2.trace.drop p.2.trace.length).head?)) =
      some (some (Call.vkWaitForFences 16)) ∧
    (runOps retryOps rejectingRenderer).map
      (fun r => decide (0 < (gpuRun exampleGpu r.trace).deadWaits)) = some true := by
  refine ⟨by decide, by decide, by decide, by decide, by decide⟩

/-! ## The bundles right after a build (C20) -/

theorem gpuRun_initBundlesCalls_signalled (env : BuildEnv) (format : Nat) (width height : Int)
    (renderPass : Nat) (x : Nat) : ∀ (remaining i : Nat) (g : Gpu),
    g.fences x = FenceState.signalled →
    (gpuRun g (initBundlesCalls env format width height renderPass i remaining)).fences x =
      FenceState.signalled := by
  intro remaining
  induction remaining with
  | zero => intro i g h; exact h
  | succ k ih =>
    intro i g h
    simp only [initBundlesCalls, List.cons_append, List.nil_append, gpuRun, gpuStep]
    apply ih
    simp only [Gpu.setFence, if_true]
    split <;> simp [h]

theorem gpuRun_initBundlesCalls_fence (env : BuildEnv) (format : Nat) (width height : Int)
    (renderPass : Nat) : ∀ (remaining i j : Nat) (g : Gpu), i ≤ j → j < i + remaining →
    (gpuRun g (initBundlesCalls env format width height renderPass i remaining)).fences
      (env.bundle j).fence = FenceState.signalled := by
  intro remaining
  induction remaining with
  | zero => intro i j g h1 h2; omega
  | succ k ih =>
    intro i j g h1 h2
    simp only [initBundlesCalls, List.cons_append, List.nil_append, gpuRun, gpuStep]
    by_cases hij : i = j
    · subst hij
      apply gpuRun_initBundlesCalls_signalled
      simp [Gpu.setFence]
    · exact ih (i + 1) j _ (by omega) (by omega)

theorem initBundlesCalls_fences_signaled (env : BuildEnv) (format : Nat) (width height : Int)
    (renderPass : Nat) (signaled : Bool) (handle : Nat) : ∀ (remaining i : Nat),
    Call.vkCreateFence signaled handle ∈
      initBundlesCalls env format width height renderPass i remaining → signaled = true := by
  intro remaining
  induction remaining with
  | zero => intro i h; simp [initBundlesCalls] at h
  | succ k ih =>
    intro i h
    simp only [initBundlesCalls, List.cons_append, List.nil_append, List.mem_cons] at h
    rcases h with h | h | h | h | h | h | h
    · cases h
    · cases h
    · cases h
    · cases h
    · cases h
    · cases h; rfl
    · exact ih _ h

/-- A cycle whose slot fence is signalled and whose acquired bundle has no
previous user waits for nothing. -/
theorem cycleCalls_no_blocking_wait (r : Renderer) (current next : SwapchainResources)
    (i : Nat) (completed : Bool) (g : Gpu)
    (hfence : g.fences current.fence = FenceState.signalled) (hlast : next.lastFence = 0) :
    (gpuRun g (cycleCalls r current next i completed)).pendingWaits = g.pendingWaits ∧
    (gpuRun g (cycleCalls r current next i completed)).deadWaits = g.deadWaits := by
  have hwait : g.wait current.fence = g := by simp [Gpu.wait, hfence]
  cases completed <;> cases hcb : r.callbackOnPresent.isSome <;>
    simp [cycleCalls, hlast, hcb, gpuRun, gpuStep, hwait, Gpu.setFence, Gpu.submit]

theorem initBundlesCalls_creates_fence (env : BuildEnv) (format : Nat) (width height : Int)
    (renderPass : Nat) : ∀ (remaining i j : Nat), i ≤ j → j < i + remaining →
    Call.vkCreateFence true (env.bundle j).fence ∈
      initBundlesCalls env format width height renderPass i remaining := by
  intro remaining
  induction remaining with
  | zero => intro i j h1 h2; omega
  | succ k ih =>
    intro i j h1 h2
    simp only [initBundlesCalls, List.cons_append, List.nil_append, List.mem_cons]
    by_cases hij : i = j
    · subst hij
      simp
    · have := ih (i + 1) j (by omega) (by omega)
      simp [this]

theorem gpuRun_InitSwapchainCalls (window : Option WindowSize) (env : BuildEnv)
    (chosenFormat : VkSurfaceFormatKHR) (g : Gpu) :
    gpuRun g (InitSwapchainCalls window env chosenFormat) =
      gpuRun g (initBundlesCalls env chosenFormat.format (resolveExtent window env.capabilities).1
        (resolveExtent window env.capabilities).2 env.renderPass 0 env.imagesCount) := by
  simp [InitSwapchainCalls, gpuRun, gpuStep]

theorem getElem?_builtBundles (env : BuildEnv) (N i : Nat) (s : SwapchainResources)
    (h : ((List.range N).map (builtBundle env))[i]? = some s) :
    i < N ∧ s = builtBundle env i := by
  rw [List.getElem?_eq_some_iff] at h
  obtain ⟨hi, hs⟩ := h
  simp only [List.length_map, List.length_range] at hi
  simp only [List.getElem_map, List.getElem_range] at hs
  exact ⟨hi, hs.symm⟩

/-- C20: when the driver offers a format and reports the same number of
images at both queries, the build succeeds; the bundle list has one bundle per
image (its length is `framesCount`, and bundle `i` holds image `i`); every
fence the build creates is created signalled, the fence of every bundle is one
of them and is signalled after the build; `lastFence` of every bundle is
null; and the first cycle on the new chain, whatever image it acquires, waits
for nothing. -/
theorem InitSwapchain_builds_one_fresh_bundle_per_image (window : Option WindowSize)
    (env : BuildEnv) (r : Renderer) (chosenFormat : VkSurfaceFormatKHR) (g : Gpu)
    (hformat : chooseFormat env.formats = some chosenFormat)
    (himages : env.imagesCount = env.imagesWritten) :
    ∃ r1, InitSwapchain window env r = some (true, r1) ∧
      r1.trace = r.trace ++ InitSwapchainCalls window env chosenFormat ∧
      r1.framesCount = env.imagesCount ∧
      r1.swapchainResources.length = r1.framesCount ∧
      (∀ i, i < env.imagesCount → ∃ bundle, r1.swapchainResources[i]? = some bundle ∧
        bundle.image = env.image i ∧ bundle.lastFence = 0 ∧
        Call.vkCreateFence true bundle.fence ∈ InitSwapchainCalls window env chosenFormat ∧
        (gpuRun g (InitSwapchainCalls window env chosenFormat)).fences bundle.fence =
          FenceState.signalled) ∧
      (∀ signaled handle,
        Call.vkCreateFence signaled handle ∈ InitSwapchainCalls window env chosenFormat →
        signaled = true) ∧
      ∀ (w : Option WindowSize) (renv : RenderEnv) (r2 : Renderer) (b : Bool),
        renv.notStale → Render w renv r1 = some (b, r2) →
        ∃ t, r2.trace = r1.trace ++ t ∧
          (gpuRun (gpuRun g (InitSwapchainCalls window env chosenFormat)) t).pendingWaits =
            (gpuRun g (InitSwapchainCalls window env chosenFormat)).pendingWaits ∧
          (gpuRun (gpuRun g (InitSwapchainCalls window env chosenFormat)) t).deadWaits =
            (gpuRun g (InitSwapchainCalls window env chosenFormat)).deadWaits := by
  obtain ⟨r1, h1, h2, h3, h4, -⟩ := InitSwapchain_contents window env r chosenFormat hformat himages
  refine ⟨r1, h1, h4, h3, by rw [h2, h3]; simp, ?_, ?_, ?_⟩
  · intro i hi
    refine ⟨builtBundle env i, by rw [h2]; simp [hi], rfl, rfl, ?_, ?_⟩
    · simp only [InitSwapchainCalls, List.mem_append]
      exact Or.inr (initBundlesCalls_creates_fence env _ _ _ _ _ 0 i (Nat.zero_le _) (by omega))
    · rw [gpuRun_InitSwapchainCalls]
      exact gpuRun_initBundlesCalls_fence env _ _ _ _ _ 0 i _ (Nat.zero_le _) (by omega)
  · intro signaled handle h
    simp only [InitSwapchainCalls, List.mem_append, List.mem_cons, List.mem_singleton,
      List.not_mem_nil, or_false] at h
    rcases h with h | h
    · rcases h with h | h | h | h | h | h | h <;> cases h
    · exact initBundlesCalls_fences_signaled env _ _ _ _ signaled handle _ _ h
  · intro w renv r2 b hstale hrender
    obtain ⟨current, next, hcur, hnext, htrace, -⟩ :=
      Render_cycle_returns w renv r1 r2 b hstale hrender
    rw [h2] at hcur hnext
    obtain ⟨hk, hcurrent⟩ := getElem?_builtBundles env _ _ _ hcur
    obtain ⟨-, hnext2⟩ := getElem?_builtBundles env _ _ _ hnext
    refine ⟨_, htrace, ?_⟩
    apply cycleCalls_no_blocking_wait
    · rw [hcurrent, gpuRun_InitSwapchainCalls]
      exact gpuRun_initBundlesCalls_fence env _ _ _ _ _ 0 _ _ (Nat.zero_le _) (by omega)
    · rw [hnext2]; rfl

theorem InitSwapchain_builds_one_fresh_bundle_per_image_witness :
    chooseFormat exampleBuild.formats = some { format := 44, colorSpace := 0 } ∧
    exampleBuild.imagesCount = exampleBuild.imagesWritten ∧
    ∃ r1, InitSwapchain none exampleBuild {} = some (true, r1) ∧
      r1.framesCount = 3 ∧ r1.swapchainResources.length = r1.framesCount ∧
      ∀ i, i < 3 → ∃ bundle, r1.swapchainResources[i]? = some bundle ∧
        bundle.image = 100 + i ∧ bundle.lastFence = 0 ∧ exampleGpu.fences bundle.fence =
          FenceState.signalled := by
  refine ⟨by decide, rfl, ?_⟩
  obtain ⟨r1, h1, -, h3, h4, h5, -⟩ := InitSwapchain_builds_one_fresh_bundle_per_image none
    exampleBuild {} { format := 44, colorSpace := 0 } {} (by decide) rfl
  refine ⟨r1, h1, h3, h4, fun i hi => ?_⟩
  obtain ⟨bundle, g1, g2, g3, -, g5⟩ := h5 i hi
  exact ⟨bundle, g1, g2, g3, g5⟩

/-! ## The slot index stays in bounds (C22) -/

theorem OnResize_FrameInv (window : Option WindowSize) (env : BuildEnv) (r r1 : Renderer)
    (b : Bool) (himages : 1 ≤ env.imagesWritten)
    (h : OnResize window env r = some (b, r1)) : FrameInv r1 ∧ r1.currentFrame = 0 := by
  obtain ⟨chosen, -, -, -, h0, h1, h2, -⟩ := OnResize_returns_spec window env r r1 b h
  refine ⟨⟨?_, ?_⟩, h0⟩
  · rw [h0, h1]; omega
  · rw [h1, h2]

theorem advanceFrame_FrameInv (r r1 : Renderer) (b : Bool)
    (hlen : r.framesCount = r.swapchainResources.length)
    (h : advanceFrame r = some (b, r1)) : FrameInv r1 := by
  unfold advanceFrame at h
  split at h
  · cases h
  · rename_i h0
    simp only [Option.some.injEq, Prod.mk.injEq] at h
    rw [← h.2]
    exact ⟨Nat.mod_lt _ (Nat.pos_of_ne_zero h0), hlen⟩

theorem submitAndPresent_FrameInv (window : Option WindowSize) (env : RenderEnv)
    (current next : SwapchainResources) (r r1 : Renderer) (b : Bool)
    (hlen : r.framesCount = r.swapchainResources.length)
    (himages : 1 ≤ env.build.imagesWritten)
    (h : submitAndPresent window env current next r = some (b, r1)) : FrameInv r1 := by
  unfold submitAndPresent at h
  by_cases hstale : env.presentResult = VK_ERROR_OUT_OF_DATE_KHR ∨
      env.presentResult = VK_SUBOPTIMAL_KHR
  · simp only [hstale, if_true] at h
    cases hres : OnResize window env.build (submitFrame env current next r) with
    | none => simp [hres] at h
    | some p =>
      obtain ⟨b2, r2⟩ := p
      have hinv2 := (OnResize_FrameInv window env.build _ r2 b2 himages hres).1
      cases b2 with
      | false =>
        simp only [hres, Option.some.injEq, Prod.mk.injEq] at h
        rw [← h.2]; exact hinv2
      | true =>
        simp only [hres] at h
        exact advanceFrame_FrameInv r2 r1 b hinv2.2 h
  · simp only [hstale, if_false] at h
    exact advanceFrame_FrameInv _ r1 b (by simpa using hlen) h

theorem recordFrame_FrameInv (window : Option WindowSize) (env : RenderEnv)
    (current : SwapchainResources) (r r1 : Renderer) (b : Bool) (hinv : FrameInv r)
    (himages : 1 ≤ env.build.imagesWritten)
    (h : recordFrame window env current r = some (b, r1)) : FrameInv r1 := by
  unfold recordFrame at h
  cases hlook : r.swapchainResources[r.nextFrame]? with
  | none => simp [hlook] at h
  | some next =>
    simp only [hlook] at h
    have hB : FrameInv (beginRecording env current next r) := by
      unfold FrameInv
      simp only [beginRecording_currentFrame, beginRecording_framesCount,
        beginRecording_swapchainResources, List.length_set]
      exact hinv
    cases hcb : (beginRecording env current next r).callbackOnPresent with
    | none =>
      simp only [hcb] at h
      exact submitAndPresent_FrameInv window env current next _ r1 b hB.2 himages h
    | some callback =>
      simp only [hcb] at h
      split at h
      · simp only [Option.some.injEq, Prod.mk.injEq] at h
        rw [← h.2]
        exact hB
      · exact submitAndPresent_FrameInv window env current next _ r1 b
          (by simpa using hB.2) himages h

/-- `Render` keeps the slot index in bounds on every path on which it
returns. -/
theorem Render_FrameInv (window : Option WindowSize) (env : RenderEnv)
    (r r1 : Renderer) (b : Bool) (hinv : FrameInv r) (himages : 1 ≤ env.build.imagesWritten)
    (h : Render window env r = some (b, r1)) : FrameInv r1 := by
  unfold Render at h
  cases hlook : r.swapchainResources[r.currentFrame]? with
  | none => simp [hlook] at h
  | some current =>
    simp only [hlook] at h
    split at h
    · exact (OnResize_FrameInv window env.build _ r1 b himages h).1
    · refine recordFrame_FrameInv window env current _ r1 b ?_ himages h
      unfold FrameInv
      simpa using hinv

theorem runOps_FrameInv : ∀ (ops : List Op) (r r1 : Renderer), FrameInv r →
    (∀ op ∈ ops, op.buildsImages) → runOps ops r = some r1 → FrameInv r1 := by
  intro ops
  induction ops with
  | nil => intro r r1 hinv _ h; cases h; exact hinv
  | cons op ops ih =>
    intro r r1 hinv hops h
    unfold runOps at h
    cases hop : op.run r with
    | none => simp [hop] at h
    | some p =>
      obtain ⟨b, r2⟩ := p
      simp only [hop] at h
      refine ih r2 r1 ?_ (fun o ho => hops o (List.mem_cons_of_mem _ ho)) h
      have himages := hops op (List.mem_cons_self _ _)
      cases op with
      | render window env => exact Render_FrameInv window env r r2 b hinv himages hop
      | resize window env => exact (OnResize_FrameInv window env r r2 b himages hop).1

theorem Init_FrameInv (window : Option WindowSize) (env : InitEnv) (r r1 : Renderer)
    (hzero : r.currentFrame = 0) (himages : 1 ≤ env.build.imagesWritten)
    (h : Init window env r = some (true, r1)) : FrameInv r1 := by
  unfold Init at h
  rcases hs : InitSurface env r with ⟨bs, rs⟩
  have hs0 : rs.currentFrame = 0 := by
    have : (InitSurface env r).2.currentFrame = 0 := by simp [InitSurface, hzero]
    rw [hs] at this; exact this
  rw [hs] at h
  cases bs with
  | false => simp at h
  | true =>
    simp only at h
    rcases hp : InitCommandPool env (InitGraphicsQueue env rs) with ⟨bp, rp⟩
    have hp0 : rp.currentFrame = 0 := by
      have : (InitCommandPool env (InitGraphicsQueue env rs)).2.currentFrame = 0 := by
        simp [InitCommandPool, InitGraphicsQueue, hs0]
      rw [hp] at this; exact this
    rw [hp] at h
    cases bp with
    | false => simp at h
    | true =>
      simp only at h
      cases hbuild : InitSwapchain window env.build rp with
      | none => simp [hbuild] at h
      | some p =>
        obtain ⟨b2, r2⟩ := p
        obtain ⟨chosen, -, -, hb, g1, g2, -, -, -, g3, -⟩ :=
          InitSwapchain_returns_spec window env.build rp r2 b2 hbuild
        subst hb
        simp only [hbuild, Option.some.injEq, Prod.mk.injEq, true_and] at h
        subst h
        refine ⟨?_, by rw [g1, g2]⟩
        rw [g3, hp0, g1]; omega

/-- With the slot index in bounds, a cycle with no stale result whose acquired
index is in bounds returns: nothing in it is undefined. -/
theorem Render_returns_of_FrameInv (window : Option WindowSize) (env : RenderEnv)
    (r : Renderer) (hinv : FrameInv r) (hstale : env.notStale)
    (hnext : env.acquired.getD r.nextFrame < r.swapchainResources.length) :
    (Render window env r).isSome = true := by
  obtain ⟨hcur, hlen⟩ := hinv
  obtain ⟨hacq, hpres⟩ := hstale
  have hN : r.framesCount ≠ 0 := by omega
  have hcur2 : r.currentFrame < r.swapchainResources.length := by omega
  unfold Render
  simp only [List.getElem?_eq_getElem hcur2, hacq, if_false]
  unfold recordFrame
  simp only [checkError_swapchainResources, acquireImage_swapchainResources,
    checkError_nextFrame, acquireImage_nextFrame, List.getElem?_eq_getElem hnext]
  have hadv : ∀ x : Renderer, x.framesCount = r.framesCount →
      (submitAndPresent window env r.swapchainResources[r.currentFrame]
        r.swapchainResources[env.acquired.getD r.nextFrame] x).isSome = true := by
    intro x hx
    unfold submitAndPresent
    simp only [hpres, if_false]
    unfold advanceFrame
    simp [hx, hN]
  split
  · split
    · rfl
    · exact hadv _ (by simp)
  · exact hadv _ (by simp)

/-- C22: provided every build yields at least one image, `currentFrame <
framesCount = length of the bundle list` holds after a successful `Init` on a
fresh renderer, is preserved by every `Render` call that returns (normal
cycle, rejected frame, stale acquisition, stale presentation, whatever image
count the rebuild yields) and is established by every `OnResize` call that
returns; hence after `Init` and any sequence of such calls the lookup of the
bundle at `currentFrame` is in bounds. With the invariant, a cycle with no
stale result whose acquired index is in bounds does return. -/
theorem currentFrame_stays_in_bounds :
    (∀ (window : Option WindowSize) (env : InitEnv) (r1 : Renderer),
      1 ≤ env.build.imagesWritten → Init window env {} = some (true, r1) → FrameInv r1) ∧
    (∀ (window : Option WindowSize) (env : RenderEnv) (r r1 : Renderer) (b : Bool),
      FrameInv r → 1 ≤ env.build.imagesWritten → Render window env r = some (b, r1) →
      FrameInv r1) ∧
    (∀ (window : Option WindowSize) (env : BuildEnv) (r r1 : Renderer) (b : Bool),
      1 ≤ env.imagesWritten → OnResize window env r = some (b, r1) → FrameInv r1) ∧
    (∀ (window : Option WindowSize) (env : InitEnv) (ops : List Op) (r r1 : Renderer),
      1 ≤ env.build.imagesWritten → (∀ op ∈ ops, op.buildsImages) →
      Init window env {} = some (true, r) → runOps ops r = some r1 →
      FrameInv r1 ∧ ∃ current, r1.swapchainResources[r1.currentFrame]? = some current) ∧
    (∀ (window : Option WindowSize) (env : RenderEnv) (r : Renderer),
      FrameInv r → env.notStale →
      env.acquired.getD r.nextFrame < r.swapchainResources.length →
      (Render window env r).isSome = true) := by
  refine ⟨?_, ?_, ?_, ?_, ?_⟩
  · intro window env r1 himages h
    exact Init_FrameInv window env {} r1 rfl himages h
  · intro window env r r1 b hinv himages h
    exact Render_FrameInv window env r r1 b hinv himages h
  · intro window env r r1 b himages h
    exact (OnResize_FrameInv window env r r1 b himages h).1
  · intro window env ops r r1 himages hops hinit h
    have hinv := runOps_FrameInv ops r r1 (Init_FrameInv window env {} r rfl himages hinit)
      hops h
    have hlt : r1.currentFrame < r1.swapchainResources.length := by
      have := hinv.1; have := hinv.2; omega
    exact ⟨hinv, r1.swapchainResources[r1.currentFrame], List.getElem?_eq_getElem hlt⟩
  · intro window env r hinv hstale hnext
    exact Render_returns_of_FrameInv window env r hinv hstale hnext

theorem exampleOps_buildsImages : ∀ op ∈ exampleOps, op.buildsImages := by
  intro op hop
  simp only [exampleOps, List.mem_cons, List.mem_singleton, List.not_mem_nil, or_false] at hop
  rcases hop with rfl | rfl | rfl | rfl <;> exact (by decide : 1 ≤ 3)

theorem currentFrame_stays_in_bounds_witness :
    (∃ r r1, Init none exampleInit {} = some (true, r) ∧ runOps exampleOps r = some r1 ∧
      FrameInv r1 ∧ ∃ current, r1.swapchainResources[r1.currentFrame]? = some current) ∧
    FrameInv exampleRenderer ∧
    (Render none (successEnv 1) exampleRenderer).isSome = true := by
  have hinv : FrameInv exampleRenderer := by
    unfold FrameInv
    decide
  refine ⟨?_, hinv, currentFrame_stays_in_bounds.2.2.2.2 none (successEnv 1) exampleRenderer
    hinv (successEnv_notStale 1) (by decide)⟩
  have hsome : ((Init none exampleInit {}).bind (fun p =>
      if p.1 = true then runOps exampleOps p.2 else none)).isSome = true := by decide
  cases h0 : Init none exampleInit {} with
  | none => rw [h0] at hsome; cases hsome
  | some p =>
    obtain ⟨b, r⟩ := p
    rw [h0] at hsome
    simp only [Option.some_bind] at hsome
    cases b with
    | false => simp at hsome
    | true =>
      simp only [if_true] at hsome
      cases h1 : runOps exampleOps r with
      | none => rw [h1] at hsome; cases hsome
      | some r1 =>
        exact ⟨r, r1, rfl, h1, currentFrame_stays_in_bounds.2.2.2.1 none exampleInit
          exampleOps r r1 (by decide) exampleOps_buildsImages h0 h1⟩

/-! ## core.cpp: selection of the physical device -/

@[simp] theorem core_call_physicalDevice (c : Core) (x : CoreCall) :
    (c.call x).physicalDevice = c.physicalDevice := rfl

@[simp] theorem core_call_queueFamilyIndex (c : Core) (x : CoreCall) :
    (c.call x).queueFamilyIndex = c.queueFamilyIndex := rfl

@[simp] theorem core_check_physicalDevice (name : String) (result : Int) (c : Core) :
    (Core.CHECK_VK_RESULT name result c).physicalDevice = c.physicalDevice := by
  unfold Core.CHECK_VK_RESULT; split <;> rfl

@[simp] theorem core_check_queueFamilyIndex (name : String) (result : Int) (c : Core) :
    (Core.CHECK_VK_RESULT name result c).queueFamilyIndex = c.queueFamilyIndex := by
  unfold Core.CHECK_VK_RESULT; split <;> rfl

@[simp] theorem core_check_trace (name : String) (result : Int) (c : Core) :
    (Core.CHECK_VK_RESULT name result c).trace = c.trace := by
  unfold Core.CHECK_VK_RESULT; split <;> rfl

theorem deviceScore_pos (deviceType : Int) (score : Nat)
    (h : deviceScore deviceType = some score) : 1 ≤ score := by
  unfold deviceScore at h
  split_ifs at h <;> cases h <;> decide

theorem scoreOf_eq_zero_iff (env : DeviceEnv) (d : Nat) :
    scoreOf env d = 0 ↔ deviceScore (env.deviceType d) = none := by
  unfold scoreOf
  cases h : deviceScore (env.deviceType d) with
  | none => simp
  | some s =>
    have := deviceScore_pos _ _ h
    simp
    omega

/-- The selection loop started with `bestScore`: either no device scores
higher, and nothing changes, or the loop ends on the first device whose score
is the highest of the list. -/
theorem selectPhysicalDevice_spec (env : DeviceEnv) : ∀ (ds : List Nat) (best : Nat) (c : Core),
    ((selectPhysicalDevice env ds best c).1 = best ∧
      (selectPhysicalDevice env ds best c).2.physicalDevice = c.physicalDevice ∧
      ∀ d ∈ ds, scoreOf env d ≤ best) ∨
    (∃ (k d : Nat), ds[k]? = some d ∧
      (selectPhysicalDevice env ds best c).2.physicalDevice = d ∧
      (selectPhysicalDevice env ds best c).1 = scoreOf env d ∧ best < scoreOf env d ∧
      (∀ e ∈ ds, scoreOf env e ≤ scoreOf env d) ∧
      ∀ (j e : Nat), j < k → ds[j]? = some e → scoreOf env e < scoreOf env d) := by
  intro ds
  induction ds with
  | nil => intro best c; exact Or.inl ⟨rfl, rfl, by simp⟩
  | cons d rest ih =>
    intro best c
    have hlater : ∀ (best2 : Nat) (c2 : Core) (x : Nat),
        (∃ (k e : Nat), rest[k]? = some e ∧
          (selectPhysicalDevice env rest best2 c2).2.physicalDevice = e ∧
          (selectPhysicalDevice env rest best2 c2).1 = scoreOf env e ∧
          best2 < scoreOf env e ∧
          (∀ f ∈ rest, scoreOf env f ≤ scoreOf env e) ∧
          ∀ (j f : Nat), j < k → rest[j]? = some f → scoreOf env f < scoreOf env e) →
        scoreOf env d ≤ best2 → best ≤ best2 →
        ∃ (k e : Nat), (d :: rest)[k]? = some e ∧
          (selectPhysicalDevice env rest best2 c2).2.physicalDevice = e ∧
          (selectPhysicalDevice env rest best2 c2).1 = scoreOf env e ∧
          best < scoreOf env e ∧
          (∀ f ∈ d :: rest, scoreOf env f ≤ scoreOf env e) ∧
          ∀ (j f : Nat), j < k → (d :: rest)[j]? = some f → scoreOf env f < scoreOf env e := by
      intro best2 c2 x ⟨k, e, h1, h2, h3, h4, h5, h6⟩ hd hb
      refine ⟨k + 1, e, by simpa using h1, h2, h3, by omega, ?_, ?_⟩
      · intro f hf
        rcases List.mem_cons.1 hf with rfl | hf
        · omega
        · exact h5 f hf
      · intro j f hj hf
        cases j with
        | zero =>
          simp only [List.getElem?_cons_zero, Option.some.injEq] at hf
          subst hf; omega
        | succ j =>
          simp only [List.getElem?_cons_succ] at hf
          exact h6 j f (by omega) hf
    have hskip : scoreOf env d ≤ best →
        ((selectPhysicalDevice env rest best
            (c.call (CoreCall.vkGetPhysicalDeviceProperties d))).1 = best ∧
          (selectPhysicalDevice env rest best
            (c.call (CoreCall.vkGetPhysicalDeviceProperties d))).2.physicalDevice =
            c.physicalDevice ∧
          ∀ e ∈ d :: rest, scoreOf env e ≤ best) ∨
        (∃ (k e : Nat), (d :: rest)[k]? = some e ∧
          (selectPhysicalDevice env rest best
            (c.call (CoreCall.vkGetPhysicalDeviceProperties d))).2.physicalDevice = e ∧
          (selectPhysicalDevice env rest best
            (c.call (CoreCall.vkGetPhysicalDeviceProperties d))).1 = scoreOf env e ∧
          best < scoreOf env e ∧
          (∀ f ∈ d :: rest, scoreOf env f ≤ scoreOf env e) ∧
          ∀ (j f : Nat), j < k → (d :: rest)[j]? = some f → scoreOf env f < scoreOf env e) := by
      intro hd
      rcases ih best (c.call (CoreCall.vkGetPhysicalDeviceProperties d)) with
        ⟨h1, h2, h3⟩ | h
      · refine Or.inl ⟨h1, h2, ?_⟩
        intro e he
        rcases List.mem_cons.1 he with rfl | he
        · exact hd
        · exact h3 e he
      · exact Or.inr (hlater best _ 0 h hd (le_refl _))
    unfold selectPhysicalDevice
    cases hscore : deviceScore (env.deviceType d) with
    | none =>
      simp only
      exact hskip (by simp [scoreOf, hscore])
    | some score =>
      have hsd : scoreOf env d = score := by simp [scoreOf, hscore]
      simp only
      split
      · rename_i hgt
        rcases ih score { c.call (CoreCall.vkGetPhysicalDeviceProperties d) with
            physicalDevice := d } with ⟨h1, h2, h3⟩ | h
        · refine Or.inr ⟨0, d, by simp, h2, by rw [h1, hsd], by omega, ?_, ?_⟩
          · intro f hf
            rcases List.mem_cons.1 hf with rfl | hf
            · exact le_refl _
            · rw [hsd]; exact h3 f hf
          · intro j f hj _
            omega
        · exact Or.inr (hlater score _ 0 h (by omega) (by omega))
      · rename_i hle
        exact hskip (by omega)

/-- The state in which the selection loop of `selectDevice` starts. -/
theorem selectDevice_eq (env : DeviceEnv) (c : Core) :
    selectDevice env c =
      if env.physicalDevices.isEmpty then
        (false, (Core.CHECK_VK_RESULT "vkEnumeratePhysicalDevices" env.enumerateResult
          ((Core.CHECK_VK_RESULT "vkEnumeratePhysicalDevices" env.enumerateCountResult
            (c.call CoreCall.vkEnumeratePhysicalDevices)).call
              CoreCall.vkEnumeratePhysicalDevices)).cerr
          "Vulkan: Failed to get physical devices")
      else if (selectPhysicalDevice env env.physicalDevices 0
          (Core.CHECK_VK_RESULT "vkEnumeratePhysicalDevices" env.enumerateResult
            ((Core.CHECK_VK_RESULT "vkEnumeratePhysicalDevices" env.enumerateCountResult
              (c.call CoreCall.vkEnumeratePhysicalDevices)).call
                CoreCall.vkEnumeratePhysicalDevices))).1 = 0 then
        (false, (selectPhysicalDevice env env.physicalDevices 0
          (Core.CHECK_VK_RESULT "vkEnumeratePhysicalDevices" env.enumerateResult
            ((Core.CHECK_VK_RESULT "vkEnumeratePhysicalDevices" env.enumerateCountResult
              (c.call CoreCall.vkEnumeratePhysicalDevices)).call
                CoreCall.vkEnumeratePhysicalDevices))).2.cerr
          "Vulkan: Failed to select physical device")
      else
        (true, (selectPhysicalDevice env env.physicalDevices 0
          (Core.CHECK_VK_RESULT "vkEnumeratePhysicalDevices" env.enumerateResult
            ((Core.CHECK_VK_RESULT "vkEnumeratePhysicalDevices" env.enumerateCountResult
              (c.call CoreCall.vkEnumeratePhysicalDevices)).call
                CoreCall.vkEnumeratePhysicalDevices))).2) := by
  rfl

/-- What `selectDevice` does: it reports failure exactly when no enumerated
device has a recognised type, and then leaves `physicalDevice` alone;
otherwise it ends on the first device whose score is the highest. -/
theorem selectDevice_spec (env : DeviceEnv) (c : Core) :
    ((selectDevice env c).1 = false ∧
      (selectDevice env c).2.physicalDevice = c.physicalDevice ∧
      ∀ d ∈ env.physicalDevices, deviceScore (env.deviceType d) = none) ∨
    ((selectDevice env c).1 = true ∧
      ∃ (k d : Nat), env.physicalDevices[k]? = some d ∧
        (selectDevice env c).2.physicalDevice = d ∧
        deviceScore (env.deviceType d) ≠ none ∧
        (∀ e ∈ env.physicalDevices, scoreOf env e ≤ scoreOf env d) ∧
        ∀ (j e : Nat), j < k → env.physicalDevices[j]? = some e →
          scoreOf env e < scoreOf env d) := by
  rw [selectDevice_eq]
  by_cases hempty : env.physicalDevices.isEmpty = true
  · rw [if_pos hempty]
    refine Or.inl ⟨rfl, by simp [Core.cerr], ?_⟩
    rw [List.isEmpty_iff] at hempty
    rw [hempty]
    simp
  · rw [if_neg hempty]
    rcases selectPhysicalDevice_spec env env.physicalDevices 0
        (Core.CHECK_VK_RESULT "vkEnumeratePhysicalDevices" env.enumerateResult
          ((Core.CHECK_VK_RESULT "vkEnumeratePhysicalDevices" env.enumerateCountResult
            (c.call CoreCall.vkEnumeratePhysicalDevices)).call
              CoreCall.vkEnumeratePhysicalDevices)) with ⟨h1, h2, h3⟩ | ⟨k, d, h1, h2, h3, h4, h5, h6⟩
    · rw [if_pos h1]
      refine Or.inl ⟨rfl, by simpa [Core.cerr] using h2, ?_⟩
      intro d hd
      exact (scoreOf_eq_zero_iff env d).1 (Nat.le_zero.1 (h3 d hd))
    · rw [if_neg (by omega)]
      refine Or.inr ⟨rfl, k, d, h1, h2, ?_, h5, h6⟩
      intro hnone
      have := (scoreOf_eq_zero_iff env d).2 hnone
      omega

theorem findQueueFamily_physicalDevice (env : DeviceEnv) :
    ∀ (families : List VkQueueFamilyProperties) (i : Nat) (c : Core),
    (findQueueFamily env families i c).physicalDevice = c.physicalDevice := by
  intro families
  induction families with
  | nil => intro i c; rfl
  | cons f rest ih =>
    intro i c
    unfold findQueueFamily
    simp only [core_call_physicalDevice]
    split
    · rfl
    · rw [ih]; rfl

theorem createLogicalDevice_physicalDevice (env : DeviceEnv) (c : Core) :
    (createLogicalDevice env c).2.physicalDevice = c.physicalDevice := by
  unfold createLogicalDevice
  simp [findQueueFamily_physicalDevice]

theorem InitVkDevice_of_selected (env : DeviceEnv) (c : Core)
    (h : (selectDevice env c).1 = true) :
    InitVkDevice env c = createLogicalDevice env (selectDevice env c).2 := by
  unfold InitVkDevice
  rcases hs : selectDevice env c with ⟨b, c2⟩
  rw [hs] at h
  simp only at h
  subst h
  rfl

theorem InitVkDevice_of_not_selected (env : DeviceEnv) (c : Core)
    (h : (selectDevice env c).1 = false) :
    InitVkDevice env c = (false, (selectDevice env c).2) := by
  unfold InitVkDevice
  rcases hs : selectDevice env c with ⟨b, c2⟩
  rw [hs] at h
  simp only at h
  subst h
  rfl

/-- C23: the scores are discrete 5, integrated 4, virtual 3, CPU 2, other 1,
and a device of any other type is skipped. For every list of enumerated
devices, device selection in `InitVkDevice` fails exactly when the list is
empty or holds no device of a recognised type, and `InitVkDevice` then returns
false with `physicalDevice` untouched; otherwise it picks the first device in
enumeration order whose score is the highest of the list, and that is the
device `InitVkDevice` leaves in `physicalDevice`. -/
theorem InitVkDevice_selects_first_best_device (env : DeviceEnv) (c : Core) :
    (deviceScore VK_PHYSICAL_DEVICE_TYPE_DISCRETE_GPU = some 5 ∧
      deviceScore VK_PHYSICAL_DEVICE_TYPE_INTEGRATED_GPU = some 4 ∧
      deviceScore VK_PHYSICAL_DEVICE_TYPE_VIRTUAL_GPU = some 3 ∧
      deviceScore VK_PHYSICAL_DEVICE_TYPE_CPU = some 2 ∧
      deviceScore VK_PHYSICAL_DEVICE_TYPE_OTHER = some 1 ∧
      ∀ deviceType : Int, deviceType ≠ VK_PHYSICAL_DEVICE_TYPE_DISCRETE_GPU →
        deviceType ≠ VK_PHYSICAL_DEVICE_TYPE_INTEGRATED_GPU →
        deviceType ≠ VK_PHYSICAL_DEVICE_TYPE_VIRTUAL_GPU →
        deviceType ≠ VK_PHYSICAL_DEVICE_TYPE_CPU →
        deviceType ≠ VK_PHYSICAL_DEVICE_TYPE_OTHER → deviceScore deviceType = none) ∧
    ((selectDevice env c).1 = false ↔
      env.physicalDevices = [] ∨
        ∀ d ∈ env.physicalDevices, deviceScore (env.deviceType d) = none) ∧
    ((selectDevice env c).1 = false →
      InitVkDevice env c = (false, (selectDevice env c).2) ∧
      GetPhysicalDevice (InitVkDevice env c).2 = GetPhysicalDevice c) ∧
    ((selectDevice env c).1 = true →
      ∃ (k d : Nat), env.physicalDevices[k]? = some d ∧
        GetPhysicalDevice (InitVkDevice env c).2 = d ∧
        deviceScore (env.deviceType d) ≠ none ∧
        (∀ e ∈ env.physicalDevices, scoreOf env e ≤ scoreOf env d) ∧
        ∀ (j e : Nat), j < k → env.physicalDevices[j]? = some e →
          scoreOf env e < scoreOf env d) := by
  refine ⟨⟨by decide, by decide, by decide, by decide, by decide, ?_⟩, ?_, ?_, ?_⟩
  · intro t h1 h2 h3 h4 h5
    unfold deviceScore
    simp [h1, h2, h3, h4, h5]
  · rcases selectDevice_spec env c with ⟨h1, -, h3⟩ | ⟨h1, k, d, g1, -, g3, -⟩
    · exact ⟨fun _ => Or.inr h3, fun _ => h1⟩
    · constructor
      · intro h; rw [h1] at h; cases h
      · intro h
        have hmem : d ∈ env.physicalDevices := List.getElem?_mem g1
        rcases h with h | h
        · rw [h] at hmem; cases hmem
        · exact absurd (h d hmem) g3
  · intro hfail
    rcases selectDevice_spec env c with ⟨-, h2, -⟩ | ⟨h1, -⟩
    · refine ⟨InitVkDevice_of_not_selected env c hfail, ?_⟩
      rw [InitVkDevice_of_not_selected env c hfail]
      exact h2
    · rw [h1] at hfail; cases hfail
  · intro hok
    rcases selectDevice_spec env c with ⟨h1, -⟩ | ⟨-, k, d, g1, g2, g3, g4, g5⟩
    · rw [h1] at hok; cases hok
    · refine ⟨k, d, g1, ?_, g3, g4, g5⟩
      rw [InitVkDevice_of_selected env c hok]
      unfold GetPhysicalDevice
      rw [createLogicalDevice_physicalDevice]
      exact g2

theorem InitVkDevice_selects_first_best_device_witness :
    ((selectDevice exampleDevices {}).1 = true ∧
      ∃ (k d : Nat), exampleDevices.physicalDevices[k]? = some d ∧
        GetPhysicalDevice (InitVkDevice exampleDevices {}).2 = d ∧
        deviceScore (exampleDevices.deviceType d) ≠ none ∧
        (∀ e ∈ exampleDevices.physicalDevices,
          scoreOf exampleDevices e ≤ scoreOf exampleDevices d) ∧
        ∀ (j e : Nat), j < k → exampleDevices.physicalDevices[j]? = some e →
          scoreOf exampleDevices e < scoreOf exampleDevices d) ∧
    ((selectDevice unknownDevices {}).1 = false ∧
      InitVkDevice unknownDevices {} = (false, (selectDevice unknownDevices {}).2) ∧
      GetPhysicalDevice (InitVkDevice unknownDevices {}).2 = GetPhysicalDevice {}) ∧
    deviceScore 7 = none := by
  have hok : (selectDevice exampleDevices {}).1 = true := by decide
  have hfail : (selectDevice unknownDevices {}).1 = false := by decide
  exact ⟨⟨hok, (InitVkDevice_selects_first_best_device exampleDevices {}).2.2.2 hok⟩,
    ⟨hfail, (InitVkDevice_selects_first_best_device unknownDevices {}).2.2.1 hfail⟩,
    (InitVkDevice_selects_first_best_device exampleDevices {}).1.2.2.2.2.2 7
      (by decide) (by decide) (by decide) (by decide) (by decide)⟩

/-! ## core.cpp: the queue family (C21) -/

theorem findQueueFamily_queueFamilyIndex (env : DeviceEnv) :
    ∀ (families : List VkQueueFamilyProperties) (i : Nat) (c : Core),
    (findQueueFamily env families i c).queueFamilyIndex =
      (((families.enumFrom i).find?
        (fun p => qualifies env c.physicalDevice p.1 p.2)).map (fun p => p.1)).getD
          c.queueFamilyIndex := by
  intro families
  induction families with
  | nil => intro i c; rfl
  | cons f rest ih =>
    intro i c
    unfold findQueueFamily
    simp only [core_call_physicalDevice, List.enumFrom_cons, List.find?_cons]
    by_cases hq : env.presentationSupport c.physicalDevice i ≠ 0 ∧
        (f.queueFlags &&& VK_QUEUE_GRAPHICS_BIT) ≠ 0
    · have hq2 : qualifies env c.physicalDevice i f = true := by
        unfold qualifies; exact decide_eq_true hq
      rw [if_pos hq]
      simp [hq2]
    · have hq2 : qualifies env c.physicalDevice i f = false := by
        unfold qualifies; exact decide_eq_false hq
      rw [if_neg hq]
      simp only [hq2]
      rw [ih]
      rfl

/-- The queue family index after `createLogicalDevice`: the lowest index of a
family that supports presentation and has the graphics bit, and the index
from before when there is no such family. -/
theorem createLogicalDevice_queueFamilyIndex (env : DeviceEnv) (c : Core) :
    (createLogicalDevice env c).2.queueFamilyIndex =
      (lowestQualifying env c.physicalDevice).getD c.queueFamilyIndex := by
  unfold createLogicalDevice lowestQualifying
  simp only [core_check_queueFamilyIndex, core_call_queueFamilyIndex,
    core_call_physicalDevice, findQueueFamily_queueFamilyIndex]
  rfl

theorem find?_enumFrom_spec (env : DeviceEnv) (physicalDevice : Nat) :
    ∀ (families : List VkQueueFamilyProperties) (i n : Nat) (f : VkQueueFamilyProperties),
    (families.enumFrom i).find? (fun p => qualifies env physicalDevice p.1 p.2) = some (n, f) →
    i ≤ n ∧ families[n - i]? = some f ∧ qualifies env physicalDevice n f = true ∧
      ∀ (j : Nat) (e : VkQueueFamilyProperties), j < n - i → families[j]? = some e →
        qualifies env physicalDevice (i + j) e = false := by
  intro families
  induction families with
  | nil => intro i n f h; simp at h
  | cons x rest ih =>
    intro i n f h
    simp only [List.enumFrom_cons, List.find?_cons] at h
    cases hq : qualifies env physicalDevice i x with
    | true =>
      simp only [hq, Option.some.injEq, Prod.mk.injEq] at h
      obtain ⟨h1, h2⟩ := h
      subst h1 h2
      refine ⟨le_refl _, by simp, hq, ?_⟩
      intro j e hj
      omega
    | false =>
      simp only [hq] at h
      obtain ⟨g1, g2, g3, g4⟩ := ih (i + 1) n f h
      have hsub : n - i = (n - (i + 1)) + 1 := by omega
      refine ⟨by omega, by rw [hsub]; simpa using g2, g3, ?_⟩
      intro j e hj he
      cases j with
      | zero =>
        simp only [List.getElem?_cons_zero, Option.some.injEq] at he
        subst he
        exact hq
      | succ j =>
        simp only [List.getElem?_cons_succ] at he
        have := g4 j e (by omega) he
        rw [← this]
        congr 1
        omega

/-- When `lowestQualifying` yields an index, the family at that index supports
presentation and has the graphics bit, and no family below it does. -/
theorem lowestQualifying_some (env : DeviceEnv) (physicalDevice i : Nat)
    (h : lowestQualifying env physicalDevice = some i) :
    ∃ family, (env.queueFamilies physicalDevice)[i]? = some family ∧
      env.presentationSupport physicalDevice i ≠ 0 ∧
      (family.queueFlags &&& VK_QUEUE_GRAPHICS_BIT) ≠ 0 ∧
      ∀ (j : Nat) (e : VkQueueFamilyProperties), j < i →
        (env.queueFamilies physicalDevice)[j]? = some e →
        qualifies env physicalDevice j e = false := by
  unfold lowestQualifying at h
  cases hfind : (env.queueFamilies physicalDevice).enum.find?
      (fun p => qualifies env physicalDevice p.1 p.2) with
  | none => simp [hfind] at h
  | some p =>
    obtain ⟨n, f⟩ := p
    simp only [hfind, Option.map_some', Option.some.injEq] at h
    subst h
    obtain ⟨-, g2, g3, g4⟩ := find?_enumFrom_spec env physicalDevice _ 0 n f hfind
    have g3b := g3
    unfold qualifies at g3b
    have hq := of_decide_eq_true g3b
    refine ⟨f, by simpa using g2, hq.1, hq.2, ?_⟩
    intro j e hj he
    have := g4 j e (by simpa using hj) he
    simpa using this

/-- When `lowestQualifying` yields nothing, no family supports presentation
and has the graphics bit. -/
theorem lowestQualifying_none (env : DeviceEnv) (physicalDevice : Nat)
    (h : lowestQualifying env physicalDevice = none) :
    ∀ (j : Nat) (e : VkQueueFamilyProperties),
      (env.queueFamilies physicalDevice)[j]? = some e →
      qualifies env physicalDevice j e = false := by
  intro j e he
  unfold lowestQualifying at h
  simp only [Option.map_eq_none', List.find?_eq_none] at h
  have hmem : (j, e) ∈ (env.queueFamilies physicalDevice).enum := by
    rw [List.mk_mem_enum_iff_getElem?]
    exact he
  simpa using h (j, e) hmem

theorem selectPhysicalDevice_queueFamilyIndex (env : DeviceEnv) :
    ∀ (ds : List Nat) (best : Nat) (c : Core),
    (selectPhysicalDevice env ds best c).2.queueFamilyIndex = c.queueFamilyIndex := by
  intro ds
  induction ds with
  | nil => intro best c; rfl
  | cons d rest ih =>
    intro best c
    unfold selectPhysicalDevice
    cases deviceScore (env.deviceType d) with
    | none => simp only; rw [ih]; rfl
    | some score =>
      simp only
      split
      · rw [ih]; rfl
      · rw [ih]; rfl

theorem selectDevice_queueFamilyIndex (env : DeviceEnv) (c : Core) :
    (selectDevice env c).2.queueFamilyIndex = c.queueFamilyIndex := by
  rw [selectDevice_eq]
  split
  · simp [Core.cerr]
  · split
    · simp [Core.cerr, selectPhysicalDevice_queueFamilyIndex]
    · simp [selectPhysicalDevice_queueFamilyIndex]

/-- C21 (evaluation of the code): on a machine where no queue family of the
selected device 50 supports presentation, `InitVkDevice` creates the logical
device on family 0 and returns true, and the exposed index 0 is a family
without presentation support; where only the compute family 0 supports
presentation, the exposed index 0 is a family without the graphics bit. On
the machine where family 1 qualifies the exposed index is 1. In general the
index after `InitVkDevice` is the lowest qualifying index when the selected
device has one, and the index from before (0 on a fresh `Core`) otherwise:
nothing tests that a family was found. -/
theorem InitVkDevice_exposes_unvalidated_queue_family :
    ((InitVkDevice noPresentDevices {}).1,
      GetPhysicalDevice (InitVkDevice noPresentDevices {}).2,
      GetQueueFamilyIndex (InitVkDevice noPresentDevices {}).2,
      noPresentDevices.presentationSupport 50 0,
      (InitVkDevice noPresentDevices {}).2.trace.getLast?) =
      (true, 50, 0, 0, some (CoreCall.vkCreateDevice 50 0 1 70)) ∧
    ((InitVkDevice computePresentDevices {}).1,
      GetPhysicalDevice (InitVkDevice computePresentDevices {}).2,
      GetQueueFamilyIndex (InitVkDevice computePresentDevices {}).2,
      (computePresentDevices.queueFamilies 50)[0]?.map
        (fun family => family.queueFlags &&& VK_QUEUE_GRAPHICS_BIT)) =
      (true, 50, 0, some 0) ∧
    ((InitVkDevice exampleDevices {}).1,
      GetPhysicalDevice (InitVkDevice exampleDevices {}).2,
      GetQueueFamilyIndex (InitVkDevice exampleDevices {}).2) = (true, 50, 1) ∧
    ∀ (env : DeviceEnv) (c : Core),
      GetQueueFamilyIndex (InitVkDevice env c).2 =
        if (selectDevice env c).1 = true then
          (lowestQualifying env (GetPhysicalDevice (selectDevice env c).2)).getD
            (GetQueueFamilyIndex c)
        else GetQueueFamilyIndex c := by
  refine ⟨by decide, by decide, by decide, ?_⟩
  intro env c
  unfold GetQueueFamilyIndex GetPhysicalDevice
  by_cases h : (selectDevice env c).1 = true
  · rw [if_pos h, InitVkDevice_of_selected env c h, createLogicalDevice_queueFamilyIndex,
      selectDevice_queueFamilyIndex]
  · rw [if_neg h]
    have hf : (selectDevice env c).1 = false := by
      cases hb : (selectDevice env c).1 with
      | true => exact absurd hb h
      | false => rfl
    rw [InitVkDevice_of_not_selected env c hf]
    exact selectDevice_queueFamilyIndex env c

/-! ## The result of `OnResize` (C5) -/

/-- C5 (evaluation of the code): on the example chain, when the driver
rejects the creation of the new chain with `VK_ERROR_INITIALIZATION_FAILED`
and every creation call of the loop, `OnResize` has asked for one chain,
holds a null chain handle, and still returns true with `currentFrame = 0`.
`OnResize` returns the Boolean `InitSwapchain` returns on the torn-down
state, and no run of `OnResize` returns false. -/
theorem OnResize_returns_true_when_the_build_fails :
    (rejectingBuild.createSwapchainResult = -3 ∧
      (OnResize none rejectingBuild exampleRenderer).map
        (fun p => (p.1, p.2.currentFrame, p.2.swapchain,
          (requestedImageCounts p.2.trace).length)) = some (true, 0, 0, 1)) ∧
    (∀ (window : Option WindowSize) (env : BuildEnv) (r : Renderer),
      (OnResize window env r).map (fun p => p.1) =
        (InitSwapchain window env (DestroySwapchain r)).map (fun p => p.1)) ∧
    ∀ (window : Option WindowSize) (env : BuildEnv) (r : Renderer),
      Option.all (fun p => p.1 && decide (p.2.currentFrame = 0)) (OnResize window env r) =
        true := by
  refine ⟨⟨by decide, by decide⟩, ?_, ?_⟩
  · intro window env r
    unfold OnResize OnResizeWith
    cases hbuild : InitSwapchain window env (DestroySwapchain r) with
    | none => simp [hbuild]
    | some p =>
      obtain ⟨b, r1⟩ := p
      cases b <;> simp [hbuild]
  · intro window env r
    cases h : OnResize window env r with
    | none => rfl
    | some p =>
      obtain ⟨b, r1⟩ := p
      obtain ⟨-, -, -, hb, h0, -⟩ := OnResize_returns_spec window env r r1 b h
      simp [Option.all, hb, h0]

/-! ## The order of releases and the order of creations (C17) -/

/-- C17: a build in which the driver answers every creation call with a
handle creates, as the trace of `InitSwapchain` shows, the chain, the render
pass and then per bundle command buffer, image view, framebuffer, two
semaphores and fence. On every chain that holds the objects of that build
`DestroySwapchain` releases, for each bundle in turn, its fence, its two
semaphores, its framebuffer, its image view and its command buffer, then the
render pass and last the chain object; the kinds of object it releases are,
in order, the reverse of the kinds `InitSwapchain` created. -/
theorem DestroySwapchain_releases_in_reverse_kind_order (window : Option WindowSize)
    (env : BuildEnv) (r : Renderer) (chosenFormat : VkSurfaceFormatKHR)
    (hformat : chooseFormat env.formats = some chosenFormat)
    (himages : env.imagesCount = env.imagesWritten) (hcomplete : env.complete) :
    ∃ r1, InitSwapchain window env r = some (true, r1) ∧
      (createdObjects (r1.trace.drop r.trace.length)).map Prod.fst =
        [ObjectKind.chain, ObjectKind.renderPass] ++
          (List.replicate r1.swapchainResources.length
            [ObjectKind.commandBuffer, ObjectKind.imageView, ObjectKind.framebuffer,
             ObjectKind.semaphore, ObjectKind.semaphore, ObjectKind.fence]).flatten ∧
      ∀ r2 : Renderer, r2.swapchain = r1.swapchain → r2.renderPass = r1.renderPass →
        r2.swapchainResources.map bundleObjects = r1.swapchainResources.map bundleObjects →
        (DestroySwapchain r2).trace = r2.trace ++
          r2.swapchainResources.flatMap (fun s =>
            [Call.vkDestroyFence s.fence, Call.vkDestroySemaphore s.startSemaphore,
             Call.vkDestroySemaphore s.endSemaphore, Call.vkDestroyFramebuffer s.framebuffer,
             Call.vkDestroyImageView s.imageView, Call.vkFreeCommandBuffers s.commandBuffer]) ++
          [Call.vkDestroyRenderPass r2.renderPass, Call.vkDestroySwapchainKHR r2.swapchain] ∧
        (releasedObjects ((DestroySwapchain r2).trace.drop r2.trace.length)).map Prod.fst =
          ((createdObjects (r1.trace.drop r.trace.length)).map Prod.fst).reverse := by
  obtain ⟨r1, h1, h2, -, h4, h5, h6, -⟩ :=
    InitSwapchain_contents window env r chosenFormat hformat himages
  have hbuilt : r1.trace.drop r.trace.length = InitSwapchainCalls window env chosenFormat := by
    rw [h4]; simp
  have hlen1 : r1.swapchainResources.length = env.imagesCount := by rw [h2]; simp
  have hcreated : (createdObjects (r1.trace.drop r.trace.length)).map Prod.fst =
      [ObjectKind.chain, ObjectKind.renderPass] ++
        (List.replicate r1.swapchainResources.length
          [ObjectKind.commandBuffer, ObjectKind.imageView, ObjectKind.framebuffer,
           ObjectKind.semaphore, ObjectKind.semaphore, ObjectKind.fence]).flatten := by
    rw [hbuilt, hlen1, createdObjects_InitSwapchainCalls, List.map_append,
      List.range_eq_range', map_fst_flatMap_bundleObjects]
    rfl
  refine ⟨r1, h1, hcreated, ?_⟩
  intro r2 hchain hpass hobjects
  have hc1 : ∀ s ∈ r1.swapchainResources, s.complete := by
    intro s hs
    rw [h2] at hs
    obtain ⟨i, -, rfl⟩ := List.mem_map.1 hs
    exact hcomplete.2.2 i
  have hc2 : ∀ s ∈ r2.swapchainResources, s.complete :=
    complete_of_map_bundleObjects_eq _ _ hobjects hc1
  have hlen2 : r2.swapchainResources.length = r1.swapchainResources.length := by
    have := congrArg List.length hobjects
    simpa using this
  have hcalls := DestroySwapchainCalls_complete r2 hc2
    (by rw [hpass, h6]; exact hcomplete.2.1) (by rw [hchain, h5]; exact hcomplete.1)
  have htrace : (DestroySwapchain r2).trace = r2.trace ++ DestroySwapchainCalls r2 := by
    simp [DestroySwapchainCalls]
  have hdrop : (DestroySwapchain r2).trace.drop r2.trace.length = DestroySwapchainCalls r2 := by
    rw [htrace]; simp
  refine ⟨?_, ?_⟩
  · rw [htrace, hcalls, List.append_assoc]
    rfl
  · rw [hdrop, hcreated, hcalls, releasedObjects_append, releasedObjects_bundleReleaseCalls,
      List.map_append, map_fst_flatMap_bundleReleasedObjects, List.reverse_append,
      reverse_flatten_replicate, hlen2]
    rfl

theorem DestroySwapchain_releases_in_reverse_kind_order_witness :
    ∃ r1, InitSwapchain none exampleBuild {} = some (true, r1) ∧
      (createdObjects (r1.trace.drop 0)).map Prod.fst =
        [ObjectKind.chain, ObjectKind.renderPass] ++
          (List.replicate r1.swapchainResources.length
            [ObjectKind.commandBuffer, ObjectKind.imageView, ObjectKind.framebuffer,
             ObjectKind.semaphore, ObjectKind.semaphore, ObjectKind.fence]).flatten ∧
      (releasedObjects ((DestroySwapchain r1).trace.drop r1.trace.length)).map Prod.fst =
        ((createdObjects (r1.trace.drop 0)).map Prod.fst).reverse := by
  obtain ⟨r1, h1, h2, h3⟩ := DestroySwapchain_releases_in_reverse_kind_order none
    exampleBuild {} { format := 44, colorSpace := 0 } (by decide) rfl
    ⟨by decide, by decide, fun i => by
      simp [SwapchainResources.complete, builtBundle, exampleBuild, exampleBundle]⟩
  exact ⟨r1, h1, h2, (h3 r1 rfl rfl rfl).2⟩

end NcBar
